import Mathlib

/-!
X11 / XVideo video output (`plugins/x11/xcommon.c`).

A shallow embedding of the picture-buffer pool (`vout_Init`, `vout_End`,
`NewPicture`, `FreePicture`, `CreateShmImage`, `CreateImage`), of the event
loop of `vout_Manage`, of the session (`vout_Create`, `vout_Destroy`,
`CreateWindow`, `InitDisplay`, the cursor and the screen saver), of
`vout_Display` and of `XVideoGetPort`, followed by the properties proved about
them.

Conventions of the embedding.

* The file is compiled twice in the original, once with `MODULE_NAME_IS_x11`
  and once with `MODULE_NAME_IS_xvideo`; the build variant is the parameter
  `Module` of every function whose text depends on it.
* C `int` and `off_t` values are integers (`Int`); `/` of the C source is
  truncating division, `Int.tdiv`. Signed overflow is undefined in C; the
  compiled plugin keeps the low 32 bits of an `int` product, and the products
  that size a picture plane (`NewPicture`, planar case) and the window
  (`CreateWindow`) are computed that way, with `int_mul`. The other sums and
  products are the mathematical ones.
* Pointers into `p_vout->p_picture` are indices into that table.
* The X server and the operating system are a value of type `World`: the live
  handles, the shared-memory attachments, the screen-saver parameters, the
  cursor of the main window and the clock. What a fallible library call
  answers during one `NewPicture` call is an `Outcome`.
-/

namespace Xcommon

/-! ## Data model -/

/-- The build variant: `MODULE_NAME_IS_x11` or `MODULE_NAME_IS_xvideo`. -/
inductive Module where
  | x11
  | xvideo
  deriving DecidableEq

/-- Line 203-211: `MAX_DIRECTBUFFERS` is 5 in the xvideo build, 2 otherwise. -/
def MAX_DIRECTBUFFERS : Module → Nat
  | .xvideo => 5
  | .x11 => 2

/-- Chroma codes of `video.h`; only the two the plugin names are told apart,
every other code is `OTHER`. -/
inductive Chroma where
  | YUV_420_PICTURE
  | RGB_16BPP_PICTURE
  | OTHER (code : Nat)
  deriving DecidableEq

/-- Picture status codes of `video.h`; the plugin only tests for
`FREE_PICTURE` and only writes `DESTROYED_PICTURE`. -/
inductive PictureStatus where
  | FREE_PICTURE
  | DESTROYED_PICTURE
  | OTHER (code : Nat)
  deriving DecidableEq

/-- Picture type codes of `video.h`; the plugin only writes `DIRECT_PICTURE`. -/
inductive PictureType where
  | DIRECT_PICTURE
  | OTHER (code : Nat)
  deriving DecidableEq

/-- One plane of a picture (`plane_t`). `p_data` is the byte offset of the
plane from `p_image->data`, the start of the image buffer. -/
structure plane_t where
  p_data : Int
  i_bytes : Int
  i_line_bytes : Int
  deriving DecidableEq

/-- Plane indices of `video.h`. -/
def Y_PLANE : Nat := 0

/-- Plane indices of `video.h`. -/
def U_PLANE : Nat := 1

/-- Plane indices of `video.h`. -/
def V_PLANE : Nat := 2

/-- Plane indices of `video.h`. -/
def RGB_PLANE : Nat := 0

/-- The segment descriptor `XShmSegmentInfo`. A mapping address is identified
with the id of the segment it maps. -/
structure XShmSegmentInfo where
  shmid : Int
  shmaddr : Option Int
  readOnly : Bool
  deriving DecidableEq

/-- The descriptor `picture_sys_t`, together with the address `addr` of the
block `malloc` returned for it. -/
structure picture_sys_t where
  addr : Nat
  p_image : Option Nat
  shminfo : XShmSegmentInfo
  deriving DecidableEq

/-- The fields of `picture_t` that the plugin reads or writes. -/
structure picture_t where
  i_status : PictureStatus
  i_type : PictureType
  i_left_margin : Int
  i_right_margin : Int
  i_top_margin : Int
  i_bottom_margin : Int
  planes : Nat → plane_t
  i_planes : Int
  p_sys : Option picture_sys_t

/-- An image handle of the X library with the local data buffer it wraps, if
any, as (block, byte size). `xv` tells an `XvImage`, which the Xv library
creates in the xvideo build, from an `XImage`. -/
structure XImage where
  id : Nat
  data : Option (Nat × Int)
  xv : Bool
  deriving DecidableEq

/-- One entry of the list `XGetVisualInfo` searches (`XVisualInfo`): the visual,
its screen, its class and its colour masks. -/
structure XVisualInfo where
  visual : Nat
  screen : Int
  c_class : Nat
  red_mask : Int
  green_mask : Int
  blue_mask : Int
  deriving DecidableEq

/-- One entry of the list `XListPixmapFormats` returns
(`XPixmapFormatValues`). -/
structure XPixmapFormatValues where
  depth : Int
  bits_per_pixel : Int
  deriving DecidableEq

/-- A window of the server, with the size asked for when it was created. -/
structure XWindow where
  id : Nat
  width : Int
  height : Int
  deriving DecidableEq

/-- The X server and operating-system state the plugin acts on. -/
structure World where
  /-- supply of fresh handles -/
  next_id : Nat
  /-- live blocks returned by `malloc( sizeof( picture_sys_t ) )` -/
  sys_blocks : List Nat
  /-- live image-data blocks that no live image handle wraps, with their byte
  size -/
  data_blocks : List (Nat × Int)
  /-- live image handles -/
  images : List XImage
  /-- segments created by `shmget` and not marked for removal -/
  shm_segs : List Int
  /-- segments mapped into the process -/
  shm_proc : List Int
  /-- segments attached to the X server -/
  shm_server : List Int
  /-- releases of a handle or block that was not live -/
  faults : Nat
  /-- screen-saver parameters of the server -/
  ss_timeout : Int
  ss_interval : Int
  ss_blanking : Int
  ss_exposure : Int
  /-- display power management enabled -/
  dpms_enabled : Bool
  /-- the blank cursor is defined on the main window -/
  cursor_blank : Bool
  /-- value returned by `mdate()` -/
  clock : Int
  /-- the connection to the display is open -/
  display_open : Bool
  /-- `DefaultScreen`, and `DisplayWidth`, `DisplayHeight` and `XDefaultDepth`
  of that screen -/
  default_screen : Int
  display_width : Int
  display_height : Int
  default_depth : Int
  /-- the visuals of the server, in the order `XGetVisualInfo` lists them -/
  visuals : List XVisualInfo
  /-- the list `XListPixmapFormats` returns -/
  pixmap_formats : List XPixmapFormatValues
  /-- `XShmQueryExtension` returns True -/
  shm_extension : Bool
  /-- the atoms `XInternAtom( ..., True )` returns for "WM_PROTOCOLS" and
  "WM_DELETE_WINDOW"; 0 is `None` -/
  atom_wm_protocols : Nat
  atom_wm_delete_window : Nat
  /-- live windows -/
  windows : List XWindow
  /-- live pixmaps -/
  pixmaps : List Nat

/-- What the fallible calls made during one `NewPicture` call answer. -/
structure Outcome where
  /-- `malloc( sizeof( picture_sys_t ) )` is not NULL -/
  malloc_sys : Bool
  /-- the image-creation call of the X library is not NULL -/
  create_image : Bool
  /-- `shmget` returns a non-negative id -/
  shmget : Bool
  /-- `shmat` returns a non-null address -/
  shmat : Bool
  /-- `XShmAttach` returns True -/
  XShmAttach : Bool
  /-- the `malloc` of `CreateImage` is not NULL -/
  malloc_data : Bool
  deriving DecidableEq

/-- The fields of `vout_sys_t` used below. -/
structure vout_sys_t where
  b_shm : Bool
  i_screen_depth : Int
  i_bytes_per_pixel : Int
  i_width : Int
  i_height : Int
  i_ss_timeout : Int
  i_ss_interval : Int
  i_ss_blanking : Int
  i_ss_exposure : Int
  b_mouse_pointer_visible : Bool
  i_time_mouse_last_moved : Int
  i_screen : Int
  p_visual : Nat
  window : Nat
  yuv_window : Nat
  i_xvport : Int
  i_red_mask : Int
  i_green_mask : Int
  i_blue_mask : Int
  wm_protocols : Nat
  wm_delete_window : Nat
  blank_cursor : Nat
  cursor_pixmap : Nat

/-- The picture heap description `p_vout->render`. -/
structure vout_render_t where
  i_chroma : Chroma
  i_width : Int
  i_height : Int
  i_aspect : Int

/-- The output description `p_vout->output`; `I_OUTPUTPICTURES` is
`i_pictures` and `PP_OUTPUTPICTURE` is `pp_picture`. -/
structure vout_output_t where
  i_chroma : Chroma
  i_width : Int
  i_height : Int
  i_aspect : Int
  i_pictures : Nat
  pp_picture : Nat → Nat

/-- The fields of `vout_thread_t` used below. `p_picture` holds the first
`VOUT_MAX_PICTURES` slots of the picture table, so `VOUT_MAX_PICTURES` is its
length. -/
structure vout_thread_t where
  render : vout_render_t
  output : vout_output_t
  p_picture : List picture_t
  p_sys : vout_sys_t
  b_active : Bool
  b_fullscreen : Bool
  i_changes : Nat

/-- The constant `VOUT_ASPECT_FACTOR`; its definition is in `video.h`, where
this version of the player gives it the value 432000. No property below
depends on the value. -/
def VOUT_ASPECT_FACTOR : Int := 432000

/-- The largest value of a C `int`, 2^31 - 1. -/
def INT_MAX : Int := 2147483647

/-- The value a 32-bit `int` holds after an arithmetic result `x`: the
representative of `x` modulo 2^32 in the range from -2^31 to 2^31 - 1. -/
def wrap_int (x : Int) : Int := (x + 2147483648) % 4294967296 - 2147483648

/-- The product of two `int` values as the compiled code computes it. -/
def int_mul (a b : Int) : Int := wrap_int (a * b)

/-! ## Library calls on the `World` -/

/-- The call `free( p_pic->p_sys )`: releases a live descriptor block, and is a
fault on any other address. -/
def free_sys (w : World) (addr : Nat) : World :=
  if addr ∈ w.sys_blocks then { w with sys_blocks := w.sys_blocks.erase addr }
  else { w with faults := w.faults + 1 }

/-- The call `free( p_data )` on an image-data block. -/
def free_data (w : World) (blk : Nat) : World :=
  if w.data_blocks.any (fun b => b.1 == blk) then
    { w with data_blocks := w.data_blocks.eraseP (fun b => b.1 == blk) }
  else { w with faults := w.faults + 1 }

/-- The macro `IMAGE_FREE` (lines 69-80): releases a live image handle; a null
or dead handle is a fault. In the x11 build it is `XDestroyImage`, which frees
an `XImage` together with the data it wraps. In the xvideo build it is `XFree`
("There is nothing like XvDestroyImage"), which frees the `XvImage` structure
only: the data buffer the handle wrapped stays allocated and goes back to
`data_blocks`. A build only holds handles of its own kind, so the kind of the
handle is the branch of the `#ifdef`. -/
def IMAGE_FREE (w : World) (p_image : Option Nat) : World :=
  match p_image with
  | none => { w with faults := w.faults + 1 }
  | some img =>
    match w.images.find? (fun i => i.id == img) with
    | none => { w with faults := w.faults + 1 }
    | some i =>
      let w1 := { w with images := w.images.eraseP (fun i => i.id == img) }
      if i.xv then
        -- XFree
        match i.data with
        | some blk => { w1 with data_blocks := blk :: w1.data_blocks }
        | none => w1
      else
        -- XDestroyImage
        w1

/-- The call `shmctl( shmid, IPC_RMID, 0 )`: marks the segment for removal. An
id that names no segment is an error the program ignores. -/
def shmctl_RMID (w : World) (shmid : Int) : World :=
  { w with shm_segs := w.shm_segs.erase shmid }

/-- The call `shmdt( shmaddr )`: unmaps the segment from the process. It
returns non-zero, and changes nothing, when the address maps no segment. -/
def shmdt (w : World) (shmaddr : Option Int) : Int × World :=
  match shmaddr with
  | none => (-1, w)
  | some a =>
    if a ∈ w.shm_proc then (0, { w with shm_proc := w.shm_proc.erase a })
    else (-1, w)

/-- The call `XShmDetach( p_display, &shminfo )`: the server detaches the
segment. -/
def XShmDetach (w : World) (shminfo : XShmSegmentInfo) : World :=
  { w with shm_server := w.shm_server.erase shminfo.shmid }

/-! ## Image creation (lines 1711-1841) -/

/-- Lines 1711-1778, `CreateShmImage`: returns the image handle (or NULL), the
segment descriptor as written through `p_shm`, and the world. -/
def CreateShmImage (m : Module) (o : Outcome) (w : World) (p_shm : XShmSegmentInfo)
    (_i_width _i_height : Int) : Option Nat × XShmSegmentInfo × World :=
  -- XvShmCreateImage / XShmCreateImage
  if o.create_image = false then (none, p_shm, w)
  else
    let img := w.next_id
    let w1 := { w with next_id := w.next_id + 1,
                       images := ⟨img, none, decide (m = Module.xvideo)⟩ :: w.images }
    -- shmget
    if o.shmget = false then
      (none, { p_shm with shmid := -1 }, IMAGE_FREE w1 (some img))
    else
      let seg : Int := (w1.next_id : Int)
      let w2 := { w1 with next_id := w1.next_id + 1, shm_segs := seg :: w1.shm_segs }
      let shm2 := { p_shm with shmid := seg }
      -- shmat
      if o.shmat = false then
        (none, { shm2 with shmaddr := none }, IMAGE_FREE (shmctl_RMID w2 seg) (some img))
      else
        let w3 := { w2 with shm_proc := seg :: w2.shm_proc }
        let shm3 := { shm2 with shmaddr := some seg, readOnly := decide (m = Module.x11) }
        -- XShmAttach
        if o.XShmAttach = false then
          (none, shm3,
            IMAGE_FREE (shmdt (shmctl_RMID w3 seg) shm3.shmaddr).2 (some img))
        else
          (some img, shm3, { w3 with shm_server := seg :: w3.shm_server })

/-- Lines 1785-1841, `CreateImage`: allocates a local buffer and wraps it in an
image handle, which then holds the only reference to the buffer.
`i_bytes_per_pixel` is only read in the x11 build. -/
def CreateImage (m : Module) (o : Outcome) (w : World) (i_bytes_per_pixel : Int)
    (i_width i_height : Int) : Option Nat × World :=
  let size : Int :=
    match m with
    | .xvideo => i_width * i_height * 2
    | .x11 => (i_width * i_bytes_per_pixel) * i_height
  if o.malloc_data = false then (none, w)
  else
    let blk := w.next_id
    let w1 := { w with next_id := w.next_id + 1, data_blocks := (blk, size) :: w.data_blocks }
    -- XvCreateImage / XCreateImage
    if o.create_image = false then (none, free_data w1 blk)
    else
      let img := w1.next_id
      (some img,
        { w1 with next_id := w1.next_id + 1,
                  data_blocks := w1.data_blocks.eraseP (fun b => b.1 == blk),
                  images := ⟨img, some (blk, size), decide (m = Module.xvideo)⟩ :: w1.images })

/-! ## The picture pool (lines 408-474, 881-891, 1145-1291) -/

/-- Result of `NewPicture`: the return value, the picture as written through
`p_pic`, and the world. -/
structure NewPictureResult where
  ret : Int
  pic : picture_t
  world : World

/-- Content of a freshly allocated `picture_sys_t`, before any field is
written. -/
def fresh_sys (addr : Nat) : picture_sys_t :=
  { addr := addr, p_image := none, shminfo := { shmid := 0, shmaddr := none, readOnly := false } }

/-- Lines 1154-1207 and 1211-1251: the body shared by the two known-chroma
cases of `NewPicture`, up to and including the test of `p_image`. On success
it returns the descriptor and the world; on failure the picture and world of
the `return -1`. -/
def NewPicture_alloc (m : Module) (v : vout_thread_t) (p_pic : picture_t) (o : Outcome)
    (w : World) : Except (picture_t × World) (picture_sys_t × World) :=
  -- p_pic->p_sys = malloc( sizeof( picture_sys_t ) )
  if o.malloc_sys = false then .error ({ p_pic with p_sys := none }, w)
  else
    let addr := w.next_id
    let w1 := { w with next_id := w.next_id + 1, sys_blocks := addr :: w.sys_blocks }
    let sys0 := fresh_sys addr
    let r : picture_sys_t × World :=
      if v.p_sys.b_shm then
        let c := CreateShmImage m o w1 sys0.shminfo v.output.i_width v.output.i_height
        ({ sys0 with p_image := c.1, shminfo := c.2.1 }, c.2.2)
      else
        let c := CreateImage m o w1 v.p_sys.i_bytes_per_pixel v.output.i_width v.output.i_height
        ({ sys0 with p_image := c.1 }, c.2)
    match r.1.p_image with
    | none => .error ({ p_pic with p_sys := some r.1 }, free_sys r.2 addr)
    | some _ => .ok r

/-- Lines 1145-1261, `NewPicture`: returns 0 on success, -1 otherwise. In the
planar case the plane sizes and offsets of lines 1194-1205 are built from the
`int` products `i_width * i_height` and `i_width * i_height * 5`, computed
with `int_mul`; the offsets are added to the pointer `p_image->data`. -/
def NewPicture (m : Module) (v : vout_thread_t) (p_pic : picture_t) (o : Outcome)
    (w : World) : NewPictureResult :=
  let i_width := v.output.i_width
  let i_height := v.output.i_height
  match m, v.output.i_chroma with
  | .xvideo, .YUV_420_PICTURE =>
    match NewPicture_alloc m v p_pic o w with
    | .error (pic, w1) => { ret := -1, pic := pic, world := w1 }
    | .ok (sys, w1) =>
      let P0 := p_pic.planes
      let P1 := Function.update P0 Y_PLANE
        { p_data := 0, i_bytes := int_mul i_width i_height, i_line_bytes := i_width }
      let P2 := Function.update P1 U_PLANE
        { p_data := (P1 Y_PLANE).p_data + Int.tdiv (int_mul (int_mul i_width i_height) 5) 4,
          i_bytes := Int.tdiv (int_mul i_width i_height) 4,
          i_line_bytes := Int.tdiv i_width 2 }
      let P3 := Function.update P2 V_PLANE
        { p_data := (P2 Y_PLANE).p_data + int_mul i_width i_height,
          i_bytes := Int.tdiv (int_mul i_width i_height) 4,
          i_line_bytes := Int.tdiv i_width 2 }
      { ret := 0, pic := { p_pic with p_sys := some sys, planes := P3, i_planes := 3 },
        world := w1 }
  | .x11, .RGB_16BPP_PICTURE =>
    match NewPicture_alloc m v p_pic o w with
    | .error (pic, w1) => { ret := -1, pic := pic, world := w1 }
    | .ok (sys, w1) =>
      let P1 := Function.update p_pic.planes RGB_PLANE
        { p_data := 0, i_bytes := 2 * i_width * i_height, i_line_bytes := 2 * i_width }
      { ret := 0, pic := { p_pic with p_sys := some sys, planes := P1, i_planes := 1 },
        world := w1 }
  | _, _ =>
    -- Unknown chroma, tell the guy to get lost
    { ret := -1, pic := { p_pic with i_planes := 0 }, world := w }

/-- Lines 1271-1291, `FreePicture`. A null `p_sys` is a fault. -/
def FreePicture (v : vout_thread_t) (p_pic : picture_t) (w : World) : World :=
  match p_pic.p_sys with
  | none => { w with faults := w.faults + 1 }
  | some sys =>
    let w1 :=
      if v.p_sys.b_shm then
        let wa := XShmDetach w sys.shminfo
        let wb := shmctl_RMID wa sys.shminfo.shmid
        (shmdt wb sys.shminfo.shmaddr).2
      else w
    -- XSync; IMAGE_FREE( p_pic->p_sys->p_image ); free( p_pic->p_sys )
    free_sys (IMAGE_FREE w1 sys.p_image) sys.addr

/-- Lines 445-452: the scan for an empty picture slot; the index of the first
slot whose status is `FREE_PICTURE`, or `none` when `p_pic` stays NULL. -/
def find_free_slot : List picture_t → Option Nat
  | [] => none
  | p :: ps =>
    if p.i_status = PictureStatus.FREE_PICTURE then some 0
    else (find_free_slot ps).map (fun i => i + 1)

/-- Write `f` applied to the picture at index `i` back into the table. -/
def modify_slot (f : picture_t → picture_t) : Nat → List picture_t → List picture_t
  | _, [] => []
  | 0, p :: ps => f p :: ps
  | i + 1, p :: ps => p :: modify_slot f i ps

/-- Lines 460-466: what `vout_Init` writes into a slot after a successful
`NewPicture`. -/
def mark_direct (pic : picture_t) : picture_t :=
  { pic with i_status := PictureStatus.DESTROYED_PICTURE,
             i_type := PictureType.DIRECT_PICTURE,
             i_left_margin := 0, i_right_margin := 0,
             i_top_margin := 0, i_bottom_margin := 0 }

/-- Lines 460-470: the thread descriptor `vout_Init` goes on with after a
successful `NewPicture` on slot `i_index`: the slot is marked, recorded in
`PP_OUTPUTPICTURE` and counted. -/
def after_success (v : vout_thread_t) (i_index : Nat) (pic : picture_t) : vout_thread_t :=
  { v with
    p_picture := modify_slot (fun _ => mark_direct pic) i_index v.p_picture,
    output := { v.output with
      pp_picture := Function.update v.output.pp_picture v.output.i_pictures i_index,
      i_pictures := v.output.i_pictures + 1 } }

/-- Lines 440-471: the `while` loop of `vout_Init`. `env` lists what the
library answers in the successive `NewPicture` calls. Each iteration either
leaves the loop or adds one to `I_OUTPUTPICTURES`, so `MAX_DIRECTBUFFERS`
iterations always suffice (`vout_Init_loop_fuel`). -/
def vout_Init_loop (m : Module) : Nat → (Nat → Outcome) → vout_thread_t → World →
    vout_thread_t × World
  | 0, _, v, w => (v, w)
  | fuel + 1, env, v, w =>
    if v.output.i_pictures < MAX_DIRECTBUFFERS m then
      match find_free_slot v.p_picture with
      | none => (v, w)
      | some i_index =>
        match v.p_picture[i_index]? with
        | none => (v, w)
        | some p_pic =>
          let r := NewPicture m v p_pic (env 0) w
          if r.ret ≠ 0 then
            ({ v with p_picture := modify_slot (fun _ => r.pic) i_index v.p_picture }, r.world)
          else
            vout_Init_loop m fuel (fun k => env (k + 1)) (after_success v i_index r.pic) r.world
    else (v, w)

/-- Lines 408-474, `vout_Init`: the return value, the thread descriptor and
the world. The aspect computed in the x11 build divides by the window height;
a zero height is undefined in C and gives 0 here, and no statement below
reads `i_aspect`. -/
def vout_Init (m : Module) (env : Nat → Outcome) (v : vout_thread_t) (w : World) :
    Int × vout_thread_t × World :=
  let v0 : vout_thread_t := { v with output := { v.output with i_pictures := 0 } }
  match m with
  | .xvideo =>
    match v0.render.i_chroma with
    | .YUV_420_PICTURE =>
      let v1 : vout_thread_t :=
        { v0 with output := { v0.output with
            i_chroma := v0.render.i_chroma, i_width := v0.render.i_width,
            i_height := v0.render.i_height, i_aspect := v0.render.i_aspect } }
      let r := vout_Init_loop m (MAX_DIRECTBUFFERS m) env v1 w
      (0, r.1, r.2)
    | _ => (0, v0, w)
  | .x11 =>
    let v1 : vout_thread_t :=
      { v0 with output := { v0.output with
          i_chroma := Chroma.RGB_16BPP_PICTURE, i_width := v0.p_sys.i_width,
          i_height := v0.p_sys.i_height,
          i_aspect := Int.tdiv (v0.p_sys.i_width * VOUT_ASPECT_FACTOR) v0.p_sys.i_height } }
    let r := vout_Init_loop m (MAX_DIRECTBUFFERS m) env v1 w
    (0, r.1, r.2)

/-- Lines 886-890: the loop of `vout_End`, from `i_index` down to 0. A
`PP_OUTPUTPICTURE` entry that points outside the table is a fault. -/
def vout_End_loop (v : vout_thread_t) : Nat → World → World
  | 0, w => w
  | i_index + 1, w =>
    match v.p_picture[v.output.pp_picture i_index]? with
    | none => vout_End_loop v i_index { w with faults := w.faults + 1 }
    | some p_pic => vout_End_loop v i_index (FreePicture v p_pic w)

/-- Lines 881-891, `vout_End`. -/
def vout_End (v : vout_thread_t) (w : World) : World :=
  vout_End_loop v v.output.i_pictures w

/-! ## The event loop of `vout_Manage` (lines 216-229, 542-721, 1302-1392) -/

/-- Status codes of `input_ext-intf.h`; the plugin only passes
`INPUT_STATUS_PAUSE`. -/
inductive InputStatus where
  | INPUT_STATUS_PAUSE
  | OTHER (code : Nat)
  deriving DecidableEq

/-- The calls the event loop makes, in program order: each entry into the
local `vout_Seek` and each call out of the plugin to the input and network
modules. -/
inductive Call where
  | vout_Seek (i_seek : Int)
  | input_Seek (i_position : Int)
  | input_SetStatus (i_status : InputStatus)
  | network_ChannelJoin (i_channel : Int)
  deriving DecidableEq

/-- The selected stream area, `p_input->stream.p_selected_area`. -/
structure input_area_t where
  i_tell : Int
  i_start : Int
  i_size : Int

/-- The part of `p_main->p_intf` the plugin reads or writes, with the record
of the calls made. -/
structure intf_thread_t where
  b_die : Bool
  b_menu_change : Bool
  area : input_area_t
  i_mux_rate : Int
  calls : List Call

/-- The state `vout_Manage` acts on. -/
structure ManageState where
  vout : vout_thread_t
  intf : intf_thread_t
  world : World

/-- An X event as `vout_Manage` reads it. `keysym` is what
`XKeycodeToKeysym( p_display, xkey.keycode, 0 )` returns for the event and
`lookup` is the character `XLookupString` stores in `i_key`, `none` when it
returns 0. -/
structure XEvent where
  type : Nat
  width : Int
  height : Int
  keysym : Nat
  lookup : Option Char
  button : Nat

/-- Event type of `X11/X.h`. -/
def KeyPress : Nat := 2

/-- Event type of `X11/X.h`. -/
def ButtonPress : Nat := 4

/-- Event type of `X11/X.h`. -/
def ButtonRelease : Nat := 5

/-- Event type of `X11/X.h`. -/
def MotionNotify : Nat := 6

/-- Event type of `X11/X.h`. -/
def UnmapNotify : Nat := 18

/-- Event type of `X11/X.h`. -/
def MapNotify : Nat := 19

/-- Event type of `X11/X.h`. -/
def ConfigureNotify : Nat := 22

/-- Pointer button of `X11/X.h`. -/
def Button1 : Nat := 1

/-- Pointer button of `X11/X.h`. -/
def Button3 : Nat := 3

/-- Pointer button of `X11/X.h`. -/
def Button4 : Nat := 4

/-- Pointer button of `X11/X.h`. -/
def Button5 : Nat := 5

/-- Key symbol of `X11/keysymdef.h`. -/
def XK_Escape : Nat := 0xFF1B

/-- Key symbol of `X11/keysymdef.h`. -/
def XK_Menu : Nat := 0xFF67

/-- Key symbol of `X11/keysymdef.h`. -/
def XK_Home : Nat := 0xFF50

/-- Key symbol of `X11/keysymdef.h`. -/
def XK_Left : Nat := 0xFF51

/-- Key symbol of `X11/keysymdef.h`. -/
def XK_Up : Nat := 0xFF52

/-- Key symbol of `X11/keysymdef.h`. -/
def XK_Right : Nat := 0xFF53

/-- Key symbol of `X11/keysymdef.h`. -/
def XK_Down : Nat := 0xFF54

/-- Key symbol of `X11/keysymdef.h`. -/
def XK_Page_Up : Nat := 0xFF55

/-- Key symbol of `X11/keysymdef.h`. -/
def XK_Page_Down : Nat := 0xFF56

/-- Key symbol of `X11/keysymdef.h`. -/
def XK_End : Nat := 0xFF57

/-- Key symbol of `X11/keysymdef.h`. -/
def XK_space : Nat := 0x0020

/-- The flag `VOUT_FULLSCREEN_CHANGE`; its definition is in `video_output.h`,
where this version of the player gives it the value 0x0040. No property below
depends on the value. -/
def VOUT_FULLSCREEN_CHANGE : Nat := 0x0040

/-- The status-change call `input_SetStatus( p_input, i_status )`. -/
def input_SetStatus (s : ManageState) (i_status : InputStatus) : ManageState :=
  { s with intf := { s.intf with calls := s.intf.calls ++ [Call.input_SetStatus i_status] } }

/-- The seek request `input_Seek( p_input, i_position )`. -/
def input_Seek (s : ManageState) (i_position : Int) : ManageState :=
  { s with intf := { s.intf with calls := s.intf.calls ++ [Call.input_Seek i_position] } }

/-- The channel change `network_ChannelJoin( i_channel )`. -/
def network_ChannelJoin (s : ManageState) (i_channel : Int) : ManageState :=
  { s with intf := { s.intf with calls := s.intf.calls ++ [Call.network_ChannelJoin i_channel] } }

/-- Lines 219-225: the position `vout_Seek` passes to `input_Seek`. -/
def vout_Seek_position (area : input_area_t) (i_mux_rate : Int) (i_seek : Int) : Int :=
  let i_tell := area.i_tell + i_seek * 50 * i_mux_rate
  if i_tell ≤ 0 then 0
  else if i_tell ≥ area.i_size then area.i_size
  else i_tell

/-- Lines 216-229, `vout_Seek`. -/
def vout_Seek (s : ManageState) (i_seek : Int) : ManageState :=
  let s1 : ManageState :=
    { s with intf := { s.intf with calls := s.intf.calls ++ [Call.vout_Seek i_seek] } }
  input_Seek s1 (vout_Seek_position s.intf.area s.intf.i_mux_rate i_seek)

/-- Lines 1302-1309, `EnableXScreenSaver`: `XSetScreenSaver` with the saved
parameters. -/
def EnableXScreenSaver (s : ManageState) : ManageState :=
  { s with world := { s.world with
      ss_timeout := s.vout.p_sys.i_ss_timeout,
      ss_interval := s.vout.p_sys.i_ss_interval,
      ss_blanking := s.vout.p_sys.i_ss_blanking,
      ss_exposure := s.vout.p_sys.i_ss_exposure } }

/-- Lines 1316-1334, `DisableXScreenSaver`: `XGetScreenSaver` into the saved
parameters, `XSetScreenSaver` with a zero timeout, and `DPMSDisable` in the
xvideo build. -/
def DisableXScreenSaver (m : Module) (s : ManageState) : ManageState :=
  let sys : vout_sys_t :=
    { s.vout.p_sys with
      i_ss_timeout := s.world.ss_timeout,
      i_ss_interval := s.world.ss_interval,
      i_ss_blanking := s.world.ss_blanking,
      i_ss_exposure := s.world.ss_exposure }
  let w1 : World :=
    { s.world with
      ss_timeout := 0,
      ss_interval := sys.i_ss_interval,
      ss_blanking := sys.i_ss_blanking,
      ss_exposure := sys.i_ss_exposure }
  let w2 : World :=
    match m with
    | .xvideo => { w1 with dpms_enabled := false }
    | .x11 => w1
  { s with vout := { s.vout with p_sys := sys }, world := w2 }

/-- Lines 1378-1392, `ToggleCursor`. -/
def ToggleCursor (s : ManageState) : ManageState :=
  if s.vout.p_sys.b_mouse_pointer_visible then
    { s with
      world := { s.world with cursor_blank := true },
      vout := { s.vout with p_sys := { s.vout.p_sys with b_mouse_pointer_visible := false } } }
  else
    { s with
      world := { s.world with cursor_blank := false },
      vout := { s.vout with p_sys := { s.vout.p_sys with b_mouse_pointer_visible := true } } }

/-- Lines 643-669: the `switch( i_key )` on the looked-up character. -/
def vout_Manage_char (s : ManageState) (i_key : Char) : ManageState :=
  if i_key = 'q' ∨ i_key = 'Q' then { s with intf := { s.intf with b_die := true } }
  else if i_key = 'f' ∨ i_key = 'F' then
    { s with vout := { s.vout with i_changes := s.vout.i_changes ||| VOUT_FULLSCREEN_CHANGE } }
  else if i_key = '0' then network_ChannelJoin s 0
  else if i_key = '1' then network_ChannelJoin s 1
  else if i_key = '2' then network_ChannelJoin s 2
  else if i_key = '3' then network_ChannelJoin s 3
  else if i_key = '4' then network_ChannelJoin s 4
  else if i_key = '5' then network_ChannelJoin s 5
  else if i_key = '6' then network_ChannelJoin s 6
  else if i_key = '7' then network_ChannelJoin s 7
  else if i_key = '8' then network_ChannelJoin s 8
  else if i_key = '9' then network_ChannelJoin s 9
  else s

/-- Lines 593-672: the `switch( x_key_symbol )` of a `KeyPress` event. -/
def vout_Manage_key (s : ManageState) (e : XEvent) : ManageState :=
  let x_key_symbol := e.keysym
  if x_key_symbol = XK_Escape then { s with intf := { s.intf with b_die := true } }
  else if x_key_symbol = XK_Menu then { s with intf := { s.intf with b_menu_change := true } }
  else if x_key_symbol = XK_Left then vout_Seek s (-5)
  else if x_key_symbol = XK_Right then vout_Seek s 5
  else if x_key_symbol = XK_Up then vout_Seek s 60
  else if x_key_symbol = XK_Down then vout_Seek s (-60)
  else if x_key_symbol = XK_Home then input_Seek s s.intf.area.i_start
  else if x_key_symbol = XK_End then input_Seek s s.intf.area.i_size
  else if x_key_symbol = XK_Page_Up then vout_Seek s 900
  else if x_key_symbol = XK_Page_Down then vout_Seek s (-900)
  else if x_key_symbol = XK_space then input_SetStatus s InputStatus.INPUT_STATUS_PAUSE
  else
    match e.lookup with
    | none => s
    | some i_key => vout_Manage_char s i_key

/-- Lines 561-720: the body of the first `while` loop of `vout_Manage`, for
one event; the second component is `b_resized`. -/
def vout_Manage_event (m : Module) (s : ManageState) (b_resized : Bool) (e : XEvent) :
    ManageState × Bool :=
  if e.type = ConfigureNotify ∧
      (e.width ≠ s.vout.p_sys.i_width ∨ e.height ≠ s.vout.p_sys.i_height) then
    ({ s with vout := { s.vout with
        p_sys := { s.vout.p_sys with i_width := e.width, i_height := e.height } } }, true)
  else if e.type = MapNotify then
    if !s.vout.b_active then
      let s1 := DisableXScreenSaver m s
      ({ s1 with vout := { s1.vout with b_active := true } }, b_resized)
    else (s, b_resized)
  else if e.type = UnmapNotify then
    if s.vout.b_active then
      let s1 := EnableXScreenSaver s
      ({ s1 with vout := { s1.vout with b_active := false } }, b_resized)
    else (s, b_resized)
  else if e.type = KeyPress then (vout_Manage_key s e, b_resized)
  else if e.type = ButtonPress then
    if e.button = Button1 then (input_SetStatus s InputStatus.INPUT_STATUS_PAUSE, b_resized)
    else if e.button = Button4 then (vout_Seek s 15, b_resized)
    else if e.button = Button5 then (vout_Seek s (-15), b_resized)
    else (s, b_resized)
  else if e.type = ButtonRelease then
    if e.button = Button3 then
      ({ s with intf := { s.intf with b_menu_change := true } }, b_resized)
    else (s, b_resized)
  else if e.type = MotionNotify then
    let s1 : ManageState :=
      { s with vout := { s.vout with
          p_sys := { s.vout.p_sys with i_time_mouse_last_moved := s.world.clock } } }
    if !s1.vout.p_sys.b_mouse_pointer_visible then (ToggleCursor s1, b_resized)
    else (s1, b_resized)
  else (s, b_resized)

/-- Lines 554-721: the first `while` loop of `vout_Manage`, over the events
`XCheckWindowEvent` delivers for the main window. -/
def vout_Manage_drain (m : Module) (s : ManageState) (events : List XEvent) :
    ManageState × Bool :=
  events.foldl (fun acc e => vout_Manage_event m acc.1 acc.2 e) (s, false)

/-! ## Windows, the display session and a whole `vout_Manage` cycle
(lines 299-400, 723-873, 898-1138, 1339-1369, 1598-1701) -/

/-- Event type of `X11/X.h`. -/
def Expose : Nat := 12

/-- Visual class of `X11/X.h`. -/
def PseudoColor : Nat := 3

/-- Visual class of `X11/X.h`. -/
def TrueColor : Nat := 4

/-- Visual class of `X11/X.h`. -/
def DirectColor : Nat := 5

/-- The flag `VOUT_SIZE_CHANGE`; its definition is in `video_output.h`, where
this version of the player gives it the value 0x0200. -/
def VOUT_SIZE_CHANGE : Nat := 0x0200

/-- The C expression `x & ~flag` on a flag word that is not negative. -/
def clear_flag (x flag : Nat) : Nat := x ^^^ (x &&& flag)

/-- An event as `CreateWindow` and the loop on the YUV sub-window read it:
its type, the window it is addressed to and, for `ConfigureNotify`, the size
it carries. -/
structure XWindowEvent where
  type : Nat
  window : Nat
  width : Int
  height : Int
  deriving DecidableEq

/-- A `ClientMessage` event: `xclient.message_type` and `xclient.data.l[0]`. -/
structure XClientMessageEvent where
  message_type : Nat
  data_l0 : Nat
  deriving DecidableEq

/-- What the server delivers during one call of `vout_Manage`: the events
`XCheckWindowEvent` returns for the main window, those it returns for the YUV
sub-window, the `ClientMessage` events `XCheckTypedEvent` returns, and the
events `XNextEvent` returns if the window is created again. -/
structure ManageInput where
  events : List XEvent
  yuv_events : List XWindowEvent
  client_messages : List XClientMessageEvent
  handshake : List XWindowEvent

/-- The call `XDestroyWindow`: removes a live window; any other id is a
fault. -/
def XDestroyWindow (w : World) (window : Nat) : World :=
  if w.windows.any (fun x => x.id == window) then
    { w with windows := w.windows.eraseP (fun x => x.id == window) }
  else { w with faults := w.faults + 1 }

/-- Lines 1126-1138, `DestroyWindow`. The graphic contexts are not part of
the `World`. -/
def DestroyWindow (m : Module) (s : ManageState) : ManageState :=
  let w1 : World :=
    match m with
    | .xvideo => XDestroyWindow s.world s.vout.p_sys.yuv_window
    | .x11 => s.world
  { s with world := XDestroyWindow w1 s.vout.p_sys.window }

/-- Lines 911-949: the size `CreateWindow` gives the main window, as (width,
height). The two products are `int` products. -/
def CreateWindow_size (v : vout_thread_t) (w : World) : Int × Int :=
  if v.b_fullscreen then (w.display_width, w.display_height)
  else if int_mul v.render.i_height v.render.i_aspect ≥
      int_mul v.render.i_width VOUT_ASPECT_FACTOR then
    (Int.tdiv (int_mul v.render.i_height v.render.i_aspect) VOUT_ASPECT_FACTOR,
      v.render.i_height)
  else
    (v.render.i_width,
      Int.tdiv (int_mul v.render.i_width VOUT_ASPECT_FACTOR) v.render.i_aspect)

/-- Lines 1035-1059: the `do ... while` loop of `CreateWindow`, over the
events `XNextEvent` returns. The arguments are `b_expose`,
`b_configure_notify`, `b_map_notify` and the recorded size; the result is the
recorded size and the events left in the queue, or `none` when the events run
out before the three flags are set, in which case `XNextEvent` blocks. -/
def CreateWindow_wait (window : Nat) :
    Bool → Bool → Bool → Int × Int → List XWindowEvent →
    Option ((Int × Int) × List XWindowEvent)
  | _, _, _, _, [] => none
  | b_expose, b_configure_notify, b_map_notify, size, xevent :: rest =>
    let st : Bool × Bool × Bool × (Int × Int) :=
      if xevent.type = Expose ∧ xevent.window = window then
        (true, b_configure_notify, b_map_notify, size)
      else if xevent.type = MapNotify ∧ xevent.window = window then
        (b_expose, b_configure_notify, true, size)
      else if xevent.type = ConfigureNotify ∧ xevent.window = window then
        (b_expose, true, b_map_notify, (xevent.width, xevent.height))
      else (b_expose, b_configure_notify, b_map_notify, size)
    if st.1 && st.2.1 && st.2.2.1 then some (st.2.2.2, rest)
    else CreateWindow_wait window st.1 st.2.1 st.2.2.1 st.2.2.2 rest

/-- Lines 911-1028 and 1038: `CreateWindow` up to the wait: the size is
computed, the atoms are read, the window is created and mapped. Window manager
hints and graphic contexts are not part of the `World`. A new window has no
cursor defined. -/
def CreateWindow_open (s : ManageState) : ManageState :=
  let size := CreateWindow_size s.vout s.world
  -- XCreateWindow
  let window := s.world.next_id
  { s with
    world := { s.world with
      next_id := s.world.next_id + 1,
      windows := { id := window, width := size.1, height := size.2 } :: s.world.windows,
      cursor_blank := false },
    vout := { s.vout with
      p_sys := { s.vout.p_sys with
        i_width := size.1, i_height := size.2,
        wm_protocols := s.world.atom_wm_protocols,
        wm_delete_window := s.world.atom_wm_delete_window,
        window := window } } }

/-- Lines 1056-1118: `CreateWindow` once the wait is over: the size recorded
from the last `ConfigureNotify` event, the YUV sub-window of the xvideo build,
and the cursor. Input selection and the colormap are not part of the
`World`. -/
def CreateWindow_ready (m : Module) (s : ManageState) (recorded : Int × Int) : ManageState :=
  let sys2 : vout_sys_t := { s.vout.p_sys with i_width := recorded.1, i_height := recorded.2 }
  let s2 : ManageState :=
    match m with
    | .x11 => { s with vout := { s.vout with p_sys := sys2 } }
    | .xvideo =>
      -- XCreateSimpleWindow: the YUV output sub-window
      let yuv_window := s.world.next_id
      { s with
        vout := { s.vout with p_sys := { sys2 with yuv_window := yuv_window } },
        world := { s.world with
          next_id := s.world.next_id + 1,
          windows := { id := yuv_window, width := 1, height := 1 } :: s.world.windows } }
  -- If the cursor was formerly blank than blank it again
  if !s2.vout.p_sys.b_mouse_pointer_visible then ToggleCursor (ToggleCursor s2) else s2

/-- Lines 898-1124, `CreateWindow`: the return value, the state and the events
left in the queue; `none` when the wait for the three events never ends. -/
def CreateWindow (m : Module) (s : ManageState) (events : List XWindowEvent) :
    Option (Int × ManageState × List XWindowEvent) :=
  let s1 := CreateWindow_open s
  match CreateWindow_wait s1.vout.p_sys.window false false false
      (s1.vout.p_sys.i_width, s1.vout.p_sys.i_height) events with
  | none => none
  | some (recorded, rest) => some (0, CreateWindow_ready m s1 recorded, rest)

/-- Lines 725-745: the loop on the events of the YUV sub-window; its body
changes nothing. -/
def vout_Manage_yuv (s : ManageState) (yuv_events : List XWindowEvent) : ManageState :=
  yuv_events.foldl (fun acc _ => acc) s

/-- Lines 754-762: the body of the `ClientMessage` loop, for one event. -/
def vout_Manage_client_event (s : ManageState) (e : XClientMessageEvent) : ManageState :=
  if e.message_type = s.vout.p_sys.wm_protocols ∧
      e.data_l0 = s.vout.p_sys.wm_delete_window then
    { s with intf := { s.intf with b_die := true } }
  else s

/-- Lines 751-763: the `ClientMessage` loop. -/
def vout_Manage_client (s : ManageState) (msgs : List XClientMessageEvent) : ManageState :=
  msgs.foldl vout_Manage_client_event s

/-- The call `XCloseDisplay`. -/
def XCloseDisplay (s : ManageState) : ManageState :=
  { s with world := { s.world with display_open := false } }

/-- Lines 765-784: the handling of `VOUT_FULLSCREEN_CHANGE`. The result is
`none` when `CreateWindow` never returns, `(1, _)` for the `return( 1 )` of
line 781 and `(0, _)` when `vout_Manage` goes on. -/
def vout_Manage_fullscreen (m : Module) (s : ManageState) (handshake : List XWindowEvent) :
    Option (Int × ManageState) :=
  if s.vout.i_changes &&& VOUT_FULLSCREEN_CHANGE ≠ 0 then
    let s1 : ManageState :=
      { s with vout := { s.vout with
          i_changes := clear_flag s.vout.i_changes VOUT_FULLSCREEN_CHANGE,
          b_fullscreen := !s.vout.b_fullscreen } }
    match CreateWindow m (DestroyWindow m s1) handshake with
    | none => none
    | some (ret, s2, _) =>
      if ret ≠ 0 then some (1, XCloseDisplay s2)
      else some (0, s2)
  else some (0, s)

/-- Lines 786-860: the handling of `VOUT_SIZE_CHANGE`. In the x11 build the
whole block is inside `#if 0`; in the xvideo build the flag is cleared. -/
def vout_Manage_size (m : Module) (s : ManageState) : ManageState :=
  match m with
  | .x11 => s
  | .xvideo =>
    if s.vout.i_changes &&& VOUT_SIZE_CHANGE ≠ 0 then
      { s with vout := { s.vout with
          i_changes := clear_flag s.vout.i_changes VOUT_SIZE_CHANGE } }
    else s

/-- Lines 862-870: the automatic hiding of the cursor. -/
def vout_Manage_autohide (s : ManageState) : ManageState :=
  if s.world.clock - s.vout.p_sys.i_time_mouse_last_moved > 2000000 then
    if s.vout.p_sys.b_mouse_pointer_visible then ToggleCursor s else s
  else s

/-- Lines 554-763: the three event loops of `vout_Manage`, up to the test of
`VOUT_FULLSCREEN_CHANGE`. -/
def vout_Manage_loops (m : Module) (s : ManageState) (inp : ManageInput) : ManageState :=
  let s1 := (vout_Manage_drain m s inp.events).1
  let s2 : ManageState :=
    match m with
    | .xvideo => vout_Manage_yuv s1 inp.yuv_events
    | .x11 => s1
  vout_Manage_client s2 inp.client_messages

/-- Lines 542-873, `vout_Manage`: the return value and the state, or `none`
when `CreateWindow` never returns. -/
def vout_Manage (m : Module) (s : ManageState) (inp : ManageInput) :
    Option (Int × ManageState) :=
  match vout_Manage_fullscreen m (vout_Manage_loops m s inp) inp.handshake with
  | none => none
  | some (ret, s4) =>
    if ret ≠ 0 then some (ret, s4)
    else some (0, vout_Manage_autohide (vout_Manage_size m s4))

/-- The call `XGetVisualInfo` with the mask `VisualScreenMask |
VisualClassMask`: the visuals of the given screen and class. -/
def XGetVisualInfo (w : World) (screen : Int) (c_class : Nat) : List XVisualInfo :=
  w.visuals.filter (fun vi => decide (vi.screen = screen) && decide (vi.c_class = c_class))

/-- Lines 1678-1693: the loop over the pixmap formats. -/
def InitDisplay_bytes_per_pixel (i_screen_depth : Int)
    (p_formats : List XPixmapFormatValues) : Int :=
  p_formats.foldl
    (fun i_bytes_per_pixel f =>
      if f.depth = i_screen_depth then
        if Int.tdiv f.bits_per_pixel 8 > i_bytes_per_pixel then Int.tdiv f.bits_per_pixel 8
        else i_bytes_per_pixel
      else i_bytes_per_pixel)
    0

/-- Lines 1598-1701, `InitDisplay` (without `SYS_DARWIN`). -/
def InitDisplay (m : Module) (s : ManageState) : Int × ManageState :=
  let sys0 : vout_sys_t := { s.vout.p_sys with b_shm := s.world.shm_extension }
  match m with
  | .xvideo => (0, { s with vout := { s.vout with p_sys := sys0 } })
  | .x11 =>
    let sys1 : vout_sys_t :=
      { sys0 with i_screen := s.world.default_screen, i_screen_depth := s.world.default_depth }
    if sys1.i_screen_depth = 8 then
      -- xvisual_template.class = DirectColor
      match XGetVisualInfo s.world sys1.i_screen DirectColor with
      | [] => (1, { s with vout := { s.vout with p_sys := sys1 } })
      | p_xvisual :: _ =>
        (0, { s with vout := { s.vout with
                p_sys := { sys1 with i_bytes_per_pixel := 1, p_visual := p_xvisual.visual } } })
    else
      -- xvisual_template.class = TrueColor
      match XGetVisualInfo s.world sys1.i_screen TrueColor with
      | [] => (1, { s with vout := { s.vout with p_sys := sys1 } })
      | p_xvisual :: _ =>
        (0, { s with vout := { s.vout with
                p_sys := { sys1 with
                  i_red_mask := p_xvisual.red_mask,
                  i_green_mask := p_xvisual.green_mask,
                  i_blue_mask := p_xvisual.blue_mask,
                  i_bytes_per_pixel :=
                    InitDisplay_bytes_per_pixel sys1.i_screen_depth s.world.pixmap_formats,
                  p_visual := p_xvisual.visual } } })

/-- Lines 1339-1361, `CreateCursor`: a 1 x 1 pixmap and the blank cursor made
from it. -/
def CreateCursor (s : ManageState) : ManageState :=
  let cursor_pixmap := s.world.next_id
  let blank_cursor := s.world.next_id + 1
  { s with
    world := { s.world with
      next_id := s.world.next_id + 2,
      pixmaps := cursor_pixmap :: s.world.pixmaps },
    vout := { s.vout with
      p_sys := { s.vout.p_sys with
        cursor_pixmap := cursor_pixmap, blank_cursor := blank_cursor } } }

/-- Lines 1366-1369, `DestroyCursor`: `XFreePixmap` on the cursor pixmap. -/
def DestroyCursor (s : ManageState) : ManageState :=
  if s.vout.p_sys.cursor_pixmap ∈ s.world.pixmaps then
    { s with world := { s.world with
        pixmaps := s.world.pixmaps.erase s.vout.p_sys.cursor_pixmap } }
  else { s with world := { s.world with faults := s.world.faults + 1 } }

/-- What the calls of `vout_Create` outside this file answer: `malloc` of the
descriptor, `XOpenDisplay`, `XVideoGetPort` (xvideo build), and the events
`XNextEvent` returns to `CreateWindow`. -/
structure CreateInput where
  malloc_ok : Bool
  display_ok : Bool
  xv_port : Int
  handshake : List XWindowEvent

/-- Lines 299-365, `vout_Create`: the return value and the state, or `none`
when `CreateWindow` never returns. The fields of the descriptor start with
what `s.vout.p_sys` holds. -/
def vout_Create (m : Module) (s : ManageState) (inp : CreateInput) :
    Option (Int × ManageState) :=
  if inp.malloc_ok = false then some (1, s)
  else if inp.display_ok = false then some (1, s)
  else
    let s1 : ManageState :=
      { s with
        world := { s.world with display_open := true },
        vout := { s.vout with p_sys := { s.vout.p_sys with i_screen := s.world.default_screen } } }
    let port : Option ManageState :=
      match m with
      | .x11 => some s1
      | .xvideo =>
        if inp.xv_port < 0 then none
        else some { s1 with vout := { s1.vout with
                      p_sys := { s1.vout.p_sys with i_xvport := inp.xv_port } } }
    match port with
    | none => some (1, XCloseDisplay s1)
    | some s2 =>
      let s3 : ManageState :=
        CreateCursor { s2 with vout := { s2.vout with
          p_sys := { s2.vout.p_sys with b_mouse_pointer_visible := true } } }
      match CreateWindow m s3 inp.handshake with
      | none => none
      | some (ret, s4, _) =>
        if ret ≠ 0 then some (1, XCloseDisplay (DestroyCursor s4))
        else
          let r := InitDisplay m s4
          if r.1 ≠ 0 then some (1, XCloseDisplay (DestroyCursor r.2))
          else some (0, DisableXScreenSaver m r.2)

/-- Lines 372-400, `vout_Destroy`. Releasing the XVideo port changes nothing
in the `World`. -/
def vout_Destroy (m : Module) (s : ManageState) : ManageState :=
  let s1 := if !s.vout.p_sys.b_mouse_pointer_visible then ToggleCursor s else s
  XCloseDisplay (DestroyWindow m (EnableXScreenSaver (DestroyCursor s1)))

/-- A run of `vout_Manage` cycles, one per input, stopping at the first call
that does not return 0: the state after the last call made, or `none` when a
call never returns. -/
def vout_Manage_cycles (m : Module) : ManageState → List ManageInput → Option ManageState
  | s, [] => some s
  | s, inp :: rest =>
    match vout_Manage m s inp with
    | none => none
    | some (ret, s1) => if ret ≠ 0 then some s1 else vout_Manage_cycles m s1 rest

/-! ## `vout_Display` (lines 482-533) -/

/-- A request `vout_Display` sends to the server, with the arguments that tell
the requests apart. -/
inductive XRequest where
  | XvShmPutImage (i_xvport : Int) (window : Nat) (p_image : Nat)
      (src_w src_h dest_w dest_h : Int)
  | XShmPutImage (window : Nat) (p_image : Nat) (width height : Int)
  | XvPutImage (i_xvport : Int) (window : Nat) (p_image : Nat)
      (src_w src_h dest_w dest_h : Int)
  | XPutImage (window : Nat) (p_image : Nat) (width height : Int)
  | XResizeWindow (window : Nat) (width height : Int)
  | XMoveWindow (window : Nat) (x y : Int)
  | XSync
  deriving DecidableEq

/-- What `vout_PlacePicture` (`video_output.c`) stores through its four
pointers: the destination rectangle of the picture in the window. -/
structure PlaceResult where
  i_x : Int
  i_y : Int
  i_width : Int
  i_height : Int
  deriving DecidableEq

/-- Lines 482-533, `vout_Display`: the requests sent, in program order.
`place` is the answer of `vout_PlacePicture` for the window size of the
session. The function reads `p_pic->p_sys->p_image` and the library call reads
the image behind that pointer: when `p_sys` or `p_image` is NULL the program
faults before any request is complete, and the result is `none`. -/
def vout_Display (m : Module) (v : vout_thread_t) (p_pic : picture_t) (place : PlaceResult) :
    Option (List XRequest) :=
  match p_pic.p_sys with
  | none => none
  | some sys =>
    match sys.p_image with
    | none => none
    | some p_image =>
      let put : List XRequest :=
        if v.p_sys.b_shm then
          match m with
          | .xvideo =>
            [XRequest.XvShmPutImage v.p_sys.i_xvport v.p_sys.yuv_window p_image
              v.output.i_width v.output.i_height place.i_width place.i_height]
          | .x11 =>
            [XRequest.XShmPutImage v.p_sys.window p_image v.output.i_width v.output.i_height]
        else
          match m with
          | .xvideo =>
            [XRequest.XvPutImage v.p_sys.i_xvport v.p_sys.yuv_window p_image
              v.output.i_width v.output.i_height place.i_width place.i_height]
          | .x11 =>
            [XRequest.XPutImage v.p_sys.window p_image v.output.i_width v.output.i_height]
      let resize : List XRequest :=
        match m with
        | .xvideo =>
          [XRequest.XResizeWindow v.p_sys.yuv_window place.i_width place.i_height,
           XRequest.XMoveWindow v.p_sys.yuv_window place.i_x place.i_y]
        | .x11 => []
      -- Force synchronization
      some (put ++ resize ++ [XRequest.XSync])

/-! ## `XVideoGetPort` (lines 1398-1581, xvideo build) -/

/-- Adaptor capability of `X11/extensions/Xv.h`. -/
def XvInputMask : Nat := 0x01

/-- Adaptor capability of `X11/extensions/Xv.h`. -/
def XvImageMask : Nat := 0x10

/-- The status `Success` of `X11/X.h`. -/
def Success : Int := 0

/-- One entry of the array `XvQueryAdaptors` returns (`XvAdaptorInfo`), with
the ids of the image formats `XvListImageFormats` lists for its base port. -/
structure XvAdaptorInfo where
  base_id : Nat
  num_ports : Nat
  type : Nat
  formats : List Int
  deriving DecidableEq

/-- The local state of `XVideoGetPort` that its loops change, with the record
of the `XvGrabPort` calls: how many were made and which ports they grabbed. -/
structure XvState where
  i_selected_port : Int
  calls : Nat
  grabbed : List Int
  deriving DecidableEq

/-- Lines 1487-1497: the loop over the ports of an adaptor. `grab k p` tells
whether the call number `k` of `XvGrabPort`, made on port `p`, returns
`Success`. The loop runs while `i_selected_port == -1`. -/
def XVideoGetPort_ports (grab : Nat → Int → Bool) : List Int → XvState → XvState
  | [], st => st
  | i_port :: rest, st =>
    if st.i_selected_port = -1 then
      let st1 : XvState :=
        if grab st.calls i_port then
          { i_selected_port := i_port, calls := st.calls + 1,
            grabbed := st.grabbed ++ [i_port] }
        else { st with calls := st.calls + 1 }
      XVideoGetPort_ports grab rest st1
    else st

/-- The ports of an adaptor, from `base_id` to `base_id + num_ports - 1`. -/
def adaptor_ports (a : XvAdaptorInfo) : List Int :=
  (List.range a.num_ports).map (fun k => ((a.base_id + k : Nat) : Int))

/-- Lines 1470-1555: the loop over the image formats of an adaptor. What
follows the port loop only prints. -/
def XVideoGetPort_formats (grab : Nat → Int → Bool) (i_id : Int) (a : XvAdaptorInfo) :
    List Int → XvState → XvState
  | [], st => st
  | id :: rest, st =>
    if id ≠ i_id then XVideoGetPort_formats grab i_id a rest st
    else XVideoGetPort_formats grab i_id a rest (XVideoGetPort_ports grab (adaptor_ports a) st)

/-- Lines 1446-1563: the loop over the adaptors, from the adaptor number
`i_adaptor` on. -/
def XVideoGetPort_adaptors (grab : Nat → Int → Bool) (i_id i_requested_adaptor : Int) :
    Nat → List XvAdaptorInfo → XvState → XvState
  | _, [], st => st
  | i_adaptor, a :: rest, st =>
    let st1 : XvState :=
      if i_requested_adaptor ≠ -1 ∧ (i_adaptor : Int) ≠ i_requested_adaptor then st
      else if a.type &&& XvInputMask = 0 ∨ a.type &&& XvImageMask = 0 then st
      else XVideoGetPort_formats grab i_id a a.formats st
    XVideoGetPort_adaptors grab i_id i_requested_adaptor (i_adaptor + 1) rest st1

/-- Lines 1398-1581, `XVideoGetPort`: the state at the `return`, whose
`i_selected_port` is the value returned. `ext_status` and `adaptors_status`
are what `XvQueryExtension` and `XvQueryAdaptors` return, `adaptors` is the
array of the latter and `i_requested_adaptor` the value of
`VOUT_XVADAPTOR_VAR`, -1 when it is not set. -/
def XVideoGetPort (ext_status adaptors_status : Int) (adaptors : List XvAdaptorInfo)
    (i_requested_adaptor : Int) (grab : Nat → Int → Bool) (i_id : Int) : XvState :=
  if ext_status ≠ Success then { i_selected_port := -1, calls := 0, grabbed := [] }
  else if adaptors_status ≠ Success then { i_selected_port := -1, calls := 0, grabbed := [] }
  else
    XVideoGetPort_adaptors grab i_id i_requested_adaptor 0 adaptors
      { i_selected_port := -1, calls := 0, grabbed := [] }

/-! ## Definitions used in the statements -/

/-- The library answers under which `NewPicture` succeeds for a known chroma:
the descriptor is allocated and every step of the image creation succeeds
(`NewPicture_spec` proves it is exactly that). -/
def NewPicture_ok (b_shm : Bool) (o : Outcome) : Bool :=
  o.malloc_sys &&
    (if b_shm then o.create_image && o.shmget && o.shmat && o.XShmAttach
     else o.malloc_data && o.create_image)

/-- The chroma and build variant for which `NewPicture` has a case. -/
def known_chroma (m : Module) (c : Chroma) : Prop :=
  (m = Module.x11 ∧ c = Chroma.RGB_16BPP_PICTURE) ∨
    (m = Module.xvideo ∧ c = Chroma.YUV_420_PICTURE)

/-- The number of image-data buffers that stay allocated when one picture is
released: one in the xvideo build without shared memory, where the image is
an `XvImage` that wraps a buffer of `CreateImage` and `IMAGE_FREE` is `XFree`,
none otherwise. -/
def data_left (m : Module) (b_shm : Bool) : Nat :=
  if m = Module.xvideo ∧ b_shm = false then 1 else 0

/-- The resources one successful `NewPicture` call adds to the world `w`,
giving `w1`: the picture has a descriptor, the world has one more descriptor,
image and (with shared memory) segment and no new free-standing data block,
and `FreePicture` on the picture gives all of them back except `left`, the
data buffers that stay allocated (`data_left` many). -/
def allocated_one (m : Module) (b_shm : Bool) (w : World) (pic : picture_t) (w1 : World) :
    Prop :=
  ∃ sys, pic.p_sys = some sys ∧
    w1.sys_blocks.length = w.sys_blocks.length + 1 ∧
    w1.images.length = w.images.length + 1 ∧
    w1.shm_server.length = w.shm_server.length + (if b_shm then 1 else 0) ∧
    w1.shm_proc.length = w.shm_proc.length + (if b_shm then 1 else 0) ∧
    w1.shm_segs.length = w.shm_segs.length + (if b_shm then 1 else 0) ∧
    w1.data_blocks = w.data_blocks ∧
    ∃ left : List (Nat × Int), left.length = data_left m b_shm ∧
      ∀ (v2 : vout_thread_t) (q : picture_t) (x : Nat) (D : List (Nat × Int)),
        v2.p_sys.b_shm = b_shm → q.p_sys = some sys →
        FreePicture v2 q { w1 with next_id := x, data_blocks := D } =
          { w with next_id := x, data_blocks := left ++ D }

/-- The number of slots of the table whose status is `FREE_PICTURE`. -/
def freeCount (l : List picture_t) : Nat :=
  l.countP (fun p => decide (p.i_status = PictureStatus.FREE_PICTURE))

/-- The number of successes at the head of the sequence `ok`, among its first
`limit` entries: the calls that succeed before the first failure or before
`limit` calls have been made, whichever comes first. -/
def successesBefore (ok : Nat → Bool) : Nat → Nat
  | 0 => 0
  | limit + 1 => if ok 0 then successesBefore (fun k => ok (k + 1)) limit + 1 else 0

/-- Every output picture recorded so far is a slot of the table that is not
free. -/
def outputs_taken (v : vout_thread_t) : Prop :=
  ∀ j, j < v.output.i_pictures →
    ∃ q, v.p_picture[v.output.pp_picture j]? = some q ∧
      q.i_status ≠ PictureStatus.FREE_PICTURE

/-- The loop of `vout_Init` is entered: always in the x11 build, and for the
chroma `YUV_420_PICTURE` in the xvideo build. -/
def loop_entered (m : Module) (v : vout_thread_t) : Prop :=
  m = Module.x11 ∨ v.render.i_chroma = Chroma.YUV_420_PICTURE

instance loop_entered_decidable (m : Module) (v : vout_thread_t) :
    Decidable (loop_entered m v) :=
  inferInstanceAs (Decidable (m = Module.x11 ∨ v.render.i_chroma = Chroma.YUV_420_PICTURE))

/-- The arguments of the `vout_Seek` calls in a record of calls. -/
def relative_seeks (cs : List Call) : List Int :=
  cs.filterMap (fun c => match c with
    | Call.vout_Seek k => some k
    | _ => none)

/-- The arguments of the `network_ChannelJoin` calls in a record of calls. -/
def channel_joins (cs : List Call) : List Int :=
  cs.filterMap (fun c => match c with
    | Call.network_ChannelJoin k => some k
    | _ => none)

/-- The relative seek the specification's event table gives an event, in
seconds: the arrow and page keys and the two wheel buttons, nothing else. -/
def spec_relative_seek (e : XEvent) : Option Int :=
  if e.type = KeyPress then
    if e.keysym = XK_Left then some (-5)
    else if e.keysym = XK_Right then some 5
    else if e.keysym = XK_Up then some 60
    else if e.keysym = XK_Down then some (-60)
    else if e.keysym = XK_Page_Up then some 900
    else if e.keysym = XK_Page_Down then some (-900)
    else none
  else if e.type = ButtonPress then
    if e.button = Button4 then some 15
    else if e.button = Button5 then some (-15)
    else none
  else none

/-- The key symbols that have a case of their own in the `switch` of lines
595-632. -/
def named_keysyms : List Nat :=
  [XK_Escape, XK_Menu, XK_Left, XK_Right, XK_Up, XK_Down, XK_Home, XK_End,
   XK_Page_Up, XK_Page_Down, XK_space]

/-- The character of the decimal digit `d`. -/
def digit_char (d : Nat) : Char := Char.ofNat (48 + d)

/-! ## Sample inputs -/

/-- A free picture slot with nothing allocated. -/
def blank_picture : picture_t :=
  { i_status := PictureStatus.FREE_PICTURE, i_type := PictureType.OTHER 0,
    i_left_margin := 0, i_right_margin := 0, i_top_margin := 0, i_bottom_margin := 0,
    planes := fun _ => { p_data := 0, i_bytes := 0, i_line_bytes := 0 },
    i_planes := 0, p_sys := none }

/-- A world with no live handle, a ten-minute screen saver and a visible
cursor. -/
def idle_world : World :=
  { next_id := 0, sys_blocks := [], data_blocks := [], images := [],
    shm_segs := [], shm_proc := [], shm_server := [], faults := 0,
    ss_timeout := 600, ss_interval := 600, ss_blanking := 1, ss_exposure := 1,
    dpms_enabled := true, cursor_blank := false, clock := 0,
    display_open := true, default_screen := 0, display_width := 1024,
    display_height := 768, default_depth := 16,
    visuals := [{ visual := 33, screen := 0, c_class := 4, red_mask := 0xF800,
                  green_mask := 0x07E0, blue_mask := 0x001F }],
    pixmap_formats := [{ depth := 1, bits_per_pixel := 1 }, { depth := 16, bits_per_pixel := 16 }],
    shm_extension := true, atom_wm_protocols := 301, atom_wm_delete_window := 302,
    windows := [], pixmaps := [] }

/-- The answers of a library in which every call succeeds. -/
def always_ok : Outcome :=
  { malloc_sys := true, create_image := true, shmget := true, shmat := true,
    XShmAttach := true, malloc_data := true }

/-- A thread descriptor for a `W` x `H` picture in chroma `YUV_420_PICTURE`,
on a 16-bit screen, with `slots` free picture slots. -/
def sample_vout (b_shm : Bool) (W H : Int) (slots : Nat) : vout_thread_t :=
  { render := { i_chroma := Chroma.YUV_420_PICTURE, i_width := W, i_height := H,
                i_aspect := VOUT_ASPECT_FACTOR },
    output := { i_chroma := Chroma.YUV_420_PICTURE, i_width := W, i_height := H,
                i_aspect := VOUT_ASPECT_FACTOR, i_pictures := 0, pp_picture := fun _ => 0 },
    p_picture := List.replicate slots blank_picture,
    p_sys := { b_shm := b_shm, i_screen_depth := 16, i_bytes_per_pixel := 2,
               i_width := W, i_height := H,
               i_ss_timeout := 0, i_ss_interval := 0, i_ss_blanking := 0, i_ss_exposure := 0,
               b_mouse_pointer_visible := true, i_time_mouse_last_moved := 0,
               i_screen := 0, p_visual := 33, window := 0, yuv_window := 0, i_xvport := 0,
               i_red_mask := 0xF800, i_green_mask := 0x07E0, i_blue_mask := 0x001F,
               wm_protocols := 301, wm_delete_window := 302,
               blank_cursor := 0, cursor_pixmap := 0 },
    b_active := true, b_fullscreen := false, i_changes := 0 }

/-- A library whose third `NewPicture` call fails in `shmat`, every other
call succeeding. -/
def third_fails : Nat → Outcome :=
  fun k => if k = 2 then { always_ok with shmat := false } else always_ok

/-- A playing session: position 1000 in an area that starts at 7 and has size
5000, with no call made yet. -/
def sample_state : ManageState :=
  { vout := sample_vout true 64 64 4,
    intf := { b_die := false, b_menu_change := false,
              area := { i_tell := 1000, i_start := 7, i_size := 5000 },
              i_mux_rate := 1, calls := [] },
    world := idle_world }

/-- A key press with the given key symbol and looked-up character. -/
def key_press (keysym : Nat) (lookup : Option Char) : XEvent :=
  { type := KeyPress, width := 0, height := 0, keysym := keysym, lookup := lookup, button := 0 }

/-- A button press with the given button. -/
def button_press (button : Nat) : XEvent :=
  { type := ButtonPress, width := 0, height := 0, keysym := 0, lookup := none, button := button }

/-- The key symbol `XK_KP_5` of `X11/keysymdef.h`, a key outside the named
ones whose character is the digit 5. -/
def XK_KP_5 : Nat := 0xFFB5

/-- The bytes of a plane: offsets `p_data` up to `p_data + i_bytes`,
exclusive. -/
def in_plane (pl : plane_t) (x : Int) : Prop :=
  pl.p_data ≤ x ∧ x < pl.p_data + pl.i_bytes

/-- A session with its window open: window 7, created 64 x 64, on the idle
world. -/
def session_world : World :=
  { idle_world with next_id := 8, windows := [{ id := 7, width := 64, height := 64 }] }

/-- A playing session in a window: like `sample_state`, with main window 7 of
the given recorded size. -/
def session_state (W H : Int) : ManageState :=
  { sample_state with
    vout := { sample_state.vout with
      p_sys := { sample_state.vout.p_sys with window := 7, i_width := W, i_height := H } },
    world := session_world }

/-- The three events that end the wait of `CreateWindow` for the given window,
the last one carrying the size `W` x `H`. -/
def handshake_events (window : Nat) (W H : Int) : List XWindowEvent :=
  [{ type := Expose, window := window, width := 0, height := 0 },
   { type := MapNotify, window := window, width := 0, height := 0 },
   { type := ConfigureNotify, window := window, width := W, height := H }]

/-- An event of the given type with no payload. -/
def plain_event (type : Nat) : XEvent :=
  { type := type, width := 0, height := 0, keysym := 0, lookup := none, button := 0 }

/-- A `ConfigureNotify` event carrying the size `W` x `H`. -/
def configure_event (W H : Int) : XEvent :=
  { type := ConfigureNotify, width := W, height := H, keysym := 0, lookup := none, button := 0 }

/-- The key symbol `XK_f` of `X11/keysymdef.h`. -/
def XK_f : Nat := 0x0066

/-- A cycle in which the server delivers nothing. -/
def no_input : ManageInput :=
  { events := [], yuv_events := [], client_messages := [], handshake := [] }

/-! ## Definitions used in the statements about sessions and cycles -/

/-- The state after a quit request (`b_die = 1`). -/
def set_die (s : ManageState) : ManageState :=
  { s with intf := { s.intf with b_die := true } }

/-- The state after a menu request (`b_menu_change = 1`). -/
def set_menu (s : ManageState) : ManageState :=
  { s with intf := { s.intf with b_menu_change := true } }

/-- The state after a fullscreen request (`i_changes |= VOUT_FULLSCREEN_CHANGE`). -/
def request_fullscreen (s : ManageState) : ManageState :=
  { s with vout := { s.vout with i_changes := s.vout.i_changes ||| VOUT_FULLSCREEN_CHANGE } }

/-- The state after a `ConfigureNotify` event has been recorded. -/
def record_size (s : ManageState) (e : XEvent) : ManageState :=
  { s with vout := { s.vout with
      p_sys := { s.vout.p_sys with i_width := e.width, i_height := e.height } } }

/-- The state after the time of a pointer motion has been recorded. -/
def record_motion (s : ManageState) : ManageState :=
  { s with vout := { s.vout with
      p_sys := { s.vout.p_sys with i_time_mouse_last_moved := s.world.clock } } }

/-- The state after a `MapNotify` event on an inactive output. -/
def map_step (m : Module) (s : ManageState) : ManageState :=
  { DisableXScreenSaver m s with
    vout := { (DisableXScreenSaver m s).vout with b_active := true } }

/-- The state after an `UnmapNotify` event on an active output. -/
def unmap_step (s : ManageState) : ManageState :=
  { EnableXScreenSaver s with
    vout := { (EnableXScreenSaver s).vout with b_active := false } }

/-- The characters that have a case in the `switch` of lines 643-669. -/
def recognised_chars : List Char :=
  ['q', 'Q', 'f', 'F', '0', '1', '2', '3', '4', '5', '6', '7', '8', '9']

/-- The key symbols whose case calls `vout_Seek`. -/
def seek_keysyms : List Nat :=
  [XK_Left, XK_Right, XK_Up, XK_Down, XK_Page_Up, XK_Page_Down]

/-- The event types the first loop of `vout_Manage` has a branch for. -/
def handled_types : List Nat :=
  [ConfigureNotify, MapNotify, UnmapNotify, KeyPress, ButtonPress, ButtonRelease, MotionNotify]

/-- The size carried by the last `ConfigureNotify` event of a list of events,
if there is one. -/
def last_configure (events : List XEvent) : Option (Int × Int) :=
  ((events.filter (fun e => decide (e.type = ConfigureNotify))).getLast?).map
    (fun e => (e.width, e.height))

/-- The recorded size of the main window, `(i_width, i_height)` of the
descriptor. -/
def recorded_size (s : ManageState) : Int × Int :=
  (s.vout.p_sys.i_width, s.vout.p_sys.i_height)

/-- The four screen-saver parameters of the server: timeout, interval,
blanking, exposure. -/
def ss_params (w : World) : Int × Int × Int × Int :=
  (w.ss_timeout, w.ss_interval, w.ss_blanking, w.ss_exposure)

/-- The four screen-saver parameters saved in the descriptor. -/
def ss_saved (v : vout_thread_t) : Int × Int × Int × Int :=
  (v.p_sys.i_ss_timeout, v.p_sys.i_ss_interval, v.p_sys.i_ss_blanking, v.p_sys.i_ss_exposure)

/-- A session on a server whose screen has depth 8 and whose only visual is of
the given class. -/
def depth8_state (c_class : Nat) : ManageState :=
  { sample_state with
    world := { idle_world with
      default_depth := 8,
      visuals := [{ visual := 34, screen := 0, c_class := c_class, red_mask := 0,
                    green_mask := 0, blue_mask := 0 }],
      pixmap_formats := [{ depth := 8, bits_per_pixel := 8 }] } }

/-- The state `sample_state` at the given time, with the last pointer motion
recorded at time 0 and the cursor visible. -/
def state_at (clock : Int) : ManageState :=
  { session_state 64 64 with world := { session_world with clock := clock } }

/-- The picture pool and the handles it owns: what `vout_Init` and `vout_End`
act on. -/
def pool_frame (s : ManageState) :=
  (s.vout.output, s.vout.p_picture, s.world.sys_blocks, s.world.data_blocks, s.world.images,
    s.world.shm_segs, s.world.shm_proc, s.world.shm_server)

/-- What the size of a new window is computed from, apart from the fullscreen
flag. -/
def screen_frame (s : ManageState) :=
  (s.vout.render, s.world.display_width, s.world.display_height)

/-- The saved and the current screen-saver parameters and the active flag. -/
def saver_frame (s : ManageState) :=
  (ss_saved s.vout, ss_params s.world, s.vout.b_active)

/-- What the window part of `vout_Manage` (lines 765-870) leaves alone. -/
def tail_frame (s : ManageState) :=
  (s.intf, pool_frame s, screen_frame s, saver_frame s)

/-- What the event loops of `vout_Manage` (lines 554-763) leave alone. -/
def loops_frame (s : ManageState) :=
  (pool_frame s, screen_frame s, s.vout.b_fullscreen, s.vout.p_sys.window,
    s.vout.p_sys.wm_protocols, s.vout.p_sys.wm_delete_window, s.world.next_id, s.world.windows,
    s.world.clock)

/-- A `ClientMessage` event that asks to close the window: its type is the
session's `WM_PROTOCOLS` atom and its first datum the session's
`WM_DELETE_WINDOW` atom. -/
def spec_quit_message (sys : vout_sys_t) (c : XClientMessageEvent) : Bool :=
  decide (c.message_type = sys.wm_protocols ∧ c.data_l0 = sys.wm_delete_window)

/-- A key press that asks to quit: the Escape key, or a key without a case of
its own whose looked-up character is 'q' or 'Q'. -/
def spec_quit_key (e : XEvent) : Bool :=
  decide (e.type = KeyPress) &&
    (decide (e.keysym = XK_Escape) ||
      (decide (e.keysym ∉ named_keysyms) &&
        (decide (e.lookup = some 'q') || decide (e.lookup = some 'Q'))))

/-- The events let the wait of `CreateWindow` for the given window end: the
`do ... while` loop of lines 1039-1059 leaves before they run out. -/
def handshake_completes (window : Nat) (events : List XWindowEvent) : Prop :=
  (CreateWindow_wait window false false false (0, 0) events).isSome = true

/-- A key press that asks to quit when the character is read off every key
press: the Escape key, or any key whose looked-up character is 'q' or 'Q'. -/
def spec_quit_key_literal (e : XEvent) : Bool :=
  decide (e.type = KeyPress) &&
    (decide (e.keysym = XK_Escape) || decide (e.lookup = some 'q') ||
      decide (e.lookup = some 'Q'))

/-- An event of the main window no branch of the first loop acts on: a key
press that is neither a named key nor a key with a recognised character, a
press of a button other than 1, 4 and 5, a release of a button other than 3,
or an event of a type without a branch. -/
def spec_unhandled (e : XEvent) : Bool :=
  (decide (e.type = KeyPress) && decide (e.keysym ∉ named_keysyms) &&
      e.lookup.all (fun c => decide (c ∉ recognised_chars))) ||
    (decide (e.type = ButtonPress) && decide (e.button ∉ [Button1, Button4, Button5])) ||
    (decide (e.type = ButtonRelease) && decide (e.button ≠ Button3)) ||
    decide (e.type ∉ handled_types)

/-- A button release with the given button. -/
def button_release (button : Nat) : XEvent :=
  { type := ButtonRelease, width := 0, height := 0, keysym := 0, lookup := none,
    button := button }

/-- A cycle that delivers only input no branch acts on: the key 'a', a press
of button 2, a release of button 1, an event of type 99 and a client message
with foreign atoms. -/
def unhandled_input : ManageInput :=
  { events := [key_press 0x0061 (some 'a'), button_press 2, button_release 1, plain_event 99],
    yuv_events := [],
    client_messages := [{ message_type := 5, data_l0 := 6 }],
    handshake := [] }

/-- A cycle that delivers an Escape key press and nothing else. -/
def escape_input : ManageInput :=
  { no_input with events := [key_press XK_Escape none] }

/-- The session `session_state 64 64` after a successful `vout_Init` of the
x11 build, with a size change pending. -/
def resize_state : ManageState :=
  let s := session_state 64 64
  let r := vout_Init Module.x11 (fun _ => always_ok) s.vout s.world
  { s with vout := { r.2.1 with i_changes := VOUT_SIZE_CHANGE }, world := r.2.2 }

/-- A cycle that delivers one `ConfigureNotify` event with the size 100 x 50. -/
def resize_input : ManageInput :=
  { no_input with events := [configure_event 100 50] }

/-- The time since the last recorded pointer motion, as the test of line 863
computes it: `mdate() - i_time_mouse_last_moved`. -/
def autohide_elapsed (s : ManageState) : Int :=
  s.world.clock - s.vout.p_sys.i_time_mouse_last_moved

/-- The invariant of a session whose screen-saver parameters were `P0` before
`vout_Create`: the saved parameters are `P0`, and while the output is not
active the server has `P0` in force. -/
def saver_inv (P0 : Int × Int × Int × Int) (s : ManageState) : Prop :=
  ss_saved s.vout = P0 ∧ (s.vout.b_active = false → ss_params s.world = P0)

/-- A cycle that delivers a press of the key 'f' and the three events that end
the wait of `CreateWindow` for the given window with the size `W` x `H`. -/
def toggle_input (window : Nat) (W H : Int) : ManageInput :=
  { events := [key_press XK_f (some 'f')], yuv_events := [], client_messages := [],
    handshake := handshake_events window W H }

/-- The answers under which `vout_Create` succeeds on `idle_world`: the window
it creates has the identifier 2. -/
def create_input : CreateInput :=
  { malloc_ok := true, display_ok := true, xv_port := 0,
    handshake := handshake_events (idle_world.next_id + 2) 64 64 }

/-- The state `sample_state` with the output not active. -/
def inactive_state : ManageState :=
  { sample_state with vout := { sample_state.vout with b_active := false } }

/-- A cycle that delivers one `MapNotify` event. -/
def map_input : ManageInput :=
  { no_input with events := [plain_event MapNotify] }

/-- A cycle that delivers one `UnmapNotify` event. -/
def unmap_input : ManageInput :=
  { no_input with events := [plain_event UnmapNotify] }

/-- The session `sample_state` after `vout_Create` of the x11 build has
succeeded on it. -/
def created_state : ManageState :=
  ((vout_Create Module.x11 sample_state create_input).getD (1, sample_state)).2

/-- The session `created_state` after a cycle that delivers `UnmapNotify` and
a cycle that delivers `MapNotify`. -/
def cycled_state : ManageState :=
  (vout_Manage_cycles Module.x11 created_state [unmap_input, map_input]).getD created_state

/-- A whole session: `vout_Create`, then, if it returned 0, the `vout_Manage`
cycles and `vout_Destroy`; `none` when a call never returns or `vout_Create`
fails. -/
def session_run (m : Module) (s0 : ManageState) (cinp : CreateInput)
    (inputs : List ManageInput) : Option ManageState :=
  match vout_Create m s0 cinp with
  | none => none
  | some r =>
    if r.1 = 0 then (vout_Manage_cycles m r.2 inputs).map (vout_Destroy m) else none

/-- The session `session_state 800 600`, a window the user has resized to
800 x 600, after one fullscreen toggle on a 1024 x 768 screen. -/
def toggled_once : ManageState :=
  ((vout_Manage Module.x11 (session_state 800 600) (toggle_input 8 1024 768)).getD
    (1, session_state 800 600)).2

/-- The cursor of `state_at 5` hidden. -/
def hidden_state : ManageState := ToggleCursor (state_at 5)

/-! ## Definitions used in the statements about negotiation, display and ports -/

/-- The value `(void *) -1` that `shmat` returns when it fails (`sys/shm.h`),
as an address. -/
def SHMAT_FAILED : Int := -1

/-- Line 1740, `if(! p_shm->shmaddr )`: the test `CreateShmImage` applies to
the address `shmat` returned; true when the failure branch is taken. -/
def CreateShmImage_shmat_null (shmaddr : Int) : Bool := decide (shmaddr = 0)

/-- The answers of a library in which every call succeeds except that `shmat`
returns the address `shmaddr`: the field `shmat` is what line 1740 makes of
that address. -/
def shmat_outcome (shmaddr : Int) : Outcome :=
  { always_ok with shmat := !CreateShmImage_shmat_null shmaddr }

/-- One of the four steps of `CreateShmImage` gives the answer the code takes
for a failure: a null image, a negative segment id, a null address, or False
from `XShmAttach`. -/
def shm_step_fails (o : Outcome) : Prop :=
  o.create_image = false ∨ o.shmget = false ∨ o.shmat = false ∨ o.XShmAttach = false

/-- The byte size of the local buffer wrapped by the image of a picture, as
`CreateImage` allocated it. -/
def image_data_size (w : World) (pic : picture_t) : Option Int :=
  pic.p_sys.bind (fun sys =>
    sys.p_image.bind (fun img =>
      (w.images.find? (fun i => i.id == img)).bind (fun i => i.data.map (fun d => d.2))))

/-- A thread descriptor of the x11 build without shared memory on a screen of
depth 8: what `InitDisplay` leaves on a server with a DirectColor visual and
no shared-memory extension, with an RGB output of 64 x 64. -/
def depth8_vout : vout_thread_t :=
  let s := depth8_state DirectColor
  let r := InitDisplay Module.x11 { s with world := { s.world with shm_extension := false } }
  { r.2.vout with output := { r.2.vout.output with i_chroma := Chroma.RGB_16BPP_PICTURE } }

/-- An event of the given type addressed to the given window. -/
def addressed (window type : Nat) (e : XWindowEvent) : Bool :=
  decide (e.type = type ∧ e.window = window)

/-- The three acknowledgements, counting the flags already set: an `Expose`,
a `ConfigureNotify` and a `MapNotify` event addressed to the window have been
seen. -/
def acknowledged_from (b_expose b_configure_notify b_map_notify : Bool) (window : Nat)
    (l : List XWindowEvent) : Bool :=
  (b_expose || l.any (addressed window Expose)) &&
    (b_configure_notify || l.any (addressed window ConfigureNotify)) &&
    (b_map_notify || l.any (addressed window MapNotify))

/-- The events hold an `Expose`, a `ConfigureNotify` and a `MapNotify` event
addressed to the window. -/
def acknowledged (window : Nat) (l : List XWindowEvent) : Bool :=
  acknowledged_from false false false window l

/-- The size carried by the last `ConfigureNotify` event addressed to the
window, if there is one. -/
def last_window_configure (window : Nat) (l : List XWindowEvent) : Option (Int × Int) :=
  ((l.filter (addressed window ConfigureNotify)).getLast?).map (fun e => (e.width, e.height))

/-- An event of the given type for the given window, with no size. -/
def window_event (type window : Nat) : XWindowEvent :=
  { type := type, window := window, width := 0, height := 0 }

/-- A `ConfigureNotify` event for the given window with the size `W` x `H`. -/
def window_configure (window : Nat) (W H : Int) : XWindowEvent :=
  { type := ConfigureNotify, window := window, width := W, height := H }

/-- A queue in which the three events for window 8 are mixed with events for
window 3, the window is configured twice, and one more event follows. -/
def mixed_events : List XWindowEvent :=
  [window_event Expose 3, window_configure 8 320 240, window_event Expose 8,
   window_event MapNotify 3, window_configure 8 1024 768, window_event MapNotify 8,
   window_event Expose 8]

/-- The request transfers an image to a window. -/
def is_blit : XRequest → Bool
  | .XvShmPutImage _ _ _ _ _ _ _ => true
  | .XShmPutImage _ _ _ _ => true
  | .XvPutImage _ _ _ _ _ _ _ => true
  | .XPutImage _ _ _ _ => true
  | _ => false

/-- The request resizes or moves a window. -/
def is_resize_or_move : XRequest → Bool
  | .XResizeWindow _ _ _ => true
  | .XMoveWindow _ _ _ => true
  | _ => false

/-- A session whose picture is 5120 x 2880 with the aspect of a 16:9 picture,
`16 * VOUT_ASPECT_FACTOR / 9`, not fullscreen. -/
def wide_state : ManageState :=
  { session_state 5120 2880 with
    vout := { (session_state 5120 2880).vout with
      render := { i_chroma := Chroma.YUV_420_PICTURE, i_width := 5120, i_height := 2880,
                  i_aspect := 768000 } } }

/-- The picture the first `NewPicture` call of the xvideo build allocates at
64 x 64 when the library never fails, with shared memory or without. -/
def displayed_picture (b_shm : Bool) : picture_t :=
  (NewPicture Module.xvideo (sample_vout b_shm 64 64 4) blank_picture always_ok idle_world).pic

/-- A destination rectangle of 128 x 96 at (10, 20). -/
def sample_place : PlaceResult := { i_x := 10, i_y := 20, i_width := 128, i_height := 96 }

/-- The cursor flag agrees with the window: `b_mouse_pointer_visible` is false
exactly when the blank cursor is defined on the main window. -/
def cursor_inv (s : ManageState) : Prop :=
  (!s.vout.p_sys.b_mouse_pointer_visible) = s.world.cursor_blank

/-- The cursor flag and the cursor of the main window. -/
def cursor_frame (s : ManageState) : Bool × Bool :=
  (s.vout.p_sys.b_mouse_pointer_visible, s.world.cursor_blank)

/-- The states a session of the build `m` goes through: the state a
successful `vout_Create` returns, the state after a `vout_Manage` cycle that
returns, and the state after a `ToggleCursor` call. -/
inductive Reachable (m : Module) : ManageState → Prop where
  | create (s0 s : ManageState) (inp : CreateInput) :
      vout_Create m s0 inp = some (0, s) → Reachable m s
  | manage (s : ManageState) (inp : ManageInput) (r : Int × ManageState) :
      Reachable m s → vout_Manage m s inp = some r → Reachable m r.2
  | toggle (s : ManageState) : Reachable m s → Reachable m (ToggleCursor s)

/-- An adaptor `XVideoGetPort` tries: it is the requested one when one is
requested, and it has the input and the image capability. -/
def spec_eligible (i_requested_adaptor : Int) (i_adaptor : Nat) (a : XvAdaptorInfo) : Bool :=
  (decide (i_requested_adaptor = -1) || decide ((i_adaptor : Int) = i_requested_adaptor)) &&
    decide (a.type &&& XvInputMask ≠ 0) && decide (a.type &&& XvImageMask ≠ 0)

/-- The ports tried for an adaptor, when every grab fails: its ports in
order, once for each listing of the requested format. -/
def spec_format_attempts (i_id : Int) (a : XvAdaptorInfo) : List Int → List Int
  | [] => []
  | id :: rest =>
    (if id = i_id then adaptor_ports a else []) ++ spec_format_attempts i_id a rest

/-- The ports tried, in order, when every grab fails: adaptor by adaptor,
the adaptors tried only. -/
def spec_attempts (i_id i_requested_adaptor : Int) : Nat → List XvAdaptorInfo → List Int
  | _, [] => []
  | i_adaptor, a :: rest =>
    (if spec_eligible i_requested_adaptor i_adaptor a then spec_format_attempts i_id a a.formats
     else []) ++ spec_attempts i_id i_requested_adaptor (i_adaptor + 1) rest

/-- The first port of the list whose grab succeeds, the grabs being numbered
from `k` on. -/
def first_grab (grab : Nat → Int → Bool) : Nat → List Int → Option Int
  | _, [] => none
  | k, p :: rest => if grab k p then some p else first_grab grab (k + 1) rest

/-- Two adaptors: one for video only with the ports 40 and 41, one with the
input and image capabilities, the ports 50, 51 and 52 and the planar format
0x32315659. -/
def sample_adaptors : List XvAdaptorInfo :=
  [{ base_id := 40, num_ports := 2, type := 0x05, formats := [0x32315659] },
   { base_id := 50, num_ports := 3, type := 0x11, formats := [0x59565955, 0x32315659] }]

/-- A server on which only the port 51 can be grabbed. -/
def grab_51 : Nat → Int → Bool := fun _ p => decide (p = 51)

/-! ## Lemmas -/

theorem CreateShmImage_fail (m : Module) (o : Outcome) (w : World) (s : XShmSegmentInfo)
    (W H : Int) (h : (o.create_image && o.shmget && o.shmat && o.XShmAttach) = false) :
    (CreateShmImage m o w s W H).1 = none ∧
      (CreateShmImage m o w s W H).2.2 =
        { w with next_id := (CreateShmImage m o w s W H).2.2.next_id } := by
  rcases o with ⟨ms, _ | _, _ | _, _ | _, _ | _, md⟩ <;> cases m <;>
    simp [CreateShmImage, IMAGE_FREE, shmctl_RMID, shmdt] at h ⊢

theorem CreateShmImage_ok (m : Module) (o : Outcome) (w : World) (s : XShmSegmentInfo)
    (W H : Int) (h : (o.create_image && o.shmget && o.shmat && o.XShmAttach) = true) :
    CreateShmImage m o w s W H =
      (some w.next_id,
        { shmid := ((w.next_id + 1 : Nat) : Int), shmaddr := some ((w.next_id + 1 : Nat) : Int),
          readOnly := decide (m = Module.x11) },
        { w with next_id := w.next_id + 2,
                 images := ⟨w.next_id, none, decide (m = Module.xvideo)⟩ :: w.images,
                 shm_segs := ((w.next_id + 1 : Nat) : Int) :: w.shm_segs,
                 shm_proc := ((w.next_id + 1 : Nat) : Int) :: w.shm_proc,
                 shm_server := ((w.next_id + 1 : Nat) : Int) :: w.shm_server }) := by
  rcases o with ⟨ms, _ | _, _ | _, _ | _, _ | _, md⟩ <;>
    simp [CreateShmImage] at h ⊢

theorem CreateImage_fail (m : Module) (o : Outcome) (w : World) (b W H : Int)
    (h : (o.malloc_data && o.create_image) = false) :
    (CreateImage m o w b W H).1 = none ∧
      (CreateImage m o w b W H).2 = { w with next_id := (CreateImage m o w b W H).2.next_id } := by
  rcases o with ⟨ms, _ | _, g, a, x, _ | _⟩ <;>
    simp [CreateImage, free_data] at h ⊢

theorem CreateImage_ok (m : Module) (o : Outcome) (w : World) (b W H : Int)
    (h : (o.malloc_data && o.create_image) = true) :
    ∃ d, CreateImage m o w b W H =
      (some (w.next_id + 1),
        { w with next_id := w.next_id + 2,
                 images := ⟨w.next_id + 1, some d, decide (m = Module.xvideo)⟩ :: w.images }) := by
  rcases o with ⟨ms, _ | _, g, a, x, _ | _⟩ <;>
    simp [CreateImage] at h ⊢

theorem NewPicture_alloc_fail (m : Module) (v : vout_thread_t) (p : picture_t) (o : Outcome)
    (w : World) (h : NewPicture_ok v.p_sys.b_shm o = false) :
    ∃ s w1, NewPicture_alloc m v p o w = .error ({ p with p_sys := s }, w1) ∧
      w1 = { w with next_id := w1.next_id } := by
  unfold NewPicture_ok at h
  unfold NewPicture_alloc
  cases hm : o.malloc_sys
  · exact ⟨none, w, by simp, rfl⟩
  · simp only [hm, Bool.true_and] at h
    cases hb : v.p_sys.b_shm
    · simp only [hb] at h
      simp only [Bool.false_eq_true, if_false] at h ⊢
      obtain ⟨h1, h2⟩ := CreateImage_fail m o
        { w with next_id := w.next_id + 1, sys_blocks := w.next_id :: w.sys_blocks }
        v.p_sys.i_bytes_per_pixel v.output.i_width v.output.i_height h
      simp only [h1]
      refine ⟨_, _, rfl, ?_⟩
      rw [h2]
      simp [free_sys]
    · simp only [hb] at h
      simp only [if_true] at h ⊢
      obtain ⟨h1, h2⟩ := CreateShmImage_fail m o
        { w with next_id := w.next_id + 1, sys_blocks := w.next_id :: w.sys_blocks }
        (fresh_sys w.next_id).shminfo v.output.i_width v.output.i_height h
      simp only [h1]
      refine ⟨_, _, rfl, ?_⟩
      rw [h2]
      simp [free_sys]

theorem NewPicture_alloc_ok (m : Module) (v : vout_thread_t) (p : picture_t) (o : Outcome)
    (w : World) (h : NewPicture_ok v.p_sys.b_shm o = true) :
    ∃ sys w1, NewPicture_alloc m v p o w = .ok (sys, w1) ∧
      w1.sys_blocks = sys.addr :: w.sys_blocks ∧
      w1.images.length = w.images.length + 1 ∧
      w1.shm_server.length = w.shm_server.length + (if v.p_sys.b_shm then 1 else 0) ∧
      w1.shm_proc.length = w.shm_proc.length + (if v.p_sys.b_shm then 1 else 0) ∧
      w1.shm_segs.length = w.shm_segs.length + (if v.p_sys.b_shm then 1 else 0) ∧
      w1.data_blocks = w.data_blocks ∧
      ∃ left : List (Nat × Int), left.length = data_left m v.p_sys.b_shm ∧
        ∀ (v2 : vout_thread_t) (q : picture_t) (x : Nat) (D : List (Nat × Int)),
          v2.p_sys.b_shm = v.p_sys.b_shm → q.p_sys = some sys →
          FreePicture v2 q { w1 with next_id := x, data_blocks := D } =
            { w with next_id := x, data_blocks := left ++ D } := by
  unfold NewPicture_ok at h
  unfold NewPicture_alloc
  cases hm : o.malloc_sys
  · simp [hm] at h
  · simp only [hm, Bool.true_and] at h
    cases hb : v.p_sys.b_shm
    · simp only [hb] at h
      simp only [Bool.false_eq_true, if_false] at h ⊢
      obtain ⟨d, hd⟩ := CreateImage_ok m o
        { w with next_id := w.next_id + 1, sys_blocks := w.next_id :: w.sys_blocks }
        v.p_sys.i_bytes_per_pixel v.output.i_width v.output.i_height h
      simp only [hd]
      refine ⟨_, _, rfl, ?_, ?_, ?_, ?_, ?_, ?_, ?_⟩ <;> try simp [fresh_sys]
      cases m
      · refine ⟨[], by simp [data_left], ?_⟩
        intro v2 q x D hv2 hq
        simp [FreePicture, hq, hv2, IMAGE_FREE, free_sys]
      · refine ⟨[d], by simp [data_left], ?_⟩
        intro v2 q x D hv2 hq
        simp [FreePicture, hq, hv2, IMAGE_FREE, free_sys]
    · simp only [hb] at h
      simp only [if_true] at h ⊢
      rw [CreateShmImage_ok m o _ _ _ _ h]
      refine ⟨_, _, rfl, ?_, ?_, ?_, ?_, ?_, ?_, ?_⟩ <;> try simp [fresh_sys]
      refine ⟨[], by simp [data_left], ?_⟩
      intro v2 q x D hv2 hq
      cases m <;>
        simp [FreePicture, hq, hv2, IMAGE_FREE, free_sys, XShmDetach, shmctl_RMID, shmdt]

theorem NewPicture_spec (m : Module) (v : vout_thread_t) (p : picture_t) (o : Outcome)
    (w : World) :
    (NewPicture m v p o w).pic.i_status = p.i_status ∧
    (((NewPicture m v p o w).ret = -1 ∧
        ¬ (known_chroma m v.output.i_chroma ∧ NewPicture_ok v.p_sys.b_shm o = true) ∧
        (NewPicture m v p o w).world =
          { w with next_id := (NewPicture m v p o w).world.next_id }) ∨
     ((NewPicture m v p o w).ret = 0 ∧
        known_chroma m v.output.i_chroma ∧ NewPicture_ok v.p_sys.b_shm o = true ∧
        allocated_one m v.p_sys.b_shm w (NewPicture m v p o w).pic
          (NewPicture m v p o w).world)) := by
  have key : ∀ (hk : known_chroma m v.output.i_chroma), 
      (NewPicture_ok v.p_sys.b_shm o = false →
        ∃ s w1, NewPicture m v p o w = { ret := -1, pic := { p with p_sys := s }, world := w1 } ∧
          w1 = { w with next_id := w1.next_id }) ∧
      (NewPicture_ok v.p_sys.b_shm o = true →
        (NewPicture m v p o w).ret = 0 ∧ (NewPicture m v p o w).pic.i_status = p.i_status ∧
        allocated_one m v.p_sys.b_shm w (NewPicture m v p o w).pic
          (NewPicture m v p o w).world) := by
    intro hk
    constructor
    · intro hok
      obtain ⟨s, w1, h1, h2⟩ := NewPicture_alloc_fail m v p o w hok
      refine ⟨s, w1, ?_, h2⟩
      rcases hk with ⟨hm, hc⟩ | ⟨hm, hc⟩ <;> subst hm <;> simp only [NewPicture, hc, h1]
    · intro hok
      obtain ⟨sys, w1, h1, h2, h3, h4, h5, h6, h7, h8⟩ := NewPicture_alloc_ok m v p o w hok
      rcases hk with ⟨hm, hc⟩ | ⟨hm, hc⟩ <;> subst hm <;> simp only [NewPicture, hc, h1, true_and] <;>
        exact ⟨sys, rfl, by simp [h2], h3, h4, h5, h6, h7, h8⟩
  by_cases hk : known_chroma m v.output.i_chroma
  · cases hok : NewPicture_ok v.p_sys.b_shm o
    · obtain ⟨s, w1, h1, h2⟩ := (key hk).1 hok
      rw [h1]
      exact ⟨rfl, Or.inl ⟨rfl, by simp, h2⟩⟩
    · obtain ⟨h1, h2, h3⟩ := (key hk).2 hok
      exact ⟨h2, Or.inr ⟨h1, hk, rfl, h3⟩⟩
  · have : NewPicture m v p o w = { ret := -1, pic := { p with i_planes := 0 }, world := w } := by
      unfold known_chroma at hk
      cases m <;> cases hc : v.output.i_chroma <;> simp_all [NewPicture]
    rw [this]
    exact ⟨rfl, Or.inl ⟨rfl, fun h => hk h.1, rfl⟩⟩

theorem find_free_slot_none {l : List picture_t} (h : find_free_slot l = none) :
    freeCount l = 0 := by
  induction l with
  | nil => rfl
  | cons p ps ih =>
    unfold find_free_slot at h
    split at h
    · simp at h
    · rename_i hp
      simp only [Option.map_eq_none'] at h
      simp [freeCount, List.countP_cons, hp] 
      have := ih h
      simpa [freeCount] using this

theorem find_free_slot_some {l : List picture_t} {i : Nat} (h : find_free_slot l = some i) :
    ∃ p, l[i]? = some p ∧ p.i_status = PictureStatus.FREE_PICTURE := by
  induction l generalizing i with
  | nil => simp [find_free_slot] at h
  | cons q qs ih =>
    unfold find_free_slot at h
    split at h
    · rename_i hq
      simp at h
      subst h
      exact ⟨q, by simp, hq⟩
    · simp only [Option.map_eq_some'] at h
      obtain ⟨j, hj, rfl⟩ := h
      obtain ⟨p, hp, hs⟩ := ih hj
      exact ⟨p, by simpa using hp, hs⟩

theorem modify_slot_getElem? (f : picture_t → picture_t) (l : List picture_t) (i j : Nat) :
    (modify_slot f i l)[j]? = if j = i then (l[j]?).map f else l[j]? := by
  induction l generalizing i j with
  | nil => cases i <;> simp [modify_slot]
  | cons q qs ih =>
    cases i with
    | zero =>
      cases j with
      | zero => simp [modify_slot]
      | succ j => simp [modify_slot]
    | succ i =>
      cases j with
      | zero => simp [modify_slot]
      | succ j => simp [modify_slot, ih]

theorem freeCount_modify_slot {f : picture_t → picture_t} {l : List picture_t} {i : Nat}
    {p : picture_t} (hp : l[i]? = some p) (hs : p.i_status = PictureStatus.FREE_PICTURE)
    (hf : (f p).i_status ≠ PictureStatus.FREE_PICTURE) :
    freeCount (modify_slot f i l) + 1 = freeCount l := by
  induction l generalizing i with
  | nil => simp at hp
  | cons q qs ih =>
    cases i with
    | zero =>
      simp at hp
      subst hp
      simp [modify_slot, freeCount, List.countP_cons, hs, hf]
    | succ i =>
      simp at hp
      have := ih hp
      simp only [freeCount] at this
      simp only [modify_slot, freeCount, List.countP_cons]
      omega

theorem freeCount_modify_slot_same {f : picture_t → picture_t} {l : List picture_t} {i : Nat}
    (hf : ∀ p, l[i]? = some p → (f p).i_status = p.i_status) :
    freeCount (modify_slot f i l) = freeCount l := by
  induction l generalizing i with
  | nil => cases i <;> rfl
  | cons q qs ih =>
    cases i with
    | zero =>
      have := hf q (by simp)
      simp [modify_slot, freeCount, List.countP_cons, this]
    | succ i =>
      have := ih (i := i) (fun p hp => hf p (by simpa using hp))
      simp only [freeCount] at this
      simp only [modify_slot, freeCount, List.countP_cons, this]

theorem vout_Init_loop_induct (m : Module)
    (P : Nat → (Nat → Outcome) → vout_thread_t → World → vout_thread_t → World → Prop)
    (stop : ∀ fuel env v w,
      fuel = 0 ∨ ¬ v.output.i_pictures < MAX_DIRECTBUFFERS m ∨
        find_free_slot v.p_picture = none → P fuel env v w v w)
    (fail : ∀ fuel env v w i p, v.output.i_pictures < MAX_DIRECTBUFFERS m →
      find_free_slot v.p_picture = some i → v.p_picture[i]? = some p →
      p.i_status = PictureStatus.FREE_PICTURE →
      (NewPicture m v p (env 0) w).ret ≠ 0 →
      P (fuel + 1) env v w
        { v with p_picture := modify_slot (fun _ => (NewPicture m v p (env 0) w).pic) i v.p_picture }
        (NewPicture m v p (env 0) w).world)
    (step : ∀ fuel env v w i p v2 w2, v.output.i_pictures < MAX_DIRECTBUFFERS m →
      find_free_slot v.p_picture = some i → v.p_picture[i]? = some p →
      p.i_status = PictureStatus.FREE_PICTURE →
      (NewPicture m v p (env 0) w).ret = 0 →
      P fuel (fun k => env (k + 1)) (after_success v i (NewPicture m v p (env 0) w).pic)
        (NewPicture m v p (env 0) w).world v2 w2 →
      P (fuel + 1) env v w v2 w2) :
    ∀ fuel env v w,
      P fuel env v w (vout_Init_loop m fuel env v w).1 (vout_Init_loop m fuel env v w).2 := by
  intro fuel
  induction fuel with
  | zero => intro env v w; exact stop 0 env v w (Or.inl rfl)
  | succ fuel ih =>
    intro env v w
    unfold vout_Init_loop
    by_cases hg : v.output.i_pictures < MAX_DIRECTBUFFERS m
    · simp only [hg, if_true]
      cases hf : find_free_slot v.p_picture with
      | none => exact stop _ env v w (Or.inr (Or.inr hf))
      | some i =>
        obtain ⟨p, hp, hs⟩ := find_free_slot_some hf
        simp only [hp]
        by_cases hr : (NewPicture m v p (env 0) w).ret = 0
        · simp only [hr, ne_eq, not_true_eq_false, if_false]
          exact step fuel env v w i p _ _ hg hf hp hs hr (ih _ _ _)
        · simp only [ne_eq, hr, not_false_eq_true, if_true]
          exact fail fuel env v w i p hg hf hp hs hr
    · simp only [hg, if_false]
      exact stop _ env v w (Or.inr (Or.inl hg))

theorem vout_Init_loop_frame (m : Module) (fuel : Nat) (env : Nat → Outcome)
    (v : vout_thread_t) (w : World) :
    (vout_Init_loop m fuel env v w).1.p_sys = v.p_sys ∧
    (vout_Init_loop m fuel env v w).1.render = v.render ∧
    (vout_Init_loop m fuel env v w).1.output.i_chroma = v.output.i_chroma ∧
    v.output.i_pictures ≤ (vout_Init_loop m fuel env v w).1.output.i_pictures ∧
    (v.output.i_pictures ≤ MAX_DIRECTBUFFERS m →
      (vout_Init_loop m fuel env v w).1.output.i_pictures ≤ MAX_DIRECTBUFFERS m) := by
  refine vout_Init_loop_induct m
    (fun _ _ v _ v2 _ => v2.p_sys = v.p_sys ∧ v2.render = v.render ∧
      v2.output.i_chroma = v.output.i_chroma ∧
      v.output.i_pictures ≤ v2.output.i_pictures ∧
      (v.output.i_pictures ≤ MAX_DIRECTBUFFERS m →
        v2.output.i_pictures ≤ MAX_DIRECTBUFFERS m)) ?_ ?_ ?_ fuel env v w
  · intro _ _ v _ _
    exact ⟨rfl, rfl, rfl, le_refl _, fun h => h⟩
  · intro _ _ v _ _ _ _ _ _ _ _
    exact ⟨rfl, rfl, rfl, le_refl _, fun h => h⟩
  · intro _ _ v _ i p v2 w2 hg _ _ _ _ ih
    obtain ⟨h1, h2, h3, h4, h5⟩ := ih
    simp only [after_success] at h1 h2 h3 h4 h5
    exact ⟨h1, h2, h3, by omega, fun _ => h5 hg⟩

theorem successesBefore_le (ok : Nat → Bool) (a : Nat) : successesBefore ok a ≤ a := by
  induction a generalizing ok with
  | zero => simp [successesBefore]
  | succ a ih =>
    unfold successesBefore
    split
    · have := ih (fun k => ok (k + 1)); omega
    · omega

theorem successesBefore_mono (ok : Nat → Bool) {a b : Nat} (h : b ≤ a) :
    successesBefore ok b ≤ successesBefore ok a := by
  induction a generalizing ok b with
  | zero =>
    have : b = 0 := by omega
    subst this; exact le_refl _
  | succ a ih =>
    cases b with
    | zero => simp [successesBefore]
    | succ b =>
      unfold successesBefore
      split
      · have := ih (fun k => ok (k + 1)) (b := b) (by omega); omega
      · exact le_refl _

theorem successesBefore_stable (ok : Nat → Bool) {a b : Nat} (h1 : successesBefore ok a ≤ b)
    (h2 : b ≤ a) : successesBefore ok b = successesBefore ok a := by
  induction a generalizing ok b with
  | zero =>
    have : b = 0 := by omega
    subst this; rfl
  | succ a ih =>
    cases b with
    | zero =>
      simp only [Nat.le_zero_eq] at h1
      rw [h1]
      rfl
    | succ b =>
      unfold successesBefore at h1 ⊢
      split
      · rename_i h0
        simp only [h0, if_true] at h1
        have := ih (fun k => ok (k + 1)) (b := b) (by omega) (by omega)
        omega
      · rfl

theorem vout_Init_loop_count (m : Module) (fuel : Nat) (env : Nat → Outcome)
    (v : vout_thread_t) (w : World) (hk : known_chroma m v.output.i_chroma)
    (hle : v.output.i_pictures ≤ MAX_DIRECTBUFFERS m)
    (hfuel : MAX_DIRECTBUFFERS m - v.output.i_pictures ≤ fuel) :
    (vout_Init_loop m fuel env v w).1.output.i_pictures =
      v.output.i_pictures +
        successesBefore (fun k => NewPicture_ok v.p_sys.b_shm (env k))
          (min (MAX_DIRECTBUFFERS m - v.output.i_pictures) (freeCount v.p_picture)) ∧
    freeCount (vout_Init_loop m fuel env v w).1.p_picture +
      (vout_Init_loop m fuel env v w).1.output.i_pictures =
        freeCount v.p_picture + v.output.i_pictures := by
  refine vout_Init_loop_induct m
    (fun fuel env v _ v2 _ => known_chroma m v.output.i_chroma →
      v.output.i_pictures ≤ MAX_DIRECTBUFFERS m →
      MAX_DIRECTBUFFERS m - v.output.i_pictures ≤ fuel →
      v2.output.i_pictures =
        v.output.i_pictures +
          successesBefore (fun k => NewPicture_ok v.p_sys.b_shm (env k))
            (min (MAX_DIRECTBUFFERS m - v.output.i_pictures) (freeCount v.p_picture)) ∧
      freeCount v2.p_picture + v2.output.i_pictures =
        freeCount v.p_picture + v.output.i_pictures) ?_ ?_ ?_ fuel env v w hk hle hfuel
  · intro fuel env v w hstop _ hle hfuel
    have : min (MAX_DIRECTBUFFERS m - v.output.i_pictures) (freeCount v.p_picture) = 0 := by
      rcases hstop with h | h | h
      · subst h; simp at hfuel; omega
      · omega
      · rw [find_free_slot_none h]; simp
    rw [this]
    simp [successesBefore]
  · intro fuel env v w i p hg hf hp hs hr hk _ _
    have hspec := NewPicture_spec m v p (env 0) w
    obtain ⟨hst, hcase⟩ := hspec
    rcases hcase with ⟨_, hno, _⟩ | ⟨h0, _⟩
    · have hok : NewPicture_ok v.p_sys.b_shm (env 0) = false := by
        cases h : NewPicture_ok v.p_sys.b_shm (env 0)
        · rfl
        · exact absurd ⟨hk, h⟩ hno
      have hfc : 0 < freeCount v.p_picture := by
        have := freeCount_modify_slot (f := fun _ => mark_direct p) hp hs (by simp [mark_direct])
        omega
      obtain ⟨a, ha⟩ : ∃ a, min (MAX_DIRECTBUFFERS m - v.output.i_pictures)
          (freeCount v.p_picture) = a + 1 := ⟨_, (Nat.succ_pred_eq_of_pos (by omega)).symm⟩
      rw [ha]
      simp only [successesBefore, hok, Bool.false_eq_true, if_false, Nat.add_zero, true_and]
      rw [freeCount_modify_slot_same]
      intro q hq
      rw [hp] at hq
      cases hq
      exact hst
    · exact absurd h0 hr
  · intro fuel env v w i p v2 w2 hg hf hp hs hr ih hk hle hfuel
    have hspec := NewPicture_spec m v p (env 0) w
    obtain ⟨hst, hcase⟩ := hspec
    rcases hcase with ⟨h1, _⟩ | ⟨_, _, hok, _⟩
    · rw [hr] at h1; exact absurd h1 (by decide)
    · have hfc := freeCount_modify_slot
        (f := fun _ => mark_direct (NewPicture m v p (env 0) w).pic) hp hs (by simp [mark_direct])
      obtain ⟨ih1, ih2⟩ := ih (by simpa [after_success] using hk)
        (by simp only [after_success]; omega) (by simp only [after_success]; omega)
      simp only [after_success] at ih1 ih2
      obtain ⟨a, ha⟩ : ∃ a, min (MAX_DIRECTBUFFERS m - v.output.i_pictures)
          (freeCount v.p_picture) = a + 1 := ⟨_, (Nat.succ_pred_eq_of_pos (by omega)).symm⟩
      have ha2 : min (MAX_DIRECTBUFFERS m - (v.output.i_pictures + 1))
          (freeCount (modify_slot (fun _ => mark_direct (NewPicture m v p (env 0) w).pic) i
            v.p_picture)) = a := by omega
      rw [ha2] at ih1
      rw [ha]
      simp only [successesBefore, hok, if_true]
      constructor
      · rw [ih1]; omega
      · omega

theorem FreePicture_congr (v v2 : vout_thread_t) (q : picture_t) (w : World)
    (hs : v2.p_sys.b_shm = v.p_sys.b_shm) : FreePicture v2 q w = FreePicture v q w := by
  simp [FreePicture, hs]

theorem vout_End_loop_congr (v v2 : vout_thread_t) (n : Nat) (w : World)
    (hs : v2.p_sys.b_shm = v.p_sys.b_shm)
    (h : ∀ j, j < n →
      v2.p_picture[v2.output.pp_picture j]? = v.p_picture[v.output.pp_picture j]?) :
    vout_End_loop v2 n w = vout_End_loop v n w := by
  induction n generalizing w with
  | zero => rfl
  | succ n ih =>
    unfold vout_End_loop
    rw [h n (by omega)]
    cases v.p_picture[v.output.pp_picture n]? with
    | none => exact ih _ (fun j hj => h j (by omega))
    | some q =>
      simp only
      rw [FreePicture_congr v v2 q w hs]
      exact ih _ (fun j hj => h j (by omega))

theorem vout_End_loop_succ_some (v : vout_thread_t) (n : Nat) (w : World) (q : picture_t)
    (h : v.p_picture[v.output.pp_picture n]? = some q) :
    vout_End_loop v (n + 1) w = vout_End_loop v n (FreePicture v q w) := by
  simp [vout_End_loop, h]

theorem vout_Init_loop_end (m : Module) (fuel : Nat) (env : Nat → Outcome)
    (v : vout_thread_t) (w : World) (hinv : outputs_taken v) :
    outputs_taken (vout_Init_loop m fuel env v w).1 ∧
    (vout_Init_loop m fuel env v w).2.data_blocks = w.data_blocks ∧
    ∃ L : List (Nat × Int),
      L.length + data_left m v.p_sys.b_shm * v.output.i_pictures =
        data_left m v.p_sys.b_shm * (vout_Init_loop m fuel env v w).1.output.i_pictures ∧
      vout_End_loop (vout_Init_loop m fuel env v w).1
          (vout_Init_loop m fuel env v w).1.output.i_pictures (vout_Init_loop m fuel env v w).2 =
        vout_End_loop v v.output.i_pictures
          { w with next_id := (vout_Init_loop m fuel env v w).2.next_id,
                   data_blocks := L ++ w.data_blocks } := by
  refine vout_Init_loop_induct m
    (fun _ _ v w v2 w2 => outputs_taken v →
      outputs_taken v2 ∧
      w2.data_blocks = w.data_blocks ∧
      ∃ L : List (Nat × Int),
        L.length + data_left m v.p_sys.b_shm * v.output.i_pictures =
          data_left m v.p_sys.b_shm * v2.output.i_pictures ∧
        vout_End_loop v2 v2.output.i_pictures w2 =
          vout_End_loop v v.output.i_pictures
            { w with next_id := w2.next_id, data_blocks := L ++ w.data_blocks })
    ?_ ?_ ?_ fuel env v w hinv
  · intro _ _ v w _ hinv
    exact ⟨hinv, rfl, [], by simp, rfl⟩
  · intro fuel env v w i p hg hf hp hs hr hinv
    obtain ⟨hst, hcase⟩ := NewPicture_spec m v p (env 0) w
    rcases hcase with ⟨_, _, hworld⟩ | ⟨h0, _⟩
    · have hsame : ∀ j, j < v.output.i_pictures →
          (modify_slot (fun _ => (NewPicture m v p (env 0) w).pic) i v.p_picture)[
            v.output.pp_picture j]? = v.p_picture[v.output.pp_picture j]? := by
        intro j hj
        obtain ⟨q, hq, hqs⟩ := hinv j hj
        rw [modify_slot_getElem?]
        have hne : v.output.pp_picture j ≠ i := by
          intro h
          rw [h, hp] at hq
          cases hq
          exact hqs hs
        simp [hne]
      have hworld2 : ({ w with next_id := (NewPicture m v p (env 0) w).world.next_id,
                               data_blocks := [] ++ w.data_blocks } : World) =
          (NewPicture m v p (env 0) w).world := hworld.symm
      refine ⟨?_, (by have hd := congrArg World.data_blocks hworld; exact hd), [], by simp, ?_⟩
      · intro j hj
        obtain ⟨q, hq, hqs⟩ := hinv j hj
        exact ⟨q, by rw [← hq]; exact hsame j hj, hqs⟩
      · rw [hworld2]
        exact vout_End_loop_congr v _ _ _ rfl hsame
    · exact absurd h0 hr
  · intro fuel env v w i p v2 w2 hg hf hp hs hr ih hinv
    obtain ⟨hst, hcase⟩ := NewPicture_spec m v p (env 0) w
    rcases hcase with ⟨h1, _⟩ | ⟨_, _, _, sys, hsys, _, _, _, _, _, hdata, left, hleft, hfree⟩
    · rw [hr] at h1; exact absurd h1 (by decide)
    · have hsame : ∀ j, j < v.output.i_pictures →
          (after_success v i (NewPicture m v p (env 0) w).pic).p_picture[
            (after_success v i (NewPicture m v p (env 0) w).pic).output.pp_picture j]? =
          v.p_picture[v.output.pp_picture j]? := by
        intro j hj
        obtain ⟨q, hq, hqs⟩ := hinv j hj
        simp only [after_success]
        rw [Function.update_noteq (by omega), modify_slot_getElem?]
        have hne : v.output.pp_picture j ≠ i := by
          intro h
          rw [h, hp] at hq
          cases hq
          exact hqs hs
        simp [hne]
      have hnew : (after_success v i (NewPicture m v p (env 0) w).pic).p_picture[
          (after_success v i (NewPicture m v p (env 0) w).pic).output.pp_picture
            v.output.i_pictures]? = some (mark_direct (NewPicture m v p (env 0) w).pic) := by
        simp only [after_success, Function.update_same]
        rw [modify_slot_getElem?]
        simp [hp]
      have hinv1 : outputs_taken (after_success v i (NewPicture m v p (env 0) w).pic) := by
        intro j hj
        have hj2 : j < v.output.i_pictures + 1 := hj
        by_cases hjk : j = v.output.i_pictures
        · subst hjk
          exact ⟨_, hnew, by simp [mark_direct]⟩
        · obtain ⟨q, hq, hqs⟩ := hinv j (by omega)
          exact ⟨q, by rw [← hq]; exact hsame j (by omega), hqs⟩
      obtain ⟨ih1, ih2, L, hL, ih3⟩ := ih hinv1
      have hcount : (after_success v i (NewPicture m v p (env 0) w).pic).output.i_pictures =
          v.output.i_pictures + 1 := rfl
      have hshm : (after_success v i (NewPicture m v p (env 0) w).pic).p_sys.b_shm =
          v.p_sys.b_shm := rfl
      rw [hcount, hshm] at hL
      refine ⟨ih1, ih2.trans hdata, left ++ L, ?_, ?_⟩
      · rw [List.length_append, hleft, ← hL, Nat.mul_succ]
        omega
      · rw [ih3, hcount, vout_End_loop_succ_some _ _ _ _ hnew]
        rw [hfree (after_success v i (NewPicture m v p (env 0) w).pic) _ _ _ rfl
          (by simp [mark_direct, hsys])]
        rw [hdata, ← List.append_assoc]
        exact vout_End_loop_congr v (after_success v i (NewPicture m v p (env 0) w).pic) _ _ rfl
          hsame

theorem vout_Init_loop_resources (m : Module) (fuel : Nat) (env : Nat → Outcome)
    (v : vout_thread_t) (w : World) :
    (vout_Init_loop m fuel env v w).2.sys_blocks.length + v.output.i_pictures =
      w.sys_blocks.length + (vout_Init_loop m fuel env v w).1.output.i_pictures ∧
    (vout_Init_loop m fuel env v w).2.images.length + v.output.i_pictures =
      w.images.length + (vout_Init_loop m fuel env v w).1.output.i_pictures ∧
    (vout_Init_loop m fuel env v w).2.shm_server.length +
        (if v.p_sys.b_shm then v.output.i_pictures else 0) =
      w.shm_server.length +
        (if v.p_sys.b_shm then (vout_Init_loop m fuel env v w).1.output.i_pictures else 0) ∧
    (vout_Init_loop m fuel env v w).2.shm_proc.length +
        (if v.p_sys.b_shm then v.output.i_pictures else 0) =
      w.shm_proc.length +
        (if v.p_sys.b_shm then (vout_Init_loop m fuel env v w).1.output.i_pictures else 0) ∧
    (vout_Init_loop m fuel env v w).2.shm_segs.length +
        (if v.p_sys.b_shm then v.output.i_pictures else 0) =
      w.shm_segs.length +
        (if v.p_sys.b_shm then (vout_Init_loop m fuel env v w).1.output.i_pictures else 0) := by
  refine vout_Init_loop_induct m
    (fun _ _ v w v2 w2 =>
      w2.sys_blocks.length + v.output.i_pictures = w.sys_blocks.length + v2.output.i_pictures ∧
      w2.images.length + v.output.i_pictures = w.images.length + v2.output.i_pictures ∧
      w2.shm_server.length + (if v.p_sys.b_shm then v.output.i_pictures else 0) =
        w.shm_server.length + (if v.p_sys.b_shm then v2.output.i_pictures else 0) ∧
      w2.shm_proc.length + (if v.p_sys.b_shm then v.output.i_pictures else 0) =
        w.shm_proc.length + (if v.p_sys.b_shm then v2.output.i_pictures else 0) ∧
      w2.shm_segs.length + (if v.p_sys.b_shm then v.output.i_pictures else 0) =
        w.shm_segs.length + (if v.p_sys.b_shm then v2.output.i_pictures else 0))
    ?_ ?_ ?_ fuel env v w
  · intro _ _ v w _
    exact ⟨rfl, rfl, rfl, rfl, rfl⟩
  · intro fuel env v w i p hg hf hp hs hr
    obtain ⟨hst, hcase⟩ := NewPicture_spec m v p (env 0) w
    rcases hcase with ⟨_, _, hworld⟩ | ⟨h0, _⟩
    · rw [hworld]
      exact ⟨rfl, rfl, rfl, rfl, rfl⟩
    · exact absurd h0 hr
  · intro fuel env v w i p v2 w2 hg hf hp hs hr ih
    obtain ⟨hst, hcase⟩ := NewPicture_spec m v p (env 0) w
    rcases hcase with ⟨h1, _⟩ | ⟨_, _, _, sys, hsys, c1, c2, c3, c4, c5, _⟩
    · rw [hr] at h1; exact absurd h1 (by decide)
    · obtain ⟨i1, i2, i3, i4, i5⟩ := ih
      simp only [after_success] at i1 i2 i3 i4 i5
      cases hb : v.p_sys.b_shm <;> simp only [hb, Bool.false_eq_true, if_false, if_true] at * <;>
        refine ⟨?_, ?_, ?_, ?_, ?_⟩ <;> omega

theorem vout_Init_spec (m : Module) (env : Nat → Outcome) (v : vout_thread_t) (w : World) :
    (vout_Init m env v w).1 = 0 ∧
    (vout_Init m env v w).2.1.p_sys = v.p_sys ∧
    (vout_Init m env v w).2.1.render = v.render ∧
    (vout_Init m env v w).2.1.output.i_pictures =
      (if loop_entered m v then
        successesBefore (fun k => NewPicture_ok v.p_sys.b_shm (env k))
          (min (MAX_DIRECTBUFFERS m) (freeCount v.p_picture))
       else 0) ∧
    freeCount (vout_Init m env v w).2.1.p_picture + (vout_Init m env v w).2.1.output.i_pictures =
      freeCount v.p_picture ∧
    (vout_Init m env v w).2.1.output.i_pictures ≤ MAX_DIRECTBUFFERS m ∧
    (loop_entered m v → known_chroma m (vout_Init m env v w).2.1.output.i_chroma) ∧
    (∃ L : List (Nat × Int),
      L.length = data_left m v.p_sys.b_shm * (vout_Init m env v w).2.1.output.i_pictures ∧
      vout_End (vout_Init m env v w).2.1 (vout_Init m env v w).2.2 =
        { w with next_id := (vout_Init m env v w).2.2.next_id,
                 data_blocks := L ++ w.data_blocks }) ∧
    (vout_Init m env v w).2.2.sys_blocks.length =
      w.sys_blocks.length + (vout_Init m env v w).2.1.output.i_pictures ∧
    (vout_Init m env v w).2.2.images.length =
      w.images.length + (vout_Init m env v w).2.1.output.i_pictures ∧
    (vout_Init m env v w).2.2.shm_server.length = w.shm_server.length +
      (if v.p_sys.b_shm then (vout_Init m env v w).2.1.output.i_pictures else 0) ∧
    (vout_Init m env v w).2.2.shm_proc.length = w.shm_proc.length +
      (if v.p_sys.b_shm then (vout_Init m env v w).2.1.output.i_pictures else 0) ∧
    (vout_Init m env v w).2.2.shm_segs.length = w.shm_segs.length +
      (if v.p_sys.b_shm then (vout_Init m env v w).2.1.output.i_pictures else 0) ∧
    (vout_Init m env v w).2.2.data_blocks = w.data_blocks := by
  have main : ∀ (v1 : vout_thread_t), v1.output.i_pictures = 0 → v1.p_sys = v.p_sys →
      v1.render = v.render → v1.p_picture = v.p_picture →
      known_chroma m v1.output.i_chroma →
      (vout_Init_loop m (MAX_DIRECTBUFFERS m) env v1 w).1.p_sys = v.p_sys ∧
      (vout_Init_loop m (MAX_DIRECTBUFFERS m) env v1 w).1.render = v.render ∧
      (vout_Init_loop m (MAX_DIRECTBUFFERS m) env v1 w).1.output.i_pictures =
        successesBefore (fun k => NewPicture_ok v.p_sys.b_shm (env k))
          (min (MAX_DIRECTBUFFERS m) (freeCount v.p_picture)) ∧
      freeCount (vout_Init_loop m (MAX_DIRECTBUFFERS m) env v1 w).1.p_picture +
        (vout_Init_loop m (MAX_DIRECTBUFFERS m) env v1 w).1.output.i_pictures =
          freeCount v.p_picture ∧
      (vout_Init_loop m (MAX_DIRECTBUFFERS m) env v1 w).1.output.i_pictures ≤
        MAX_DIRECTBUFFERS m ∧
      known_chroma m (vout_Init_loop m (MAX_DIRECTBUFFERS m) env v1 w).1.output.i_chroma ∧
      (∃ L : List (Nat × Int),
        L.length = data_left m v.p_sys.b_shm *
          (vout_Init_loop m (MAX_DIRECTBUFFERS m) env v1 w).1.output.i_pictures ∧
        vout_End (vout_Init_loop m (MAX_DIRECTBUFFERS m) env v1 w).1
            (vout_Init_loop m (MAX_DIRECTBUFFERS m) env v1 w).2 =
          { w with next_id := (vout_Init_loop m (MAX_DIRECTBUFFERS m) env v1 w).2.next_id,
                   data_blocks := L ++ w.data_blocks }) ∧
      (vout_Init_loop m (MAX_DIRECTBUFFERS m) env v1 w).2.sys_blocks.length =
        w.sys_blocks.length + (vout_Init_loop m (MAX_DIRECTBUFFERS m) env v1 w).1.output.i_pictures ∧
      (vout_Init_loop m (MAX_DIRECTBUFFERS m) env v1 w).2.images.length =
        w.images.length + (vout_Init_loop m (MAX_DIRECTBUFFERS m) env v1 w).1.output.i_pictures ∧
      (vout_Init_loop m (MAX_DIRECTBUFFERS m) env v1 w).2.shm_server.length = w.shm_server.length +
        (if v.p_sys.b_shm then
          (vout_Init_loop m (MAX_DIRECTBUFFERS m) env v1 w).1.output.i_pictures else 0) ∧
      (vout_Init_loop m (MAX_DIRECTBUFFERS m) env v1 w).2.shm_proc.length = w.shm_proc.length +
        (if v.p_sys.b_shm then
          (vout_Init_loop m (MAX_DIRECTBUFFERS m) env v1 w).1.output.i_pictures else 0) ∧
      (vout_Init_loop m (MAX_DIRECTBUFFERS m) env v1 w).2.shm_segs.length = w.shm_segs.length +
        (if v.p_sys.b_shm then
          (vout_Init_loop m (MAX_DIRECTBUFFERS m) env v1 w).1.output.i_pictures else 0) ∧
      (vout_Init_loop m (MAX_DIRECTBUFFERS m) env v1 w).2.data_blocks = w.data_blocks := by
    intro v1 h0 hsys hrender hpic hk
    obtain ⟨f1, f2, f3, _, f5⟩ := vout_Init_loop_frame m (MAX_DIRECTBUFFERS m) env v1 w
    obtain ⟨c1, c2⟩ := vout_Init_loop_count m (MAX_DIRECTBUFFERS m) env v1 w hk (by omega)
      (by omega)
    obtain ⟨_, ed, L, eL, e2⟩ := vout_Init_loop_end m (MAX_DIRECTBUFFERS m) env v1 w
      (by intro j hj; omega)
    obtain ⟨r1, r2, r3, r4, r5⟩ := vout_Init_loop_resources m (MAX_DIRECTBUFFERS m) env v1 w
    rw [h0, hsys, hpic] at c1
    rw [h0, hpic] at c2
    rw [h0] at e2 r1 r2
    rw [h0, hsys] at r3 r4 r5 eL
    simp only [Nat.sub_zero, Nat.zero_add, Nat.add_zero, Nat.mul_zero] at c1 c2 r1 r2 eL
    refine ⟨f1.trans hsys, f2.trans hrender, c1, c2, f5 (by omega), f3 ▸ hk, ⟨L, eL, ?_⟩, r1, r2,
      ?_, ?_, ?_, ed⟩
    · unfold vout_End
      rw [e2]
      rfl
    · cases hb : v.p_sys.b_shm <;> simp only [hb, Bool.false_eq_true, if_false, if_true] at r3 ⊢ <;> omega
    · cases hb : v.p_sys.b_shm <;> simp only [hb, Bool.false_eq_true, if_false, if_true] at r4 ⊢ <;> omega
    · cases hb : v.p_sys.b_shm <;> simp only [hb, Bool.false_eq_true, if_false, if_true] at r5 ⊢ <;> omega
  cases m with
  | x11 =>
    have hent : loop_entered Module.x11 v := Or.inl rfl
    obtain ⟨a1, a2, a3, a4, a5, a6, a7, a8, a9, a10, a11, a12, a13⟩ := main
      { v with output := { v.output with
          i_pictures := 0,
          i_chroma := Chroma.RGB_16BPP_PICTURE, i_width := v.p_sys.i_width,
          i_height := v.p_sys.i_height,
          i_aspect := Int.tdiv (v.p_sys.i_width * VOUT_ASPECT_FACTOR) v.p_sys.i_height } }
      rfl rfl rfl rfl (Or.inl ⟨rfl, rfl⟩)
    simp only [hent, if_true]
    exact ⟨rfl, a1, a2, a3, a4, a5, fun _ => a6, a7, a8, a9, a10, a11, a12, a13⟩
  | xvideo =>
    by_cases hc : v.render.i_chroma = Chroma.YUV_420_PICTURE
    · have hent : loop_entered Module.xvideo v := Or.inr hc
      obtain ⟨a1, a2, a3, a4, a5, a6, a7, a8, a9, a10, a11, a12, a13⟩ := main
        { v with output := { v.output with
            i_pictures := 0,
            i_chroma := v.render.i_chroma, i_width := v.render.i_width,
            i_height := v.render.i_height, i_aspect := v.render.i_aspect } }
        rfl rfl rfl rfl (Or.inr ⟨rfl, hc⟩)
      simp only [hent, if_true]
      have hv : vout_Init Module.xvideo env v w =
          (0, (vout_Init_loop Module.xvideo (MAX_DIRECTBUFFERS Module.xvideo) env
            { v with output := { v.output with
              i_pictures := 0,
              i_chroma := v.render.i_chroma, i_width := v.render.i_width,
              i_height := v.render.i_height, i_aspect := v.render.i_aspect } } w).1,
            (vout_Init_loop Module.xvideo (MAX_DIRECTBUFFERS Module.xvideo) env
            { v with output := { v.output with
              i_pictures := 0,
              i_chroma := v.render.i_chroma, i_width := v.render.i_width,
              i_height := v.render.i_height, i_aspect := v.render.i_aspect } } w).2) := by
        simp only [vout_Init, hc]
      rw [hv]
      exact ⟨rfl, a1, a2, a3, a4, a5, fun _ => a6, a7, a8, a9, a10, a11, a12, a13⟩
    · have hent : ¬ loop_entered Module.xvideo v := by
        intro h
        rcases h with h | h
        · cases h
        · exact hc h
      have hv : vout_Init Module.xvideo env v w =
          (0, { v with output := { v.output with i_pictures := 0 } }, w) := by
        unfold vout_Init
        cases hcc : v.render.i_chroma <;> simp_all
      rw [hv, if_neg hent]
      refine ⟨rfl, rfl, rfl, rfl, rfl, Nat.zero_le _, fun h => absurd h hent, ⟨[], by simp, rfl⟩,
        rfl, rfl, ?_, ?_, ?_, rfl⟩ <;> simp

theorem digit_char_cases (c : Char) :
    (∃ d, d < 10 ∧ c = digit_char d) ∨ (∀ d, d < 10 → c ≠ digit_char d) := by
  by_cases h : ∃ d, d < 10 ∧ c = digit_char d
  · exact Or.inl h
  · right
    intro d hd hc
    exact h ⟨d, hd, hc⟩

theorem vout_Manage_char_digit (s : ManageState) (d : Nat) (hd : d < 10) :
    vout_Manage_char s (digit_char d) = network_ChannelJoin s (d : Int) := by
  interval_cases d <;> rfl

theorem vout_Manage_char_other (s : ManageState) (c : Char)
    (h : ∀ d, d < 10 → c ≠ digit_char d) :
    (vout_Manage_char s c).intf.calls = s.intf.calls := by
  have h0 := h 0 (by decide)
  have h1 := h 1 (by decide)
  have h2 := h 2 (by decide)
  have h3 := h 3 (by decide)
  have h4 := h 4 (by decide)
  have h5 := h 5 (by decide)
  have h6 := h 6 (by decide)
  have h7 := h 7 (by decide)
  have h8 := h 8 (by decide)
  have h9 := h 9 (by decide)
  have e0 : c ≠ '0' := h0
  have e1 : c ≠ '1' := h1
  have e2 : c ≠ '2' := h2
  have e3 : c ≠ '3' := h3
  have e4 : c ≠ '4' := h4
  have e5 : c ≠ '5' := h5
  have e6 : c ≠ '6' := h6
  have e7 : c ≠ '7' := h7
  have e8 : c ≠ '8' := h8
  have e9 : c ≠ '9' := h9
  unfold vout_Manage_char
  rw [if_neg e0, if_neg e1, if_neg e2, if_neg e3, if_neg e4, if_neg e5, if_neg e6, if_neg e7,
    if_neg e8, if_neg e9]
  by_cases hq : c = 'q' ∨ c = 'Q'
  · rw [if_pos hq]
  · rw [if_neg hq]
    by_cases hf : c = 'f' ∨ c = 'F'
    · rw [if_pos hf]
    · rw [if_neg hf]

theorem vout_Manage_key_named (s : ManageState) (e : XEvent) :
    (e.keysym = XK_Escape →
      vout_Manage_key s e = { s with intf := { s.intf with b_die := true } }) ∧
    (e.keysym = XK_Menu →
      vout_Manage_key s e = { s with intf := { s.intf with b_menu_change := true } }) ∧
    (e.keysym = XK_Left → vout_Manage_key s e = vout_Seek s (-5)) ∧
    (e.keysym = XK_Right → vout_Manage_key s e = vout_Seek s 5) ∧
    (e.keysym = XK_Up → vout_Manage_key s e = vout_Seek s 60) ∧
    (e.keysym = XK_Down → vout_Manage_key s e = vout_Seek s (-60)) ∧
    (e.keysym = XK_Home → vout_Manage_key s e = input_Seek s s.intf.area.i_start) ∧
    (e.keysym = XK_End → vout_Manage_key s e = input_Seek s s.intf.area.i_size) ∧
    (e.keysym = XK_Page_Up → vout_Manage_key s e = vout_Seek s 900) ∧
    (e.keysym = XK_Page_Down → vout_Manage_key s e = vout_Seek s (-900)) ∧
    (e.keysym = XK_space →
      vout_Manage_key s e = input_SetStatus s InputStatus.INPUT_STATUS_PAUSE) := by
  refine ⟨?_, ?_, ?_, ?_, ?_, ?_, ?_, ?_, ?_, ?_, ?_⟩ <;> intro h <;>
    simp [vout_Manage_key, h, XK_Escape, XK_Menu, XK_Left, XK_Right, XK_Up, XK_Down, XK_Home,
      XK_End, XK_Page_Up, XK_Page_Down, XK_space]

theorem vout_Manage_key_unnamed (s : ManageState) (e : XEvent) (h : e.keysym ∉ named_keysyms) :
    vout_Manage_key s e =
      match e.lookup with
      | none => s
      | some i_key => vout_Manage_char s i_key := by
  simp only [named_keysyms, List.mem_cons, List.mem_singleton, not_or, List.mem_nil_iff,
    or_false] at h
  obtain ⟨h1, h2, h3, h4, h5, h6, h7, h8, h9, h10, h11⟩ := h
  unfold vout_Manage_key
  simp only
  rw [if_neg h1, if_neg h2, if_neg h3, if_neg h4, if_neg h5, if_neg h6, if_neg h7, if_neg h8,
    if_neg h9, if_neg h10, if_neg h11]

theorem vout_Manage_event_KeyPress (m : Module) (s : ManageState) (b : Bool) (e : XEvent)
    (h : e.type = KeyPress) : vout_Manage_event m s b e = (vout_Manage_key s e, b) := by
  simp [vout_Manage_event, h, KeyPress, ConfigureNotify, MapNotify, UnmapNotify]

theorem vout_Manage_event_ButtonPress (m : Module) (s : ManageState) (b : Bool) (e : XEvent)
    (h : e.type = ButtonPress) :
    vout_Manage_event m s b e =
      if e.button = Button1 then (input_SetStatus s InputStatus.INPUT_STATUS_PAUSE, b)
      else if e.button = Button4 then (vout_Seek s 15, b)
      else if e.button = Button5 then (vout_Seek s (-15), b)
      else (s, b) := by
  simp [vout_Manage_event, h, KeyPress, ButtonPress, ConfigureNotify, MapNotify, UnmapNotify]

theorem vout_Manage_event_calls_other (m : Module) (s : ManageState) (b : Bool) (e : XEvent)
    (h1 : e.type ≠ KeyPress) (h2 : e.type ≠ ButtonPress) :
    (vout_Manage_event m s b e).1.intf.calls = s.intf.calls := by
  unfold vout_Manage_event
  rw [if_neg h1, if_neg h2]
  by_cases c1 : e.type = ConfigureNotify ∧
      (e.width ≠ s.vout.p_sys.i_width ∨ e.height ≠ s.vout.p_sys.i_height)
  · rw [if_pos c1]
  · rw [if_neg c1]
    by_cases c2 : e.type = MapNotify
    · rw [if_pos c2]
      cases hb : s.vout.b_active <;> simp [DisableXScreenSaver]
    · rw [if_neg c2]
      by_cases c3 : e.type = UnmapNotify
      · rw [if_pos c3]
        cases hb : s.vout.b_active <;> simp [EnableXScreenSaver]
      · rw [if_neg c3]
        by_cases c4 : e.type = ButtonRelease
        · rw [if_pos c4]
          by_cases c5 : e.button = Button3
          · rw [if_pos c5]
          · rw [if_neg c5]
        · rw [if_neg c4]
          by_cases c6 : e.type = MotionNotify
          · rw [if_pos c6]
            cases hv : s.vout.p_sys.b_mouse_pointer_visible <;> simp [ToggleCursor, hv]
          · rw [if_neg c6]

theorem vout_Seek_calls (s : ManageState) (k : Int) :
    (vout_Seek s k).intf.calls = s.intf.calls ++
      [Call.vout_Seek k, Call.input_Seek (vout_Seek_position s.intf.area s.intf.i_mux_rate k)] := by
  simp [vout_Seek, input_Seek]

theorem vout_Manage_key_calls (s : ManageState) (e : XEvent) :
    ∃ cs, (vout_Manage_key s e).intf.calls = s.intf.calls ++ cs ∧
      relative_seeks cs =
        (if e.keysym = XK_Left then some (-5)
          else if e.keysym = XK_Right then some 5
          else if e.keysym = XK_Up then some 60
          else if e.keysym = XK_Down then some (-60)
          else if e.keysym = XK_Page_Up then some 900
          else if e.keysym = XK_Page_Down then some (-900)
          else (none : Option Int)).toList := by
  obtain ⟨k1, k2, k3, k4, k5, k6, k7, k8, k9, k10, k11⟩ := vout_Manage_key_named s e
  by_cases hn : e.keysym ∈ named_keysyms
  · simp only [named_keysyms, List.mem_cons, List.mem_singleton, List.mem_nil_iff,
      or_false] at hn
    rcases hn with h | h | h | h | h | h | h | h | h | h | h
    · rw [k1 h]; exact ⟨[], by simp, by rw [h]; rfl⟩
    · rw [k2 h]; exact ⟨[], by simp, by rw [h]; rfl⟩
    · rw [k3 h, vout_Seek_calls]; exact ⟨_, rfl, by rw [h]; rfl⟩
    · rw [k4 h, vout_Seek_calls]; exact ⟨_, rfl, by rw [h]; rfl⟩
    · rw [k5 h, vout_Seek_calls]; exact ⟨_, rfl, by rw [h]; rfl⟩
    · rw [k6 h, vout_Seek_calls]; exact ⟨_, rfl, by rw [h]; rfl⟩
    · rw [k7 h]; exact ⟨[_], rfl, by rw [h]; rfl⟩
    · rw [k8 h]; exact ⟨[_], rfl, by rw [h]; rfl⟩
    · rw [k9 h, vout_Seek_calls]; exact ⟨_, rfl, by rw [h]; rfl⟩
    · rw [k10 h, vout_Seek_calls]; exact ⟨_, rfl, by rw [h]; rfl⟩
    · rw [k11 h]; exact ⟨[_], rfl, by rw [h]; rfl⟩
  · rw [vout_Manage_key_unnamed s e hn]
    simp only [named_keysyms, List.mem_cons, List.mem_singleton, not_or, List.mem_nil_iff,
      or_false] at hn
    obtain ⟨h1, h2, h3, h4, h5, h6, h7, h8, h9, h10, h11⟩ := hn
    rw [if_neg h3, if_neg h4, if_neg h5, if_neg h6, if_neg h9, if_neg h10]
    cases hl : e.lookup with
    | none => exact ⟨[], by simp, rfl⟩
    | some c =>
      simp only
      rcases digit_char_cases c with ⟨d, hd, hc⟩ | hno
      · rw [hc, vout_Manage_char_digit s d hd]
        exact ⟨[_], rfl, rfl⟩
      · exact ⟨[], by simp [vout_Manage_char_other s c hno], rfl⟩

theorem vout_Manage_event_seeks (m : Module) (s : ManageState) (b : Bool) (e : XEvent) :
    ∃ cs, (vout_Manage_event m s b e).1.intf.calls = s.intf.calls ++ cs ∧
      relative_seeks cs = (spec_relative_seek e).toList := by
  by_cases hk : e.type = KeyPress
  · rw [vout_Manage_event_KeyPress m s b e hk]
    obtain ⟨cs, h1, h2⟩ := vout_Manage_key_calls s e
    refine ⟨cs, h1, ?_⟩
    rw [h2]
    simp only [spec_relative_seek, hk, if_true]
  · by_cases hb : e.type = ButtonPress
    · rw [vout_Manage_event_ButtonPress m s b e hb]
      have hbk : ButtonPress ≠ KeyPress := by decide
      simp only [spec_relative_seek, hb, hbk, if_true, if_false]
      by_cases b1 : e.button = Button1
      · have e4 : e.button ≠ Button4 := by rw [b1]; decide
        have e5 : e.button ≠ Button5 := by rw [b1]; decide
        rw [if_pos b1, if_neg e4, if_neg e5]
        exact ⟨[_], rfl, rfl⟩
      · rw [if_neg b1]
        by_cases b4 : e.button = Button4
        · rw [if_pos b4, if_pos b4, vout_Seek_calls]
          exact ⟨_, rfl, rfl⟩
        · rw [if_neg b4, if_neg b4]
          by_cases b5 : e.button = Button5
          · rw [if_pos b5, if_pos b5, vout_Seek_calls]
            exact ⟨_, rfl, rfl⟩
          · rw [if_neg b5, if_neg b5]
            exact ⟨[], by simp, rfl⟩
    · refine ⟨[], by simp [vout_Manage_event_calls_other m s b e hk hb], ?_⟩
      simp only [spec_relative_seek, hk, hb, if_false]
      rfl

theorem vout_Manage_drain_seeks (m : Module) (events : List XEvent) (s : ManageState) (b : Bool) :
    ∃ cs, (events.foldl (fun acc e => vout_Manage_event m acc.1 acc.2 e) (s, b)).1.intf.calls =
        s.intf.calls ++ cs ∧
      relative_seeks cs = events.filterMap spec_relative_seek := by
  induction events generalizing s b with
  | nil => exact ⟨[], by simp, rfl⟩
  | cons e es ih =>
    obtain ⟨c1, h1, h2⟩ := vout_Manage_event_seeks m s b e
    obtain ⟨c2, h3, h4⟩ := ih (vout_Manage_event m s b e).1 (vout_Manage_event m s b e).2
    refine ⟨c1 ++ c2, ?_, ?_⟩
    · simp only [List.foldl_cons]
      rw [h3, h1, List.append_assoc]
    · simp only [relative_seeks, List.filterMap_append] at h2 h4 ⊢
      rw [h2, h4]
      cases hsp : spec_relative_seek e <;> simp [List.filterMap_cons, hsp]

theorem vout_Init_loop_fuel_eq (m : Module) (f1 f2 : Nat) (env : Nat → Outcome)
    (v : vout_thread_t) (w : World)
    (h1 : MAX_DIRECTBUFFERS m - v.output.i_pictures ≤ f1)
    (h2 : MAX_DIRECTBUFFERS m - v.output.i_pictures ≤ f2) :
    vout_Init_loop m f1 env v w = vout_Init_loop m f2 env v w := by
  induction f1 generalizing f2 env v w with
  | zero =>
    have hg : ¬ v.output.i_pictures < MAX_DIRECTBUFFERS m := by omega
    cases f2 with
    | zero => rfl
    | succ f2 => simp [vout_Init_loop, hg]
  | succ f1 ih =>
    cases f2 with
    | zero =>
      have hg : ¬ v.output.i_pictures < MAX_DIRECTBUFFERS m := by omega
      simp [vout_Init_loop, hg]
    | succ f2 =>
      unfold vout_Init_loop
      by_cases hg : v.output.i_pictures < MAX_DIRECTBUFFERS m
      · simp only [hg, if_true]
        cases find_free_slot v.p_picture with
        | none => rfl
        | some i =>
          simp only
          cases v.p_picture[i]? with
          | none => rfl
          | some p =>
            simp only
            by_cases hr : (NewPicture m v p (env 0) w).ret = 0
            · simp only [hr, ne_eq, not_true_eq_false, if_false]
              exact ih f2 _ _ _ (by simp only [after_success]; omega)
                (by simp only [after_success]; omega)
            · simp only [ne_eq, hr, not_false_eq_true, if_true]
      · simp only [hg, if_false]

/-- More fuel than `MAX_DIRECTBUFFERS - I_OUTPUTPICTURES` never changes what
the loop of `vout_Init` computes: the loop always ends by its own tests. -/
theorem vout_Init_loop_fuel (m : Module) (fuel : Nat) (env : Nat → Outcome)
    (v : vout_thread_t) (w : World)
    (h : MAX_DIRECTBUFFERS m - v.output.i_pictures ≤ fuel) :
    vout_Init_loop m fuel env v w =
      vout_Init_loop m (MAX_DIRECTBUFFERS m - v.output.i_pictures) env v w :=
  vout_Init_loop_fuel_eq m fuel _ env v w h (le_refl _)

theorem NewPicture_xvideo_ok (v : vout_thread_t) (p : picture_t) (o : Outcome) (w : World)
    (h : (NewPicture Module.xvideo v p o w).ret = 0) :
    v.output.i_chroma = Chroma.YUV_420_PICTURE ∧
    ∃ sys w1, NewPicture_alloc Module.xvideo v p o w = .ok (sys, w1) := by
  obtain ⟨_, hcase⟩ := NewPicture_spec Module.xvideo v p o w
  rcases hcase with ⟨hm, _, _⟩ | ⟨_, hk, hok, _⟩
  · rw [h] at hm; exact absurd hm (by decide)
  · rcases hk with ⟨hm, _⟩ | ⟨_, hc⟩
    · cases hm
    · obtain ⟨sys, w1, ha, _⟩ := NewPicture_alloc_ok Module.xvideo v p o w hok
      exact ⟨hc, sys, w1, ha⟩

theorem vout_Manage_event_seek_state (m : Module) (s : ManageState) (b : Bool) (e : XEvent)
    (k : Int) (h : spec_relative_seek e = some k) :
    (vout_Manage_event m s b e).1 = vout_Seek s k := by
  obtain ⟨_, _, k3, k4, k5, k6, _, _, k9, k10, _⟩ := vout_Manage_key_named s e
  unfold spec_relative_seek at h
  by_cases hk : e.type = KeyPress
  · rw [if_pos hk] at h
    rw [vout_Manage_event_KeyPress m s b e hk]
    split_ifs at h with h1 h2 h3 h4 h5 h6 <;> cases h
    · exact k3 h1
    · exact k4 h2
    · exact k5 h3
    · exact k6 h4
    · exact k9 h5
    · exact k10 h6
  · rw [if_neg hk] at h
    by_cases hb : e.type = ButtonPress
    · rw [if_pos hb] at h
      rw [vout_Manage_event_ButtonPress m s b e hb]
      split_ifs at h with h4 h5 <;> cases h
      · have e1 : e.button ≠ Button1 := by rw [h4]; decide
        rw [if_neg e1, if_pos h4]
      · have e1 : e.button ≠ Button1 := by rw [h5]; decide
        rw [if_neg e1, if_neg h4, if_pos h5]
    · rw [if_neg hb] at h
      cases h

theorem vout_Manage_key_joins (s : ManageState) (e : XEvent)
    (h : ∀ d, d < 10 → e.lookup ≠ some (digit_char d)) :
    ∃ cs, (vout_Manage_key s e).intf.calls = s.intf.calls ++ cs ∧ channel_joins cs = [] := by
  obtain ⟨k1, k2, k3, k4, k5, k6, k7, k8, k9, k10, k11⟩ := vout_Manage_key_named s e
  by_cases hn : e.keysym ∈ named_keysyms
  · simp only [named_keysyms, List.mem_cons, List.mem_singleton, List.mem_nil_iff,
      or_false] at hn
    rcases hn with h | h | h | h | h | h | h | h | h | h | h
    · rw [k1 h]; exact ⟨[], by simp, rfl⟩
    · rw [k2 h]; exact ⟨[], by simp, rfl⟩
    · rw [k3 h, vout_Seek_calls]; exact ⟨_, rfl, rfl⟩
    · rw [k4 h, vout_Seek_calls]; exact ⟨_, rfl, rfl⟩
    · rw [k5 h, vout_Seek_calls]; exact ⟨_, rfl, rfl⟩
    · rw [k6 h, vout_Seek_calls]; exact ⟨_, rfl, rfl⟩
    · rw [k7 h]; exact ⟨[_], rfl, rfl⟩
    · rw [k8 h]; exact ⟨[_], rfl, rfl⟩
    · rw [k9 h, vout_Seek_calls]; exact ⟨_, rfl, rfl⟩
    · rw [k10 h, vout_Seek_calls]; exact ⟨_, rfl, rfl⟩
    · rw [k11 h]; exact ⟨[_], rfl, rfl⟩
  · rw [vout_Manage_key_unnamed s e hn]
    cases hl : e.lookup with
    | none => exact ⟨[], by simp, rfl⟩
    | some c =>
      simp only
      have hno : ∀ d, d < 10 → c ≠ digit_char d := by
        intro d hd hc
        exact h d hd (by rw [hl, hc])
      exact ⟨[], by simp [vout_Manage_char_other s c hno], rfl⟩

/-! ## The picture pool: properties -/

/-- C1: whatever the picture table holds and whatever the library answers in
each `NewPicture` call, the number of output buffers after `vout_Init` is at
most `MAX_DIRECTBUFFERS`: at most 2 in the x11 build and at most 5 in the
xvideo build. -/
theorem vout_Init_pictures_le_max (m : Module) (env : Nat → Outcome) (v : vout_thread_t)
    (w : World) :
    (vout_Init m env v w).2.1.output.i_pictures ≤ MAX_DIRECTBUFFERS m ∧
    (vout_Init Module.x11 env v w).2.1.output.i_pictures ≤ 2 ∧
    (vout_Init Module.xvideo env v w).2.1.output.i_pictures ≤ 5 :=
  ⟨(vout_Init_spec m env v w).2.2.2.2.2.1,
    (vout_Init_spec Module.x11 env v w).2.2.2.2.2.1,
    (vout_Init_spec Module.xvideo env v w).2.2.2.2.2.1⟩

/-- C2: `vout_Init` returns 0, and the number of output buffers it leaves is
the number of `NewPicture` calls that succeed before the first of: a failing
call, the free slots of the table running out, `MAX_DIRECTBUFFERS` being
reached. In the xvideo build with a chroma other than `YUV_420_PICTURE` no
call is made and the number is 0. The last part states that `NewPicture_ok`
is the success of `NewPicture` in the state `vout_Init` calls it in. -/
theorem vout_Init_stops_at_first (m : Module) (env : Nat → Outcome) (v : vout_thread_t)
    (w : World) :
    (vout_Init m env v w).1 = 0 ∧
    (vout_Init m env v w).2.1.output.i_pictures =
      (if loop_entered m v then
        successesBefore (fun k => NewPicture_ok v.p_sys.b_shm (env k))
          (min (MAX_DIRECTBUFFERS m) (freeCount v.p_picture))
       else 0) ∧
    (loop_entered m v → ∀ (p : picture_t) (o : Outcome) (w1 : World),
      ((NewPicture m (vout_Init m env v w).2.1 p o w1).ret = 0 ↔
        NewPicture_ok v.p_sys.b_shm o = true)) := by
  obtain ⟨h1, h2, _, h4, _, _, h7, _⟩ := vout_Init_spec m env v w
  refine ⟨h1, h4, ?_⟩
  intro hent p o w1
  have hk := h7 hent
  obtain ⟨_, hcase⟩ := NewPicture_spec m (vout_Init m env v w).2.1 p o w1
  rw [h2] at hcase
  constructor
  · intro hr
    rcases hcase with ⟨hm, _, _⟩ | ⟨_, _, hok, _⟩
    · rw [hr] at hm; exact absurd hm (by decide)
    · exact hok
  · intro hok
    rcases hcase with ⟨_, hno, _⟩ | ⟨hr, _⟩
    · exact absurd ⟨hk, hok⟩ hno
    · exact hr

/-- C2, at a concrete input: xvideo build, eight free slots, the third
`NewPicture` call failing. Two buffers are allocated and 0 is returned. -/
theorem vout_Init_stops_at_first_witness :
    loop_entered Module.xvideo (sample_vout true 64 64 8) ∧
    (vout_Init Module.xvideo third_fails (sample_vout true 64 64 8) idle_world).1 = 0 ∧
    (vout_Init Module.xvideo third_fails (sample_vout true 64 64 8)
      idle_world).2.1.output.i_pictures = 2 ∧
    ((NewPicture Module.xvideo
        (vout_Init Module.xvideo third_fails (sample_vout true 64 64 8) idle_world).2.1
        blank_picture always_ok idle_world).ret = 0 ↔
      NewPicture_ok (sample_vout true 64 64 8).p_sys.b_shm always_ok = true) :=
  ⟨Or.inr rfl,
    (vout_Init_stops_at_first Module.xvideo third_fails (sample_vout true 64 64 8)
      idle_world).1,
    by decide,
    (vout_Init_stops_at_first Module.xvideo third_fails (sample_vout true 64 64 8)
      idle_world).2.2 (Or.inr rfl) blank_picture always_ok idle_world⟩

/-- C3 fails as stated: in the x11 build with an empty picture table
`vout_Init` ends with zero buffers and returns 0, not a failure. -/
theorem vout_Init_zero_buffers_returns_zero :
    ¬ ((vout_Init Module.x11 (fun _ => always_ok) (sample_vout true 64 64 0)
          idle_world).2.1.output.i_pictures = 0 →
        (vout_Init Module.x11 (fun _ => always_ok) (sample_vout true 64 64 0)
          idle_world).1 ≠ 0) :=
  fun h => h (by decide) (by decide)

/-- C3, amended: when `vout_Init` ends with zero buffers it still returns 0,
and it ends with zero buffers only for one of the three reasons: the chroma
is not the one the xvideo build knows, the table has no free slot, or the
first `NewPicture` call fails. -/
theorem vout_Init_zero_buffers (m : Module) (env : Nat → Outcome) (v : vout_thread_t)
    (w : World) (h : (vout_Init m env v w).2.1.output.i_pictures = 0) :
    (vout_Init m env v w).1 = 0 ∧
    ((m = Module.xvideo ∧ v.render.i_chroma ≠ Chroma.YUV_420_PICTURE) ∨
      freeCount v.p_picture = 0 ∨
      NewPicture_ok v.p_sys.b_shm (env 0) = false) := by
  obtain ⟨h1, _, _, h4, _⟩ := vout_Init_spec m env v w
  refine ⟨h1, ?_⟩
  rw [h] at h4
  by_cases hent : loop_entered m v
  · rw [if_pos hent] at h4
    right
    by_cases hfc : freeCount v.p_picture = 0
    · exact Or.inl hfc
    · right
      have hmax : 0 < MAX_DIRECTBUFFERS m := by cases m <;> decide
      obtain ⟨a, ha⟩ : ∃ a, min (MAX_DIRECTBUFFERS m) (freeCount v.p_picture) = a + 1 :=
        ⟨_, (Nat.succ_pred_eq_of_pos (by omega)).symm⟩
      rw [ha] at h4
      unfold successesBefore at h4
      cases hok : NewPicture_ok v.p_sys.b_shm (env 0)
      · rfl
      · simp only [hok, if_true] at h4
        omega
  · left
    unfold loop_entered at hent
    cases m
    · exact absurd (Or.inl rfl) hent
    · exact ⟨rfl, fun hc => hent (Or.inr hc)⟩

/-- C3 amended, at a concrete input: x11 build, empty picture table. -/
theorem vout_Init_zero_buffers_witness :
    (vout_Init Module.x11 (fun _ => always_ok) (sample_vout true 64 64 0)
      idle_world).2.1.output.i_pictures = 0 ∧
    (vout_Init Module.x11 (fun _ => always_ok) (sample_vout true 64 64 0) idle_world).1 = 0 ∧
    ((Module.x11 = Module.xvideo ∧
        (sample_vout true 64 64 0).render.i_chroma ≠ Chroma.YUV_420_PICTURE) ∨
      freeCount (sample_vout true 64 64 0).p_picture = 0 ∨
      NewPicture_ok (sample_vout true 64 64 0).p_sys.b_shm always_ok = false) :=
  ⟨by decide,
    vout_Init_zero_buffers Module.x11 (fun _ => always_ok) (sample_vout true 64 64 0)
      idle_world (by decide)⟩

theorem wrap_int_eq (x : Int) (hlo : -INT_MAX - 1 ≤ x) (hhi : x ≤ INT_MAX) : wrap_int x = x := by
  unfold INT_MAX at hlo hhi
  unfold wrap_int
  omega

theorem int_mul_eq (a b : Int) (hlo : -INT_MAX - 1 ≤ a * b) (hhi : a * b ≤ INT_MAX) :
    int_mul a b = a * b :=
  wrap_int_eq (a * b) hlo hhi

/-- C4 fails as stated: for an output of 65536 x 32768 `NewPicture` succeeds
and the `int` product `i_width * i_height` of line 1194 is 2^31, which an
`int` does not hold; the Y plane gets `i_bytes = -2147483648` and each chroma
plane `-536870912`, not `W * H` and `W * H / 4`. -/
theorem NewPicture_planar_bytes_wraps :
    (NewPicture Module.xvideo (sample_vout true 65536 32768 1) blank_picture always_ok
      idle_world).ret = 0 ∧
    ((NewPicture Module.xvideo (sample_vout true 65536 32768 1) blank_picture always_ok
      idle_world).pic.planes Y_PLANE).i_bytes = -2147483648 ∧
    ((NewPicture Module.xvideo (sample_vout true 65536 32768 1) blank_picture always_ok
      idle_world).pic.planes U_PLANE).i_bytes = -536870912 ∧
    ((NewPicture Module.xvideo (sample_vout true 65536 32768 1) blank_picture always_ok
      idle_world).pic.planes V_PLANE).i_bytes = -536870912 ∧
    ¬ (((NewPicture Module.xvideo (sample_vout true 65536 32768 1) blank_picture always_ok
        idle_world).pic.planes Y_PLANE).i_bytes =
          (sample_vout true 65536 32768 1).output.i_width *
            (sample_vout true 65536 32768 1).output.i_height ∧
      ((NewPicture Module.xvideo (sample_vout true 65536 32768 1) blank_picture always_ok
        idle_world).pic.planes U_PLANE).i_bytes =
          Int.tdiv ((sample_vout true 65536 32768 1).output.i_width *
            (sample_vout true 65536 32768 1).output.i_height) 4) := by
  decide

/-- C4 (amended): when the product `W * H` of the output width and height is
in the range of an `int`, a planar picture that `NewPicture` creates in the
xvideo build has a Y plane of `W * H` bytes, a U and a V plane of `W * H / 4`
bytes each (the division of C), and 3 planes. -/
theorem NewPicture_planar_bytes (v : vout_thread_t) (p : picture_t) (o : Outcome) (w : World)
    (hlo : -INT_MAX - 1 ≤ v.output.i_width * v.output.i_height)
    (hhi : v.output.i_width * v.output.i_height ≤ INT_MAX)
    (h : (NewPicture Module.xvideo v p o w).ret = 0) :
    ((NewPicture Module.xvideo v p o w).pic.planes Y_PLANE).i_bytes =
      v.output.i_width * v.output.i_height ∧
    ((NewPicture Module.xvideo v p o w).pic.planes U_PLANE).i_bytes =
      Int.tdiv (v.output.i_width * v.output.i_height) 4 ∧
    ((NewPicture Module.xvideo v p o w).pic.planes V_PLANE).i_bytes =
      Int.tdiv (v.output.i_width * v.output.i_height) 4 ∧
    (NewPicture Module.xvideo v p o w).pic.i_planes = 3 := by
  obtain ⟨hc, sys, w1, ha⟩ := NewPicture_xvideo_ok v p o w h
  have hm : int_mul v.output.i_width v.output.i_height =
      v.output.i_width * v.output.i_height := int_mul_eq _ _ hlo hhi
  simp only [NewPicture, hc, ha, hm]
  simp [Function.update, Y_PLANE, U_PLANE, V_PLANE]

/-- C4, at 64 x 64: the Y plane has 4096 bytes and each chroma plane 1024. -/
theorem NewPicture_planar_bytes_witness :
    -INT_MAX - 1 ≤ (sample_vout true 64 64 1).output.i_width *
      (sample_vout true 64 64 1).output.i_height ∧
    (sample_vout true 64 64 1).output.i_width * (sample_vout true 64 64 1).output.i_height ≤
      INT_MAX ∧
    (NewPicture Module.xvideo (sample_vout true 64 64 1) blank_picture always_ok
      idle_world).ret = 0 ∧
    ((NewPicture Module.xvideo (sample_vout true 64 64 1) blank_picture always_ok
      idle_world).pic.planes Y_PLANE).i_bytes = 4096 ∧
    ((NewPicture Module.xvideo (sample_vout true 64 64 1) blank_picture always_ok
      idle_world).pic.planes U_PLANE).i_bytes = 1024 ∧
    ((NewPicture Module.xvideo (sample_vout true 64 64 1) blank_picture always_ok
      idle_world).pic.planes V_PLANE).i_bytes = 1024 ∧
    (NewPicture Module.xvideo (sample_vout true 64 64 1) blank_picture always_ok
      idle_world).pic.i_planes = 3 := by
  have h := NewPicture_planar_bytes (sample_vout true 64 64 1) blank_picture always_ok
    idle_world (by decide) (by decide) (by decide)
  refine ⟨by decide, by decide, by decide, ?_, ?_, ?_, h.2.2.2⟩
  · rw [h.1]; decide
  · rw [h.2.1]; decide
  · rw [h.2.2.1]; decide

/-- C5 fails as stated: for an output of 30000 x 20000 `NewPicture` succeeds,
`W * H` is 600000000, and the `int` product `i_width * i_height * 5` of line
1198 exceeds 2^31 - 1. The V plane starts at 600000000 and has 150000000
bytes, but the U plane starts at -323741824, not where the V plane ends
(750000000, which is `W * H * 5 / 4`). -/
theorem NewPicture_planar_layout_wraps :
    0 ≤ (sample_vout true 30000 20000 1).output.i_width ∧
    0 ≤ (sample_vout true 30000 20000 1).output.i_height ∧
    (NewPicture Module.xvideo (sample_vout true 30000 20000 1) blank_picture always_ok
      idle_world).ret = 0 ∧
    ((NewPicture Module.xvideo (sample_vout true 30000 20000 1) blank_picture always_ok
      idle_world).pic.planes V_PLANE).p_data = 600000000 ∧
    ((NewPicture Module.xvideo (sample_vout true 30000 20000 1) blank_picture always_ok
      idle_world).pic.planes V_PLANE).i_bytes = 150000000 ∧
    ((NewPicture Module.xvideo (sample_vout true 30000 20000 1) blank_picture always_ok
      idle_world).pic.planes U_PLANE).p_data = -323741824 ∧
    ¬ (((NewPicture Module.xvideo (sample_vout true 30000 20000 1) blank_picture always_ok
        idle_world).pic.planes U_PLANE).p_data =
      ((NewPicture Module.xvideo (sample_vout true 30000 20000 1) blank_picture always_ok
        idle_world).pic.planes V_PLANE).p_data +
      ((NewPicture Module.xvideo (sample_vout true 30000 20000 1) blank_picture always_ok
        idle_world).pic.planes V_PLANE).i_bytes) ∧
    ¬ (((NewPicture Module.xvideo (sample_vout true 30000 20000 1) blank_picture always_ok
        idle_world).pic.planes U_PLANE).p_data =
      Int.tdiv ((sample_vout true 30000 20000 1).output.i_width *
        (sample_vout true 30000 20000 1).output.i_height * 5) 4) := by
  decide

/-- C5 (amended): for a width `W` and a height `H` that are not negative and
such that `W * H * 5` is at most `INT_MAX`, the planes of a planar picture
created by `NewPicture` lie in one image buffer as follows. The Y plane starts
at offset 0 with stride `W`; both chroma planes have stride `W / 2`; the V
plane starts where the Y plane ends, at `W * H`; the U plane starts where the
V plane ends, at `W * H * 5 / 4 = W * H + W * H / 4`; and no byte belongs to
two planes. -/
theorem NewPicture_planar_layout (v : vout_thread_t) (p : picture_t) (o : Outcome) (w : World)
    (hW : 0 ≤ v.output.i_width) (hH : 0 ≤ v.output.i_height)
    (hmax : v.output.i_width * v.output.i_height * 5 ≤ INT_MAX)
    (h : (NewPicture Module.xvideo v p o w).ret = 0) :
    ((NewPicture Module.xvideo v p o w).pic.planes Y_PLANE).p_data = 0 ∧
    ((NewPicture Module.xvideo v p o w).pic.planes Y_PLANE).i_line_bytes = v.output.i_width ∧
    ((NewPicture Module.xvideo v p o w).pic.planes U_PLANE).i_line_bytes =
      Int.tdiv v.output.i_width 2 ∧
    ((NewPicture Module.xvideo v p o w).pic.planes V_PLANE).i_line_bytes =
      Int.tdiv v.output.i_width 2 ∧
    ((NewPicture Module.xvideo v p o w).pic.planes V_PLANE).p_data =
      ((NewPicture Module.xvideo v p o w).pic.planes Y_PLANE).p_data +
        ((NewPicture Module.xvideo v p o w).pic.planes Y_PLANE).i_bytes ∧
    ((NewPicture Module.xvideo v p o w).pic.planes V_PLANE).p_data =
      v.output.i_width * v.output.i_height ∧
    ((NewPicture Module.xvideo v p o w).pic.planes U_PLANE).p_data =
      ((NewPicture Module.xvideo v p o w).pic.planes V_PLANE).p_data +
        ((NewPicture Module.xvideo v p o w).pic.planes V_PLANE).i_bytes ∧
    ((NewPicture Module.xvideo v p o w).pic.planes U_PLANE).p_data =
      Int.tdiv (v.output.i_width * v.output.i_height * 5) 4 ∧
    Int.tdiv (v.output.i_width * v.output.i_height * 5) 4 =
      v.output.i_width * v.output.i_height +
        Int.tdiv (v.output.i_width * v.output.i_height) 4 ∧
    (∀ x : Int,
      ¬ (in_plane ((NewPicture Module.xvideo v p o w).pic.planes Y_PLANE) x ∧
          in_plane ((NewPicture Module.xvideo v p o w).pic.planes V_PLANE) x) ∧
      ¬ (in_plane ((NewPicture Module.xvideo v p o w).pic.planes Y_PLANE) x ∧
          in_plane ((NewPicture Module.xvideo v p o w).pic.planes U_PLANE) x) ∧
      ¬ (in_plane ((NewPicture Module.xvideo v p o w).pic.planes V_PLANE) x ∧
          in_plane ((NewPicture Module.xvideo v p o w).pic.planes U_PLANE) x)) := by
  obtain ⟨hc, sys, w1, ha⟩ := NewPicture_xvideo_ok v p o w h
  have hn : 0 ≤ v.output.i_width * v.output.i_height := Int.mul_nonneg hW hH
  have hmax2 : v.output.i_width * v.output.i_height * 5 ≤ 2147483647 := hmax
  have hm : int_mul v.output.i_width v.output.i_height =
      v.output.i_width * v.output.i_height :=
    int_mul_eq _ _ (by unfold INT_MAX; omega) (by unfold INT_MAX; omega)
  have hm5 : int_mul (v.output.i_width * v.output.i_height) 5 =
      v.output.i_width * v.output.i_height * 5 :=
    int_mul_eq _ _ (by unfold INT_MAX; omega) hmax
  have h5 : Int.tdiv (v.output.i_width * v.output.i_height * 5) 4 =
      v.output.i_width * v.output.i_height +
        Int.tdiv (v.output.i_width * v.output.i_height) 4 := by
    rw [Int.tdiv_eq_ediv (by omega) (by decide), Int.tdiv_eq_ediv hn (by decide)]
    omega
  have h4 : 0 ≤ Int.tdiv (v.output.i_width * v.output.i_height) 4 := by
    rw [Int.tdiv_eq_ediv hn (by decide)]
    omega
  simp only [NewPicture, hc, ha, hm, hm5]
  simp only [Function.update, Y_PLANE, U_PLANE, V_PLANE, in_plane]
  simp only [eq_rec_constant, dite_eq_ite]
  simp only [OfNat.ofNat_ne_zero, OfNat.ofNat_ne_one, one_ne_zero, zero_ne_one,
    if_true, if_false, Nat.succ_ne_self, (by decide : (2 : Nat) ≠ 1), (by decide : (1 : Nat) ≠ 2),
    (by decide : (0 : Nat) ≠ 2), (by decide : (0 : Nat) ≠ 1), (by decide : (2 : Nat) ≠ 0)]
  generalize Int.tdiv (v.output.i_width * v.output.i_height * 5) 4 = u at h5 ⊢
  generalize Int.tdiv (v.output.i_width * v.output.i_height) 4 = q at h4 h5 ⊢
  generalize v.output.i_width * v.output.i_height = n at hn h5 ⊢
  refine ⟨trivial, trivial, trivial, trivial, trivial, by omega, by omega, by omega, h5, ?_⟩
  intro x
  refine ⟨?_, ?_, ?_⟩ <;> intro hx <;> omega

/-- C5, at 64 x 64: the Y plane is at offset 0, the V plane at 4096 and the U
plane at 5120, with strides 64, 32 and 32. -/
theorem NewPicture_planar_layout_witness :
    (sample_vout true 64 64 1).output.i_width * (sample_vout true 64 64 1).output.i_height * 5 ≤
      INT_MAX ∧
    ((NewPicture Module.xvideo (sample_vout true 64 64 1) blank_picture always_ok
      idle_world).pic.planes Y_PLANE).p_data = 0 ∧
    ((NewPicture Module.xvideo (sample_vout true 64 64 1) blank_picture always_ok
      idle_world).pic.planes V_PLANE).p_data = 4096 ∧
    ((NewPicture Module.xvideo (sample_vout true 64 64 1) blank_picture always_ok
      idle_world).pic.planes U_PLANE).p_data = 5120 ∧
    ((NewPicture Module.xvideo (sample_vout true 64 64 1) blank_picture always_ok
      idle_world).pic.planes U_PLANE).i_line_bytes = 32 := by
  have h := NewPicture_planar_layout (sample_vout true 64 64 1) blank_picture always_ok
    idle_world (by decide) (by decide) (by decide) (by decide)
  refine ⟨by decide, h.1, ?_, ?_, ?_⟩
  · rw [h.2.2.2.2.2.1]; decide
  · rw [h.2.2.2.2.2.2.2.1]; decide
  · rw [h.2.2.1]; decide

/-- C6 fails as stated: in the x11 build with two free slots and a library
that never fails, the first `vout_Init` leaves 2 output buffers and, after
`vout_End`, the second `vout_Init` leaves 0: `vout_End` does not give the
slots back their `FREE_PICTURE` status. -/
theorem vout_Init_End_Init_differs :
    ¬ ((vout_Init Module.x11 (fun _ => always_ok)
          (vout_Init Module.x11 (fun _ => always_ok) (sample_vout true 64 64 2) idle_world).2.1
          (vout_End
            (vout_Init Module.x11 (fun _ => always_ok) (sample_vout true 64 64 2)
              idle_world).2.1
            (vout_Init Module.x11 (fun _ => always_ok) (sample_vout true 64 64 2)
              idle_world).2.2)).2.1.output.i_pictures =
        (vout_Init Module.x11 (fun _ => always_ok) (sample_vout true 64 64 2)
          idle_world).2.1.output.i_pictures) := by
  decide

/-- C6, amended: with the same library answers, the second `vout_Init` of
`vout_Init; vout_End; vout_Init` returns what the first returned, and leaves
the same number of output buffers provided the table still has, after the
first `vout_Init`, at least as many free slots as that call allocated. -/
theorem vout_Init_End_Init (m : Module) (env : Nat → Outcome) (v : vout_thread_t) (w : World)
    (h : (vout_Init m env v w).2.1.output.i_pictures ≤
      freeCount (vout_Init m env v w).2.1.p_picture) :
    (vout_Init m env (vout_Init m env v w).2.1
        (vout_End (vout_Init m env v w).2.1 (vout_Init m env v w).2.2)).1 =
      (vout_Init m env v w).1 ∧
    (vout_Init m env (vout_Init m env v w).2.1
        (vout_End (vout_Init m env v w).2.1 (vout_Init m env v w).2.2)).2.1.output.i_pictures =
      (vout_Init m env v w).2.1.output.i_pictures := by
  obtain ⟨a1, a2, a3, a4, a5, a6, _⟩ := vout_Init_spec m env v w
  obtain ⟨b1, _, _, b4, _⟩ := vout_Init_spec m env (vout_Init m env v w).2.1
    (vout_End (vout_Init m env v w).2.1 (vout_Init m env v w).2.2)
  refine ⟨by rw [a1, b1], ?_⟩
  have hent : loop_entered m (vout_Init m env v w).2.1 ↔ loop_entered m v := by
    unfold loop_entered
    rw [a3]
  rw [b4, a2]
  by_cases he : loop_entered m v
  · rw [if_pos (hent.mpr he)]
    rw [if_pos he] at a4
    rw [a4] at h a5 a6
    rw [a4]
    apply successesBefore_stable
    · omega
    · omega
  · rw [if_neg (fun hx => he (hent.mp hx))]
    rw [if_neg he] at a4
    exact a4.symm

/-- C6 amended, at a concrete input: x11 build, four free slots. Both calls
leave 2 output buffers. -/
theorem vout_Init_End_Init_witness :
    (vout_Init Module.x11 (fun _ => always_ok) (sample_vout true 64 64 4)
        idle_world).2.1.output.i_pictures ≤
      freeCount (vout_Init Module.x11 (fun _ => always_ok) (sample_vout true 64 64 4)
        idle_world).2.1.p_picture ∧
    (vout_Init Module.x11 (fun _ => always_ok) (sample_vout true 64 64 4)
        idle_world).2.1.output.i_pictures = 2 ∧
    (vout_Init Module.x11 (fun _ => always_ok)
        (vout_Init Module.x11 (fun _ => always_ok) (sample_vout true 64 64 4) idle_world).2.1
        (vout_End
          (vout_Init Module.x11 (fun _ => always_ok) (sample_vout true 64 64 4)
            idle_world).2.1
          (vout_Init Module.x11 (fun _ => always_ok) (sample_vout true 64 64 4)
            idle_world).2.2)).2.1.output.i_pictures =
      (vout_Init Module.x11 (fun _ => always_ok) (sample_vout true 64 64 4)
        idle_world).2.1.output.i_pictures :=
  ⟨by decide, by decide,
    (vout_Init_End_Init Module.x11 (fun _ => always_ok) (sample_vout true 64 64 4) idle_world
      (by decide)).2⟩

/-- C7: when `vout_Init` has left `n` output buffers it has allocated `n`
descriptors and `n` images and, with shared memory, created `n` segments and
attached them to the process and to the server. `vout_End` releases every
descriptor and every image handle, detaches every segment from the server,
marks it for removal and detaches it from the process; nothing that was live
before is released and no release is repeated (`faults` is unchanged). In the
x11 build, and with shared memory, the world is then exactly as it was before
`vout_Init`, up to the supply of fresh handles. In the xvideo build without
shared memory it is not: `IMAGE_FREE` is `XFree`, which frees the `XvImage`
structure and not the buffer `CreateImage` allocated for it, and `n` data
buffers stay allocated after `vout_End`. -/
theorem vout_End_releases_all (m : Module) (env : Nat → Outcome) (v : vout_thread_t)
    (w : World) :
    (vout_Init m env v w).2.2.sys_blocks.length =
      w.sys_blocks.length + (vout_Init m env v w).2.1.output.i_pictures ∧
    (vout_Init m env v w).2.2.images.length =
      w.images.length + (vout_Init m env v w).2.1.output.i_pictures ∧
    (vout_Init m env v w).2.2.shm_server.length = w.shm_server.length +
      (if v.p_sys.b_shm then (vout_Init m env v w).2.1.output.i_pictures else 0) ∧
    (vout_Init m env v w).2.2.shm_proc.length = w.shm_proc.length +
      (if v.p_sys.b_shm then (vout_Init m env v w).2.1.output.i_pictures else 0) ∧
    (vout_Init m env v w).2.2.shm_segs.length = w.shm_segs.length +
      (if v.p_sys.b_shm then (vout_Init m env v w).2.1.output.i_pictures else 0) ∧
    (vout_Init m env v w).2.2.data_blocks = w.data_blocks ∧
    (∃ L : List (Nat × Int),
      L.length =
        (if m = Module.xvideo ∧ v.p_sys.b_shm = false then
          (vout_Init m env v w).2.1.output.i_pictures
         else 0) ∧
      vout_End (vout_Init m env v w).2.1 (vout_Init m env v w).2.2 =
        { w with next_id := (vout_Init m env v w).2.2.next_id,
                 data_blocks := L ++ w.data_blocks }) ∧
    ((m = Module.x11 ∨ v.p_sys.b_shm = true) →
      vout_End (vout_Init m env v w).2.1 (vout_Init m env v w).2.2 =
        { w with next_id := (vout_Init m env v w).2.2.next_id }) := by
  obtain ⟨_, _, _, _, _, _, _, ⟨L, hL, hE⟩, h9, h10, h11, h12, h13, h14⟩ :=
    vout_Init_spec m env v w
  refine ⟨h9, h10, h11, h12, h13, h14, ⟨L, ?_, hE⟩, ?_⟩
  · rw [hL]
    unfold data_left
    by_cases hc : m = Module.xvideo ∧ v.p_sys.b_shm = false
    · rw [if_pos hc, if_pos hc, Nat.one_mul]
    · rw [if_neg hc, if_neg hc, Nat.zero_mul]
  · intro hc
    have hz : data_left m v.p_sys.b_shm = 0 := by
      unfold data_left
      rcases hc with hc | hc
      · rw [if_neg (fun h => by rw [hc] at h; exact absurd h.1 (by decide))]
      · rw [if_neg (fun h => by rw [hc] at h; exact absurd h.2 (by decide))]
    rw [hz, Nat.zero_mul] at hL
    have hnil : L = [] := List.length_eq_zero.mp hL
    rw [hE, hnil]
    rfl

/-- C7, at concrete inputs. In the xvideo build without shared memory, with
four free slots and a library that never fails, `vout_Init` allocates 4
buffers; after `vout_End` no descriptor and no image handle is left and no
release has failed, but 4 data buffers (of 64 * 64 * 2 bytes) are still
allocated. With shared memory nothing is left. -/
theorem vout_End_releases_all_witness :
    (vout_Init Module.xvideo (fun _ => always_ok) (sample_vout false 64 64 4)
      idle_world).2.1.output.i_pictures = 4 ∧
    (vout_Init Module.xvideo (fun _ => always_ok) (sample_vout false 64 64 4)
      idle_world).2.2.data_blocks = idle_world.data_blocks ∧
    (vout_End
      (vout_Init Module.xvideo (fun _ => always_ok) (sample_vout false 64 64 4) idle_world).2.1
      (vout_Init Module.xvideo (fun _ => always_ok) (sample_vout false 64 64 4)
        idle_world).2.2).data_blocks =
      [(1, 8192), (4, 8192), (7, 8192), (10, 8192)] ∧
    (vout_End
      (vout_Init Module.xvideo (fun _ => always_ok) (sample_vout false 64 64 4) idle_world).2.1
      (vout_Init Module.xvideo (fun _ => always_ok) (sample_vout false 64 64 4)
        idle_world).2.2).images = [] ∧
    (vout_End
      (vout_Init Module.xvideo (fun _ => always_ok) (sample_vout false 64 64 4) idle_world).2.1
      (vout_Init Module.xvideo (fun _ => always_ok) (sample_vout false 64 64 4)
        idle_world).2.2).sys_blocks = [] ∧
    (vout_End
      (vout_Init Module.xvideo (fun _ => always_ok) (sample_vout false 64 64 4) idle_world).2.1
      (vout_Init Module.xvideo (fun _ => always_ok) (sample_vout false 64 64 4)
        idle_world).2.2).faults = 0 ∧
    (vout_End
      (vout_Init Module.xvideo (fun _ => always_ok) (sample_vout true 64 64 4) idle_world).2.1
      (vout_Init Module.xvideo (fun _ => always_ok) (sample_vout true 64 64 4)
        idle_world).2.2).data_blocks = [] :=
  ⟨by decide,
   (vout_End_releases_all Module.xvideo (fun _ => always_ok) (sample_vout false 64 64 4)
      idle_world).2.2.2.2.2.1,
   by decide, by decide, by decide, by decide, by decide⟩

/-! ## The event loop: properties -/

/-- C8: over the events drained in one `vout_Manage` cycle, the relative
seeks issued (the calls of `vout_Seek`, in order, with their number of
seconds) are exactly those of the table: Left -5, Right +5, Up +60, Down -60,
Page Up +900, Page Down -900, press of button 4 +15, press of button 5 -15,
and nothing for any other event. For a single event with an entry in the
table, what `vout_Manage` does is the call `vout_Seek` with that number. -/
theorem vout_Manage_relative_seeks (m : Module) (s : ManageState) (events : List XEvent) :
    (∃ cs, (vout_Manage_drain m s events).1.intf.calls = s.intf.calls ++ cs ∧
      relative_seeks cs = events.filterMap spec_relative_seek) ∧
    (∀ (b : Bool) (e : XEvent) (k : Int), spec_relative_seek e = some k →
      (vout_Manage_event m s b e).1 = vout_Seek s k) :=
  ⟨vout_Manage_drain_seeks m events s false,
    fun b e k h => vout_Manage_event_seek_state m s b e k h⟩

/-- C8, at concrete inputs: a Left key press at position 1000 is the call
`vout_Seek( -5 )`, which asks the input for position 750, and a cycle that
drains Page Up, a press of button 1, a press of button 5 and Home issues the
relative seeks +900 and -15. -/
theorem vout_Manage_relative_seeks_witness :
    spec_relative_seek (key_press XK_Left none) = some (-5) ∧
    (vout_Manage_event Module.x11 sample_state false (key_press XK_Left none)).1 =
      vout_Seek sample_state (-5) ∧
    (vout_Seek sample_state (-5)).intf.calls = [Call.vout_Seek (-5), Call.input_Seek 750] ∧
    [key_press XK_Page_Up none, button_press Button1, button_press Button5,
      key_press XK_Home none].filterMap spec_relative_seek = [900, -15] :=
  ⟨by decide,
    (vout_Manage_relative_seeks Module.x11 sample_state []).2 false (key_press XK_Left none)
      (-5) (by decide),
    by decide, by decide⟩

/-- C10: a key press whose key symbol is not one of the named keys and whose
looked-up character is the digit `d` makes `vout_Manage` call
`network_ChannelJoin( d )` and nothing else; a key press whose looked-up
character is not a digit, or that has none, makes no `network_ChannelJoin`
call. -/
theorem vout_Manage_channel_join (m : Module) (s : ManageState) (b : Bool) (e : XEvent)
    (ht : e.type = KeyPress) :
    (∀ d, d < 10 → e.keysym ∉ named_keysyms → e.lookup = some (digit_char d) →
      (vout_Manage_event m s b e).1.intf.calls =
        s.intf.calls ++ [Call.network_ChannelJoin (d : Int)]) ∧
    ((∀ d, d < 10 → e.lookup ≠ some (digit_char d)) →
      ∃ cs, (vout_Manage_event m s b e).1.intf.calls = s.intf.calls ++ cs ∧
        channel_joins cs = []) := by
  rw [vout_Manage_event_KeyPress m s b e ht]
  constructor
  · intro d hd hn hl
    rw [vout_Manage_key_unnamed s e hn, hl]
    simp only
    rw [vout_Manage_char_digit s d hd]
    rfl
  · intro h
    exact vout_Manage_key_joins s e h

/-- C10, at concrete inputs: the key `XK_KP_5` with character '5' joins
channel 5, and the same key with character 'x' joins none. -/
theorem vout_Manage_channel_join_witness :
    digit_char 5 = '5' ∧
    (vout_Manage_event Module.x11 sample_state false
        (key_press XK_KP_5 (some '5'))).1.intf.calls = [Call.network_ChannelJoin 5] ∧
    (∃ cs, (vout_Manage_event Module.x11 sample_state false
        (key_press XK_KP_5 (some 'x'))).1.intf.calls = sample_state.intf.calls ++ cs ∧
      channel_joins cs = []) :=
  ⟨by decide,
    (vout_Manage_channel_join Module.x11 sample_state false (key_press XK_KP_5 (some '5'))
      rfl).1 5 (by decide) (by decide) rfl,
    (vout_Manage_channel_join Module.x11 sample_state false (key_press XK_KP_5 (some 'x'))
      rfl).2 (by
        intro d hd
        interval_cases d <;> decide)⟩

/-! ## Cycles of `vout_Manage`, windows and the screen saver -/

theorem vout_Manage_char_nondigit (s : ManageState) (c : Char)
    (h : ∀ d, d < 10 → c ≠ digit_char d) :
    vout_Manage_char s c =
      if c = 'q' ∨ c = 'Q' then set_die s
      else if c = 'f' ∨ c = 'F' then request_fullscreen s
      else s := by
  have e0 : c ≠ '0' := h 0 (by decide)
  have e1 : c ≠ '1' := h 1 (by decide)
  have e2 : c ≠ '2' := h 2 (by decide)
  have e3 : c ≠ '3' := h 3 (by decide)
  have e4 : c ≠ '4' := h 4 (by decide)
  have e5 : c ≠ '5' := h 5 (by decide)
  have e6 : c ≠ '6' := h 6 (by decide)
  have e7 : c ≠ '7' := h 7 (by decide)
  have e8 : c ≠ '8' := h 8 (by decide)
  have e9 : c ≠ '9' := h 9 (by decide)
  unfold vout_Manage_char
  rw [if_neg e0, if_neg e1, if_neg e2, if_neg e3, if_neg e4, if_neg e5, if_neg e6, if_neg e7,
    if_neg e8, if_neg e9]
  rfl

theorem digit_char_recognised (d : Nat) (hd : d < 10) : digit_char d ∈ recognised_chars := by
  interval_cases d <;> decide

theorem digit_char_ne_letters (d : Nat) (hd : d < 10) :
    digit_char d ≠ 'q' ∧ digit_char d ≠ 'Q' ∧ digit_char d ≠ 'f' ∧ digit_char d ≠ 'F' := by
  interval_cases d <;> decide

theorem vout_Manage_key_elim (s : ManageState) (e : XEvent) (P : ManageState → Prop)
    (h_esc : e.keysym = XK_Escape → P (set_die s))
    (h_menu : e.keysym = XK_Menu → P (set_menu s))
    (h_seek : ∀ k : Int, e.keysym ∈ seek_keysyms → P (vout_Seek s k))
    (h_home : e.keysym = XK_Home → P (input_Seek s s.intf.area.i_start))
    (h_end : e.keysym = XK_End → P (input_Seek s s.intf.area.i_size))
    (h_space : e.keysym = XK_space → P (input_SetStatus s InputStatus.INPUT_STATUS_PAUSE))
    (h_none : e.keysym ∉ named_keysyms → e.lookup = none → P s)
    (h_q : e.keysym ∉ named_keysyms → (e.lookup = some 'q' ∨ e.lookup = some 'Q') →
      P (set_die s))
    (h_f : e.keysym ∉ named_keysyms → (e.lookup = some 'f' ∨ e.lookup = some 'F') →
      P (request_fullscreen s))
    (h_digit : ∀ d, d < 10 → e.keysym ∉ named_keysyms → e.lookup = some (digit_char d) →
      P (network_ChannelJoin s (d : Int)))
    (h_other : ∀ c, e.keysym ∉ named_keysyms → e.lookup = some c → c ∉ recognised_chars →
      P s) :
    P (vout_Manage_key s e) := by
  obtain ⟨k1, k2, k3, k4, k5, k6, k7, k8, k9, k10, k11⟩ := vout_Manage_key_named s e
  by_cases hn : e.keysym ∈ named_keysyms
  · have hn2 := hn
    simp only [named_keysyms, List.mem_cons, List.mem_singleton, List.mem_nil_iff,
      or_false] at hn2
    rcases hn2 with h | h | h | h | h | h | h | h | h | h | h
    · rw [k1 h]; exact h_esc h
    · rw [k2 h]; exact h_menu h
    · rw [k3 h]; exact h_seek _ (by rw [h]; decide)
    · rw [k4 h]; exact h_seek _ (by rw [h]; decide)
    · rw [k5 h]; exact h_seek _ (by rw [h]; decide)
    · rw [k6 h]; exact h_seek _ (by rw [h]; decide)
    · rw [k7 h]; exact h_home h
    · rw [k8 h]; exact h_end h
    · rw [k9 h]; exact h_seek _ (by rw [h]; decide)
    · rw [k10 h]; exact h_seek _ (by rw [h]; decide)
    · rw [k11 h]; exact h_space h
  · rw [vout_Manage_key_unnamed s e hn]
    cases hl : e.lookup with
    | none => exact h_none hn hl
    | some c =>
      simp only
      rcases digit_char_cases c with ⟨d, hd, hc⟩ | hno
      · rw [hc, vout_Manage_char_digit s d hd]
        exact h_digit d hd hn (by rw [hl, hc])
      · rw [vout_Manage_char_nondigit s c hno]
        by_cases hq : c = 'q' ∨ c = 'Q'
        · rw [if_pos hq]
          exact h_q hn (by rcases hq with h | h <;> rw [hl, h] <;> simp)
        · rw [if_neg hq]
          by_cases hf : c = 'f' ∨ c = 'F'
          · rw [if_pos hf]
            exact h_f hn (by rcases hf with h | h <;> rw [hl, h] <;> simp)
          · rw [if_neg hf]
            refine h_other c hn hl ?_
            intro hmem
            simp only [recognised_chars, List.mem_cons, List.mem_singleton, List.mem_nil_iff,
              or_false] at hmem
            rcases hmem with h | h | h | h | h | h | h | h | h | h | h | h | h | h
            · exact hq (Or.inl h)
            · exact hq (Or.inr h)
            · exact hf (Or.inl h)
            · exact hf (Or.inr h)
            · exact hno 0 (by decide) h
            · exact hno 1 (by decide) h
            · exact hno 2 (by decide) h
            · exact hno 3 (by decide) h
            · exact hno 4 (by decide) h
            · exact hno 5 (by decide) h
            · exact hno 6 (by decide) h
            · exact hno 7 (by decide) h
            · exact hno 8 (by decide) h
            · exact hno 9 (by decide) h

theorem vout_Manage_event_elim (m : Module) (s : ManageState) (b : Bool) (e : XEvent)
    (P : ManageState × Bool → Prop)
    (h_cfg : e.type = ConfigureNotify →
      (e.width ≠ s.vout.p_sys.i_width ∨ e.height ≠ s.vout.p_sys.i_height) →
      P (record_size s e, true))
    (h_same : e.type = ConfigureNotify → e.width = s.vout.p_sys.i_width →
      e.height = s.vout.p_sys.i_height → P (s, b))
    (h_map : e.type = MapNotify → s.vout.b_active = false → P (map_step m s, b))
    (h_map0 : e.type = MapNotify → s.vout.b_active = true → P (s, b))
    (h_unmap : e.type = UnmapNotify → s.vout.b_active = true → P (unmap_step s, b))
    (h_unmap0 : e.type = UnmapNotify → s.vout.b_active = false → P (s, b))
    (h_key : e.type = KeyPress → P (vout_Manage_key s e, b))
    (h_b1 : e.type = ButtonPress → e.button = Button1 →
      P (input_SetStatus s InputStatus.INPUT_STATUS_PAUSE, b))
    (h_b4 : e.type = ButtonPress → e.button = Button4 → P (vout_Seek s 15, b))
    (h_b5 : e.type = ButtonPress → e.button = Button5 → P (vout_Seek s (-15), b))
    (h_b : e.type = ButtonPress → e.button ≠ Button1 → e.button ≠ Button4 →
      e.button ≠ Button5 → P (s, b))
    (h_r3 : e.type = ButtonRelease → e.button = Button3 → P (set_menu s, b))
    (h_r : e.type = ButtonRelease → e.button ≠ Button3 → P (s, b))
    (h_hidden : e.type = MotionNotify → s.vout.p_sys.b_mouse_pointer_visible = false →
      P (ToggleCursor (record_motion s), b))
    (h_visible : e.type = MotionNotify → s.vout.p_sys.b_mouse_pointer_visible = true →
      P (record_motion s, b))
    (h_other : e.type ∉ handled_types → P (s, b)) :
    P (vout_Manage_event m s b e) := by
  unfold vout_Manage_event
  by_cases c1 : e.type = ConfigureNotify ∧
      (e.width ≠ s.vout.p_sys.i_width ∨ e.height ≠ s.vout.p_sys.i_height)
  · rw [if_pos c1]
    exact h_cfg c1.1 c1.2
  · rw [if_neg c1]
    by_cases c2 : e.type = MapNotify
    · rw [if_pos c2]
      cases hb : s.vout.b_active
      · simp only [Bool.not_false, if_true]
        exact h_map c2 hb
      · simp only [Bool.not_true, Bool.false_eq_true, if_false]
        exact h_map0 c2 hb
    · rw [if_neg c2]
      by_cases c3 : e.type = UnmapNotify
      · rw [if_pos c3]
        cases hb : s.vout.b_active
        · simp only [Bool.false_eq_true, if_false]
          exact h_unmap0 c3 hb
        · simp only [if_true]
          exact h_unmap c3 hb
      · rw [if_neg c3]
        by_cases c4 : e.type = KeyPress
        · rw [if_pos c4]
          exact h_key c4
        · rw [if_neg c4]
          by_cases c5 : e.type = ButtonPress
          · rw [if_pos c5]
            by_cases b1 : e.button = Button1
            · rw [if_pos b1]; exact h_b1 c5 b1
            · rw [if_neg b1]
              by_cases b4 : e.button = Button4
              · rw [if_pos b4]; exact h_b4 c5 b4
              · rw [if_neg b4]
                by_cases b5 : e.button = Button5
                · rw [if_pos b5]; exact h_b5 c5 b5
                · rw [if_neg b5]; exact h_b c5 b1 b4 b5
          · rw [if_neg c5]
            by_cases c6 : e.type = ButtonRelease
            · rw [if_pos c6]
              by_cases b3 : e.button = Button3
              · rw [if_pos b3]; exact h_r3 c6 b3
              · rw [if_neg b3]; exact h_r c6 b3
            · rw [if_neg c6]
              by_cases c7 : e.type = MotionNotify
              · rw [if_pos c7]
                change P (if (!(record_motion s).vout.p_sys.b_mouse_pointer_visible) = true
                  then (ToggleCursor (record_motion s), b) else (record_motion s, b))
                cases hv : s.vout.p_sys.b_mouse_pointer_visible
                · have hc : (!(record_motion s).vout.p_sys.b_mouse_pointer_visible) = true := by
                    show (!s.vout.p_sys.b_mouse_pointer_visible) = true
                    rw [hv]; rfl
                  rw [if_pos hc]
                  exact h_hidden c7 hv
                · have hc : ¬ (!(record_motion s).vout.p_sys.b_mouse_pointer_visible) = true := by
                    show ¬ (!s.vout.p_sys.b_mouse_pointer_visible) = true
                    rw [hv]; decide
                  rw [if_neg hc]
                  exact h_visible c7 hv
              · rw [if_neg c7]
                by_cases c0 : e.type = ConfigureNotify
                · have hsame : ¬ (e.width ≠ s.vout.p_sys.i_width ∨
                      e.height ≠ s.vout.p_sys.i_height) := fun h => c1 ⟨c0, h⟩
                  simp only [not_or, not_not] at hsame
                  exact h_same c0 hsame.1 hsame.2
                · apply h_other
                  simp only [handled_types, List.mem_cons, List.mem_singleton, List.mem_nil_iff,
                    or_false, not_or]
                  exact ⟨c0, c2, c3, c4, c5, c6, c7⟩

theorem vout_Manage_event_size (m : Module) (s : ManageState) (b : Bool) (e : XEvent) :
    recorded_size (vout_Manage_event m s b e).1 =
      if e.type = ConfigureNotify then (e.width, e.height) else recorded_size s := by
  have hK : KeyPress ≠ ConfigureNotify := by decide
  apply vout_Manage_event_elim m s b e
    (fun r => recorded_size r.1 =
      if e.type = ConfigureNotify then (e.width, e.height) else recorded_size s)
  · intro h _; simp only [h, if_true]; rfl
  · intro h hw hh; simp only [h, if_true, recorded_size, hw, hh]
  · intro h _
    have : e.type ≠ ConfigureNotify := by rw [h]; decide
    simp only [this, if_false]
    cases m <;> rfl
  · intro h _
    have : e.type ≠ ConfigureNotify := by rw [h]; decide
    simp only [this, if_false]
  · intro h _
    have : e.type ≠ ConfigureNotify := by rw [h]; decide
    simp only [this, if_false]
    rfl
  · intro h _
    have : e.type ≠ ConfigureNotify := by rw [h]; decide
    simp only [this, if_false]
  · intro h
    have : e.type ≠ ConfigureNotify := by rw [h]; decide
    simp only [this, if_false]
    apply vout_Manage_key_elim s e (fun r => recorded_size r = recorded_size s) <;> intros <;> rfl
  · intro h _
    have : e.type ≠ ConfigureNotify := by rw [h]; decide
    simp only [this, if_false]; rfl
  · intro h _
    have : e.type ≠ ConfigureNotify := by rw [h]; decide
    simp only [this, if_false]; rfl
  · intro h _
    have : e.type ≠ ConfigureNotify := by rw [h]; decide
    simp only [this, if_false]; rfl
  · intro h _ _ _
    have : e.type ≠ ConfigureNotify := by rw [h]; decide
    simp only [this, if_false]
  · intro h _
    have : e.type ≠ ConfigureNotify := by rw [h]; decide
    simp only [this, if_false]; rfl
  · intro h _
    have : e.type ≠ ConfigureNotify := by rw [h]; decide
    simp only [this, if_false]
  · intro h hv
    have : e.type ≠ ConfigureNotify := by rw [h]; decide
    simp only [this, if_false]
    have hv2 : (record_motion s).vout.p_sys.b_mouse_pointer_visible = false := hv
    simp only [ToggleCursor, hv2, Bool.false_eq_true, if_false]
    rfl
  · intro h _
    have : e.type ≠ ConfigureNotify := by rw [h]; decide
    simp only [this, if_false]; rfl
  · intro h
    have : e.type ≠ ConfigureNotify := by
      intro hc; apply h; rw [hc]; decide
    simp only [this, if_false]

theorem vout_Manage_drain_size (m : Module) (events : List XEvent) (s : ManageState) (b : Bool) :
    recorded_size (events.foldl (fun acc e => vout_Manage_event m acc.1 acc.2 e) (s, b)).1 =
      (last_configure events).getD (recorded_size s) := by
  induction events generalizing s b with
  | nil => rfl
  | cons e es ih =>
    simp only [List.foldl_cons]
    rw [ih, vout_Manage_event_size]
    unfold last_configure
    by_cases hc : e.type = ConfigureNotify
    · simp only [hc, if_true, List.filter_cons, decide_True]
      rw [List.getLast?_cons]
      cases (List.filter (fun e => decide (e.type = ConfigureNotify)) es).getLast? <;> rfl
    · simp only [hc, if_false, List.filter_cons, decide_False]
      rfl

theorem vout_Manage_event_MotionNotify (m : Module) (s : ManageState) (b : Bool) (e : XEvent)
    (h : e.type = MotionNotify) :
    vout_Manage_event m s b e =
      (if s.vout.p_sys.b_mouse_pointer_visible then record_motion s
       else ToggleCursor (record_motion s), b) := by
  apply vout_Manage_event_elim m s b e
    (fun r => r = (if s.vout.p_sys.b_mouse_pointer_visible then record_motion s
       else ToggleCursor (record_motion s), b))
  case h_hidden => intro _ hv; rw [hv]; rfl
  case h_visible => intro _ hv; rw [hv]; rfl
  case h_other =>
    intro h2; exact absurd (by rw [h]; decide) h2
  all_goals
    intro h2
    rw [h] at h2
    exact absurd h2 (by decide)

theorem ToggleCursor_hidden (s : ManageState) (h : s.vout.p_sys.b_mouse_pointer_visible = false) :
    (ToggleCursor s).vout.p_sys.b_mouse_pointer_visible = true ∧
    (ToggleCursor s).world.cursor_blank = false ∧
    (ToggleCursor s).vout.p_sys.i_time_mouse_last_moved =
      s.vout.p_sys.i_time_mouse_last_moved := by
  simp [ToggleCursor, h]

theorem ToggleCursor_visible (s : ManageState) (h : s.vout.p_sys.b_mouse_pointer_visible = true) :
    (ToggleCursor s).vout.p_sys.b_mouse_pointer_visible = false ∧
    (ToggleCursor s).world.cursor_blank = true ∧
    (ToggleCursor s).vout.p_sys.i_time_mouse_last_moved =
      s.vout.p_sys.i_time_mouse_last_moved := by
  simp [ToggleCursor, h]

/-- C14: right after `vout_Manage` has processed a pointer-motion event the
cursor is flagged visible and the time of the last motion is the value `mdate()`
returned while the event was processed. If the cursor was hidden, the event
does exactly one `ToggleCursor` (which removes the blank cursor from the
window); if it was visible, it does none. -/
theorem vout_Manage_motion (m : Module) (s : ManageState) (b : Bool) (e : XEvent)
    (h : e.type = MotionNotify) :
    (vout_Manage_event m s b e).1.vout.p_sys.b_mouse_pointer_visible = true ∧
    (vout_Manage_event m s b e).1.vout.p_sys.i_time_mouse_last_moved = s.world.clock ∧
    (s.vout.p_sys.b_mouse_pointer_visible = false →
      (vout_Manage_event m s b e).1 = ToggleCursor (record_motion s) ∧
      (vout_Manage_event m s b e).1.world.cursor_blank = false) ∧
    (s.vout.p_sys.b_mouse_pointer_visible = true →
      (vout_Manage_event m s b e).1 = record_motion s) := by
  rw [vout_Manage_event_MotionNotify m s b e h]
  cases hv : s.vout.p_sys.b_mouse_pointer_visible
  · have hv2 : (record_motion s).vout.p_sys.b_mouse_pointer_visible = false := hv
    obtain ⟨t1, t2, t3⟩ := ToggleCursor_hidden (record_motion s) hv2
    simp only [Bool.false_eq_true, if_false]
    exact ⟨t1, t3, fun _ => ⟨trivial, t2⟩, fun hx => absurd hx (by decide)⟩
  · simp only [if_true]
    exact ⟨hv, rfl, fun hx => absurd hx (by decide), fun _ => trivial⟩

/-- C18: `DisableXScreenSaver` saves the four parameters in force and sets
only the timeout to zero, and `EnableXScreenSaver` after it puts the four
parameters back. In the xvideo build `DisableXScreenSaver` also disables
display power management and `EnableXScreenSaver` does not enable it again:
on a server where it was enabled (`sample_state`) it stays disabled. -/
theorem DisableXScreenSaver_then_Enable (m : Module) (s : ManageState) :
    ss_saved (DisableXScreenSaver m s).vout = ss_params s.world ∧
    ss_params (DisableXScreenSaver m s).world =
      (0, s.world.ss_interval, s.world.ss_blanking, s.world.ss_exposure) ∧
    ss_params (EnableXScreenSaver (DisableXScreenSaver m s)).world = ss_params s.world ∧
    (EnableXScreenSaver (DisableXScreenSaver Module.x11 s)).world.dpms_enabled =
      s.world.dpms_enabled ∧
    (EnableXScreenSaver (DisableXScreenSaver Module.xvideo s)).world.dpms_enabled = false ∧
    sample_state.world.dpms_enabled = true ∧
    (EnableXScreenSaver (DisableXScreenSaver Module.xvideo sample_state)).world.dpms_enabled ≠
      sample_state.world.dpms_enabled := by
  refine ⟨?_, ?_, ?_, rfl, rfl, rfl, by decide⟩ <;> cases m <;> rfl

theorem vout_Manage_autohide_spec (s : ManageState) :
    (s.world.clock - s.vout.p_sys.i_time_mouse_last_moved > 2000000 →
      s.vout.p_sys.b_mouse_pointer_visible = true →
      vout_Manage_autohide s = ToggleCursor s ∧
      (vout_Manage_autohide s).vout.p_sys.b_mouse_pointer_visible = false ∧
      (vout_Manage_autohide s).world.cursor_blank = true) ∧
    (s.world.clock - s.vout.p_sys.i_time_mouse_last_moved ≤ 2000000 →
      vout_Manage_autohide s = s) ∧
    (s.vout.p_sys.b_mouse_pointer_visible = false → vout_Manage_autohide s = s) := by
  refine ⟨?_, ?_, ?_⟩
  · intro ht hv
    have h : vout_Manage_autohide s = ToggleCursor s := by
      unfold vout_Manage_autohide
      rw [if_pos ht, if_pos hv]
    rw [h]
    obtain ⟨t1, t2, _⟩ := ToggleCursor_visible s hv
    exact ⟨rfl, t1, t2⟩
  · intro ht
    unfold vout_Manage_autohide
    rw [if_neg (by omega)]
  · intro hv
    unfold vout_Manage_autohide
    by_cases ht : s.world.clock - s.vout.p_sys.i_time_mouse_last_moved > 2000000
    · rw [if_pos ht, hv]; rfl
    · rw [if_neg ht]

theorem ToggleCursor_tail (s : ManageState) :
    tail_frame (ToggleCursor s) = tail_frame s ∧
    (ToggleCursor s).vout.b_fullscreen = s.vout.b_fullscreen ∧
    (ToggleCursor s).vout.i_changes = s.vout.i_changes ∧
    recorded_size (ToggleCursor s) = recorded_size s ∧
    (ToggleCursor s).vout.p_sys.window = s.vout.p_sys.window := by
  unfold ToggleCursor
  split <;> exact ⟨rfl, rfl, rfl, rfl, rfl⟩

theorem XDestroyWindow_frame (w : World) (window : Nat) :
    (XDestroyWindow w window).next_id = w.next_id ∧
    (XDestroyWindow w window).sys_blocks = w.sys_blocks ∧
    (XDestroyWindow w window).data_blocks = w.data_blocks ∧
    (XDestroyWindow w window).images = w.images ∧
    (XDestroyWindow w window).shm_segs = w.shm_segs ∧
    (XDestroyWindow w window).shm_proc = w.shm_proc ∧
    (XDestroyWindow w window).shm_server = w.shm_server ∧
    (XDestroyWindow w window).display_width = w.display_width ∧
    (XDestroyWindow w window).display_height = w.display_height ∧
    ss_params (XDestroyWindow w window) = ss_params w := by
  unfold XDestroyWindow
  split <;> exact ⟨rfl, rfl, rfl, rfl, rfl, rfl, rfl, rfl, rfl, rfl⟩

theorem DestroyWindow_tail (m : Module) (s : ManageState) :
    tail_frame (DestroyWindow m s) = tail_frame s ∧
    (DestroyWindow m s).vout = s.vout ∧
    (DestroyWindow m s).world.next_id = s.world.next_id := by
  cases m
  · obtain ⟨h1, h2, h3, h4, h5, h6, h7, h8, h9, h10⟩ :=
      XDestroyWindow_frame s.world s.vout.p_sys.window
    refine ⟨?_, rfl, h1⟩
    simp only [tail_frame, pool_frame, screen_frame, saver_frame, DestroyWindow, h2, h3, h4, h5,
      h6, h7, h8, h9, h10]
  · obtain ⟨h1, h2, h3, h4, h5, h6, h7, h8, h9, h10⟩ :=
      XDestroyWindow_frame (XDestroyWindow s.world s.vout.p_sys.yuv_window) s.vout.p_sys.window
    obtain ⟨g1, g2, g3, g4, g5, g6, g7, g8, g9, g10⟩ :=
      XDestroyWindow_frame s.world s.vout.p_sys.yuv_window
    refine ⟨?_, rfl, h1.trans g1⟩
    simp only [tail_frame, pool_frame, screen_frame, saver_frame, DestroyWindow, h2, h3, h4, h5,
      h6, h7, h8, h9, h10, g2, g3, g4, g5, g6, g7, g8, g9, g10]

theorem CreateWindow_open_tail (s : ManageState) :
    tail_frame (CreateWindow_open s) = tail_frame s ∧
    (CreateWindow_open s).vout.b_fullscreen = s.vout.b_fullscreen ∧
    (CreateWindow_open s).vout.i_changes = s.vout.i_changes ∧
    (CreateWindow_open s).vout.p_sys.window = s.world.next_id ∧
    recorded_size (CreateWindow_open s) = CreateWindow_size s.vout s.world :=
  ⟨rfl, rfl, rfl, rfl, rfl⟩

theorem CreateWindow_ready_tail (m : Module) (s : ManageState) (recorded : Int × Int) :
    tail_frame (CreateWindow_ready m s recorded) = tail_frame s ∧
    (CreateWindow_ready m s recorded).vout.b_fullscreen = s.vout.b_fullscreen ∧
    (CreateWindow_ready m s recorded).vout.i_changes = s.vout.i_changes ∧
    (CreateWindow_ready m s recorded).vout.p_sys.window = s.vout.p_sys.window ∧
    recorded_size (CreateWindow_ready m s recorded) = recorded := by
  unfold CreateWindow_ready
  cases m <;> simp only <;> split <;>
    first
      | exact ⟨rfl, rfl, rfl, rfl, rfl⟩
      | (rename_i hv
         refine ⟨?_, ?_, ?_, ?_, ?_⟩ <;>
           simp only [(ToggleCursor_tail _).1, (ToggleCursor_tail _).2.1,
             (ToggleCursor_tail _).2.2.1, (ToggleCursor_tail _).2.2.2.1,
             (ToggleCursor_tail _).2.2.2.2] <;> rfl)

theorem vout_Manage_size_tail (m : Module) (s : ManageState) :
    tail_frame (vout_Manage_size m s) = tail_frame s ∧
    (vout_Manage_size m s).vout.b_fullscreen = s.vout.b_fullscreen ∧
    recorded_size (vout_Manage_size m s) = recorded_size s ∧
    (vout_Manage_size m s).vout.p_sys = s.vout.p_sys ∧
    (vout_Manage_size m s).world = s.world := by
  unfold vout_Manage_size
  cases m
  · exact ⟨rfl, rfl, rfl, rfl, rfl⟩
  · simp only
    split <;> exact ⟨rfl, rfl, rfl, rfl, rfl⟩

theorem vout_Manage_autohide_tail (s : ManageState) :
    tail_frame (vout_Manage_autohide s) = tail_frame s ∧
    (vout_Manage_autohide s).vout.b_fullscreen = s.vout.b_fullscreen ∧
    (vout_Manage_autohide s).vout.i_changes = s.vout.i_changes ∧
    recorded_size (vout_Manage_autohide s) = recorded_size s ∧
    (vout_Manage_autohide s).vout.p_sys.window = s.vout.p_sys.window := by
  unfold vout_Manage_autohide
  split
  · split
    · exact ToggleCursor_tail s
    · exact ⟨rfl, rfl, rfl, rfl, rfl⟩
  · exact ⟨rfl, rfl, rfl, rfl, rfl⟩

theorem vout_Manage_key_loops_frame (s : ManageState) (e : XEvent) :
    loops_frame (vout_Manage_key s e) = loops_frame s := by
  apply vout_Manage_key_elim s e (fun r => loops_frame r = loops_frame s) <;> intros <;> rfl

theorem vout_Manage_event_loops_frame (m : Module) (s : ManageState) (b : Bool) (e : XEvent) :
    loops_frame (vout_Manage_event m s b e).1 = loops_frame s := by
  apply vout_Manage_event_elim m s b e (fun r => loops_frame r.1 = loops_frame s)
  case h_key => intro _; exact vout_Manage_key_loops_frame s e
  case h_map => intro _ _; cases m <;> rfl
  case h_hidden =>
    intro _ _
    show loops_frame (ToggleCursor (record_motion s)) = loops_frame s
    unfold ToggleCursor
    split <;> rfl
  all_goals intros; rfl

theorem vout_Manage_drain_loops_frame (m : Module) (events : List XEvent) (s : ManageState)
    (b : Bool) :
    loops_frame (events.foldl (fun acc e => vout_Manage_event m acc.1 acc.2 e) (s, b)).1 =
      loops_frame s := by
  induction events generalizing s b with
  | nil => rfl
  | cons e es ih =>
    simp only [List.foldl_cons]
    rw [ih, vout_Manage_event_loops_frame]

theorem vout_Manage_yuv_eq (s : ManageState) (yuv_events : List XWindowEvent) :
    vout_Manage_yuv s yuv_events = s := by
  unfold vout_Manage_yuv
  induction yuv_events with
  | nil => rfl
  | cons e es ih => simp

theorem vout_Manage_client_event_eq (s : ManageState) (c : XClientMessageEvent) :
    vout_Manage_client_event s c =
      if c.message_type = s.vout.p_sys.wm_protocols ∧
          c.data_l0 = s.vout.p_sys.wm_delete_window then set_die s else s := rfl

theorem vout_Manage_client_spec (msgs : List XClientMessageEvent) (s : ManageState) :
    (vout_Manage_client s msgs).vout = s.vout ∧
    (vout_Manage_client s msgs).world = s.world ∧
    (vout_Manage_client s msgs).intf =
      { s.intf with b_die := (s.intf.b_die || msgs.any (spec_quit_message s.vout.p_sys)) } := by
  unfold vout_Manage_client
  induction msgs generalizing s with
  | nil => simp
  | cons c cs ih =>
    simp only [List.foldl_cons, List.any_cons]
    obtain ⟨h1, h2, h3⟩ := ih (vout_Manage_client_event s c)
    rw [h1, h2, h3, vout_Manage_client_event_eq]
    by_cases hc : c.message_type = s.vout.p_sys.wm_protocols ∧
        c.data_l0 = s.vout.p_sys.wm_delete_window
    · rw [if_pos hc]
      simp [set_die, spec_quit_message, hc]
    · rw [if_neg hc]
      simp [spec_quit_message, hc]

theorem vout_Manage_loops_eq (m : Module) (s : ManageState) (inp : ManageInput) :
    vout_Manage_loops m s inp =
      vout_Manage_client (vout_Manage_drain m s inp.events).1 inp.client_messages := by
  unfold vout_Manage_loops
  cases m <;> simp only [vout_Manage_yuv_eq]

theorem vout_Manage_loops_frame (m : Module) (s : ManageState) (inp : ManageInput) :
    loops_frame (vout_Manage_loops m s inp) = loops_frame s := by
  rw [vout_Manage_loops_eq]
  obtain ⟨h1, h2, _⟩ := vout_Manage_client_spec inp.client_messages
    (vout_Manage_drain m s inp.events).1
  have h : loops_frame (vout_Manage_client (vout_Manage_drain m s inp.events).1
      inp.client_messages) = loops_frame (vout_Manage_drain m s inp.events).1 := by
    simp only [loops_frame, pool_frame, screen_frame, h1, h2]
  rw [h]
  exact vout_Manage_drain_loops_frame m inp.events s false

theorem spec_quit_key_type (e : XEvent) (h : e.type ≠ KeyPress) : spec_quit_key e = false := by
  simp [spec_quit_key, h]

theorem spec_quit_key_named (e : XEvent) (h1 : e.keysym ∈ named_keysyms)
    (h2 : e.keysym ≠ XK_Escape) : spec_quit_key e = false := by
  simp [spec_quit_key, h1, h2]

theorem spec_quit_key_lookup (e : XEvent) (h0 : e.keysym ∉ named_keysyms)
    (h1 : e.lookup ≠ some 'q') (h2 : e.lookup ≠ some 'Q') : spec_quit_key e = false := by
  have h3 : e.keysym ≠ XK_Escape := fun hx => h0 (by rw [hx]; decide)
  simp [spec_quit_key, h1, h2, h3]

theorem vout_Manage_key_die (s : ManageState) (e : XEvent) (hk : e.type = KeyPress) :
    (vout_Manage_key s e).intf.b_die = (s.intf.b_die || spec_quit_key e) := by
  apply vout_Manage_key_elim s e (fun r => r.intf.b_die = (s.intf.b_die || spec_quit_key e))
  case h_esc => intro h; simp [spec_quit_key, hk, h, set_die]
  case h_menu =>
    intro h
    rw [spec_quit_key_named e (by rw [h]; decide) (by rw [h]; decide), Bool.or_false]; rfl
  case h_seek =>
    intro k h
    have : spec_quit_key e = false := by
      simp only [seek_keysyms, List.mem_cons, List.mem_singleton, List.mem_nil_iff,
        or_false] at h
      rcases h with h | h | h | h | h | h <;>
        exact spec_quit_key_named e (by rw [h]; decide) (by rw [h]; decide)
    rw [this, Bool.or_false]; rfl
  case h_home =>
    intro h
    rw [spec_quit_key_named e (by rw [h]; decide) (by rw [h]; decide), Bool.or_false]; rfl
  case h_end =>
    intro h
    rw [spec_quit_key_named e (by rw [h]; decide) (by rw [h]; decide), Bool.or_false]; rfl
  case h_space =>
    intro h
    rw [spec_quit_key_named e (by rw [h]; decide) (by rw [h]; decide), Bool.or_false]; rfl
  case h_none =>
    intro hn h
    rw [spec_quit_key_lookup e hn (by rw [h]; simp) (by rw [h]; simp), Bool.or_false]
  case h_q =>
    intro hn h
    have : spec_quit_key e = true := by
      rcases h with h | h <;> simp [spec_quit_key, hk, hn, h]
    rw [this, Bool.or_true]; rfl
  case h_f =>
    intro hn h
    have : spec_quit_key e = false := by
      rcases h with h | h <;>
        exact spec_quit_key_lookup e hn (by rw [h]; decide) (by rw [h]; decide)
    rw [this, Bool.or_false]; rfl
  case h_digit =>
    intro d hd hn h
    obtain ⟨n1, n2, _, _⟩ := digit_char_ne_letters d hd
    rw [spec_quit_key_lookup e hn (by rw [h]; simpa using n1) (by rw [h]; simpa using n2),
      Bool.or_false]; rfl
  case h_other =>
    intro c hn h hc
    have n1 : c ≠ 'q' := fun hx => hc (by rw [hx]; decide)
    have n2 : c ≠ 'Q' := fun hx => hc (by rw [hx]; decide)
    rw [spec_quit_key_lookup e hn (by rw [h]; simpa using n1) (by rw [h]; simpa using n2),
      Bool.or_false]

theorem vout_Manage_event_die (m : Module) (s : ManageState) (b : Bool) (e : XEvent) :
    (vout_Manage_event m s b e).1.intf.b_die = (s.intf.b_die || spec_quit_key e) := by
  apply vout_Manage_event_elim m s b e
    (fun r => r.1.intf.b_die = (s.intf.b_die || spec_quit_key e))
  case h_key => intro h; exact vout_Manage_key_die s e h
  case h_map =>
    intro h _
    rw [spec_quit_key_type e (by rw [h]; decide), Bool.or_false]
    cases m <;> rfl
  case h_hidden =>
    intro h hv
    rw [spec_quit_key_type e (by rw [h]; decide), Bool.or_false]
    show (ToggleCursor (record_motion s)).intf.b_die = s.intf.b_die
    unfold ToggleCursor
    split <;> rfl
  case h_other =>
    intro h
    rw [spec_quit_key_type e (fun hx => h (by rw [hx]; decide)), Bool.or_false]
  all_goals
    intro h
    intros
    rw [spec_quit_key_type e (by rw [h]; decide), Bool.or_false]
    first | rfl | skip

theorem vout_Manage_drain_die (m : Module) (events : List XEvent) (s : ManageState) (b : Bool) :
    (events.foldl (fun acc e => vout_Manage_event m acc.1 acc.2 e) (s, b)).1.intf.b_die =
      (s.intf.b_die || events.any spec_quit_key) := by
  induction events generalizing s b with
  | nil => simp
  | cons e es ih =>
    simp only [List.foldl_cons, List.any_cons]
    rw [ih, vout_Manage_event_die, Bool.or_assoc]

theorem CreateWindow_wait_isSome (window : Nat) (events : List XWindowEvent)
    (be bc bm : Bool) (size size2 : Int × Int) :
    (CreateWindow_wait window be bc bm size events).isSome =
      (CreateWindow_wait window be bc bm size2 events).isSome := by
  induction events generalizing be bc bm size size2 with
  | nil => rfl
  | cons e es ih =>
    unfold CreateWindow_wait
    by_cases h1 : e.type = Expose ∧ e.window = window
    · simp only [h1, and_self, if_true]
      cases hc : (bc && bm)
      · simp only [Bool.true_and, hc, Bool.false_eq_true, if_false]
        exact ih _ _ _ _ _
      · simp only [Bool.true_and, hc, if_true, Option.isSome_some]
    · simp only [h1, if_false]
      by_cases h2 : e.type = MapNotify ∧ e.window = window
      · simp only [h2, and_self, if_true]
        cases hc : (be && bc && true)
        · simp only [Bool.false_eq_true, if_false]
          exact ih _ _ _ _ _
        · simp only [if_true, Option.isSome_some]
      · simp only [h2, if_false]
        by_cases h3 : e.type = ConfigureNotify ∧ e.window = window
        · simp only [h3, and_self, if_true]
        · simp only [h3, if_false]
          cases hc : (be && bc && bm)
          · simp only [Bool.false_eq_true, if_false]
            exact ih _ _ _ _ _
          · simp only [if_true, Option.isSome_some]

theorem CreateWindow_some {m : Module} {s : ManageState} {events : List XWindowEvent}
    {r : Int × ManageState × List XWindowEvent} (h : CreateWindow m s events = some r) :
    r.1 = 0 ∧ tail_frame r.2.1 = tail_frame s ∧
    r.2.1.vout.b_fullscreen = s.vout.b_fullscreen ∧
    r.2.1.vout.i_changes = s.vout.i_changes ∧
    r.2.1.vout.p_sys.window = s.world.next_id ∧
    CreateWindow_wait s.world.next_id false false false (CreateWindow_size s.vout s.world)
      events = some (recorded_size r.2.1, r.2.2) := by
  unfold CreateWindow at h
  simp only at h
  obtain ⟨o1, o2, o3, o4, o5⟩ := CreateWindow_open_tail s
  have hw : (CreateWindow_open s).vout.p_sys.window = s.world.next_id := o4
  have hsz : ((CreateWindow_open s).vout.p_sys.i_width, (CreateWindow_open s).vout.p_sys.i_height)
      = CreateWindow_size s.vout s.world := o5
  rw [hw, hsz] at h
  cases hwait : CreateWindow_wait s.world.next_id false false false
      (CreateWindow_size s.vout s.world) events with
  | none => rw [hwait] at h; cases h
  | some p =>
    rw [hwait] at h
    obtain ⟨recorded, rest⟩ := p
    simp only [Option.some.injEq] at h
    subst h
    obtain ⟨r1, r2, r3, r4, r5⟩ := CreateWindow_ready_tail m (CreateWindow_open s) recorded
    refine ⟨rfl, r1.trans o1, r2.trans o2, r3.trans o3, r4.trans o4, ?_⟩
    simp only [r5]

theorem CreateWindow_isSome (m : Module) (s : ManageState) (events : List XWindowEvent) :
    (CreateWindow m s events).isSome = true ↔ handshake_completes s.world.next_id events := by
  unfold handshake_completes
  rw [CreateWindow_wait_isSome s.world.next_id events false false false (0, 0)
    ((CreateWindow_open s).vout.p_sys.i_width, (CreateWindow_open s).vout.p_sys.i_height)]
  unfold CreateWindow
  simp only
  have hw : (CreateWindow_open s).vout.p_sys.window = s.world.next_id := rfl
  rw [hw]
  cases CreateWindow_wait s.world.next_id false false false
      ((CreateWindow_open s).vout.p_sys.i_width, (CreateWindow_open s).vout.p_sys.i_height)
      events <;> simp

/-- The state in which `vout_Manage` calls `CreateWindow` when a fullscreen
change is pending: the flag is cleared, `b_fullscreen` is inverted and the old
window is destroyed. -/
theorem vout_Manage_fullscreen_some {m : Module} {s : ManageState}
    {handshake : List XWindowEvent} {r : Int × ManageState}
    (h : vout_Manage_fullscreen m s handshake = some r) :
    r.1 = 0 ∧ tail_frame r.2 = tail_frame s ∧
    (s.vout.i_changes &&& VOUT_FULLSCREEN_CHANGE = 0 → r.2 = s) ∧
    (s.vout.i_changes &&& VOUT_FULLSCREEN_CHANGE ≠ 0 →
      r.2.vout.b_fullscreen = (!s.vout.b_fullscreen) ∧
      r.2.vout.i_changes = clear_flag s.vout.i_changes VOUT_FULLSCREEN_CHANGE ∧
      r.2.vout.p_sys.window = s.world.next_id ∧
      ∃ rest, CreateWindow_wait s.world.next_id false false false
        (CreateWindow_size { s.vout with b_fullscreen := !s.vout.b_fullscreen } s.world)
        handshake = some (recorded_size r.2, rest)) := by
  unfold vout_Manage_fullscreen at h
  by_cases hf : s.vout.i_changes &&& VOUT_FULLSCREEN_CHANGE ≠ 0
  · rw [if_pos hf] at h
    simp only at h
    cases hc : CreateWindow m (DestroyWindow m
        { s with vout := { s.vout with
            i_changes := clear_flag s.vout.i_changes VOUT_FULLSCREEN_CHANGE,
            b_fullscreen := !s.vout.b_fullscreen } }) handshake with
    | none => rw [hc] at h; cases h
    | some q =>
      rw [hc] at h
      obtain ⟨c1, c2, c3, c4, c5, c6⟩ := CreateWindow_some hc
      obtain ⟨d1, d2, d3⟩ := DestroyWindow_tail m
        { s with vout := { s.vout with
            i_changes := clear_flag s.vout.i_changes VOUT_FULLSCREEN_CHANGE,
            b_fullscreen := !s.vout.b_fullscreen } }
      obtain ⟨ret, s2, rest⟩ := q
      simp only at c1 c2 c3 c4 c5 c6
      subst c1
      simp only [ne_eq, not_true_eq_false, if_false, Option.some.injEq] at h
      subst h
      rw [d2] at c3 c4
      rw [d3] at c5 c6
      refine ⟨rfl, ?_, fun h0 => absurd h0 hf, fun _ => ⟨c3, c4, c5, rest, ?_⟩⟩
      · rw [c2, d1]; rfl
      · rw [← c6]
        have hsize : CreateWindow_size (DestroyWindow m
            { s with vout := { s.vout with
              i_changes := clear_flag s.vout.i_changes VOUT_FULLSCREEN_CHANGE,
              b_fullscreen := !s.vout.b_fullscreen } }).vout (DestroyWindow m
            { s with vout := { s.vout with
              i_changes := clear_flag s.vout.i_changes VOUT_FULLSCREEN_CHANGE,
              b_fullscreen := !s.vout.b_fullscreen } }).world =
            CreateWindow_size { s.vout with b_fullscreen := !s.vout.b_fullscreen } s.world := by
          have hd := congrArg (fun t => t.2.2.1) d1
          simp only [tail_frame, screen_frame] at hd
          have hw := congrArg (fun t : _ × _ × _ => t.2.1) hd
          have hh := congrArg (fun t : _ × _ × _ => t.2.2) hd
          simp only at hw hh
          rw [d2]
          unfold CreateWindow_size
          simp only [hw, hh]
        rw [hsize]
  · rw [if_neg hf] at h
    simp only [Option.some.injEq] at h
    subst h
    exact ⟨rfl, rfl, fun _ => rfl, fun h1 => absurd h1 hf⟩

theorem vout_Manage_fullscreen_isSome (m : Module) (s : ManageState)
    (handshake : List XWindowEvent)
    (h : s.vout.i_changes &&& VOUT_FULLSCREEN_CHANGE = 0 ∨
      handshake_completes s.world.next_id handshake) :
    ∃ s2, vout_Manage_fullscreen m s handshake = some (0, s2) := by
  unfold vout_Manage_fullscreen
  by_cases hf : s.vout.i_changes &&& VOUT_FULLSCREEN_CHANGE ≠ 0
  · rw [if_pos hf]
    simp only
    rcases h with h | h
    · exact absurd h hf
    · obtain ⟨_, _, d3⟩ := DestroyWindow_tail m
        { s with vout := { s.vout with
            i_changes := clear_flag s.vout.i_changes VOUT_FULLSCREEN_CHANGE,
            b_fullscreen := !s.vout.b_fullscreen } }
      have hs := (CreateWindow_isSome m (DestroyWindow m
        { s with vout := { s.vout with
            i_changes := clear_flag s.vout.i_changes VOUT_FULLSCREEN_CHANGE,
            b_fullscreen := !s.vout.b_fullscreen } }) handshake).mpr (by rw [d3]; exact h)
      cases hc : CreateWindow m (DestroyWindow m
          { s with vout := { s.vout with
              i_changes := clear_flag s.vout.i_changes VOUT_FULLSCREEN_CHANGE,
              b_fullscreen := !s.vout.b_fullscreen } }) handshake with
      | none => rw [hc] at hs; cases hs
      | some q =>
        obtain ⟨c1, _⟩ := CreateWindow_some hc
        obtain ⟨ret, s2, rest⟩ := q
        simp only at c1
        subst c1
        exact ⟨s2, by simp⟩
  · rw [if_neg hf]
    exact ⟨s, rfl⟩

theorem vout_Manage_some {m : Module} {s : ManageState} {inp : ManageInput}
    {r : Int × ManageState} (h : vout_Manage m s inp = some r) :
    r.1 = 0 ∧
    ∃ s4, vout_Manage_fullscreen m (vout_Manage_loops m s inp) inp.handshake = some (0, s4) ∧
      r.2 = vout_Manage_autohide (vout_Manage_size m s4) := by
  unfold vout_Manage at h
  cases hc : vout_Manage_fullscreen m (vout_Manage_loops m s inp) inp.handshake with
  | none => rw [hc] at h; cases h
  | some q =>
    rw [hc] at h
    obtain ⟨c1, _⟩ := vout_Manage_fullscreen_some hc
    obtain ⟨ret, s4⟩ := q
    simp only at c1
    subst c1
    simp only [ne_eq, not_true_eq_false, if_false, Option.some.injEq] at h
    subst h
    exact ⟨rfl, s4, rfl, rfl⟩

theorem vout_Manage_returns (m : Module) (s : ManageState) (inp : ManageInput)
    (h : (vout_Manage_loops m s inp).vout.i_changes &&& VOUT_FULLSCREEN_CHANGE = 0 ∨
      handshake_completes s.world.next_id inp.handshake) :
    ∃ s2, vout_Manage m s inp = some (0, s2) := by
  have hn : (vout_Manage_loops m s inp).world.next_id = s.world.next_id := by
    have := congrArg (fun t => t.2.2.2.2.2.2.1) (vout_Manage_loops_frame m s inp)
    exact this
  obtain ⟨s4, h4⟩ := vout_Manage_fullscreen_isSome m (vout_Manage_loops m s inp) inp.handshake
    (by rw [hn]; exact h)
  refine ⟨vout_Manage_autohide (vout_Manage_size m s4), ?_⟩
  unfold vout_Manage
  rw [h4]
  simp

theorem clear_flag_and_self (x flag : Nat) : clear_flag x flag &&& flag = 0 := by
  unfold clear_flag
  rw [Nat.and_xor_distrib_right, Nat.and_assoc, Nat.and_self, Nat.xor_self]

theorem clear_flag_and_other (x flag other : Nat) (h : flag &&& other = 0) :
    clear_flag x flag &&& other = x &&& other := by
  unfold clear_flag
  rw [Nat.and_xor_distrib_right, Nat.and_assoc, h, Nat.and_zero, Nat.xor_zero]

theorem or_flag_and_other (x flag other : Nat) (h : flag &&& other = 0) :
    (x ||| flag) &&& other = x &&& other := by
  rw [Nat.and_distrib_right, h, Nat.or_zero]

theorem fullscreen_and_size : VOUT_FULLSCREEN_CHANGE &&& VOUT_SIZE_CHANGE = 0 := by decide

theorem or_fullscreen_ne_zero (x : Nat) :
    (x ||| VOUT_FULLSCREEN_CHANGE) &&& VOUT_FULLSCREEN_CHANGE ≠ 0 := by
  intro h
  have h2 := congrArg (fun n => Nat.testBit n 6) h
  have h64 : Nat.testBit VOUT_FULLSCREEN_CHANGE 6 = true := by decide
  simp only [Nat.testBit_and, Nat.testBit_or, h64, Bool.or_true, Bool.and_self,
    Nat.zero_testBit] at h2
  exact absurd h2 (by decide)

theorem vout_Manage_tail {m : Module} {s : ManageState} {inp : ManageInput}
    {r : Int × ManageState} (h : vout_Manage m s inp = some r) :
    r.1 = 0 ∧ tail_frame r.2 = tail_frame (vout_Manage_loops m s inp) := by
  obtain ⟨h0, s4, h4, hr⟩ := vout_Manage_some h
  obtain ⟨_, f2, _, _⟩ := vout_Manage_fullscreen_some h4
  refine ⟨h0, ?_⟩
  rw [hr, (vout_Manage_autohide_tail _).1, (vout_Manage_size_tail m s4).1]
  exact f2

theorem spec_quit_message_congr (a b : vout_sys_t) (h1 : a.wm_protocols = b.wm_protocols)
    (h2 : a.wm_delete_window = b.wm_delete_window) :
    spec_quit_message a = spec_quit_message b := by
  funext c
  simp only [spec_quit_message, h1, h2]

theorem vout_Manage_loops_die (m : Module) (s : ManageState) (inp : ManageInput) :
    (vout_Manage_loops m s inp).intf.b_die =
      (s.intf.b_die || inp.events.any spec_quit_key ||
        inp.client_messages.any (spec_quit_message s.vout.p_sys)) := by
  rw [vout_Manage_loops_eq]
  obtain ⟨_, _, h3⟩ := vout_Manage_client_spec inp.client_messages
    (vout_Manage_drain m s inp.events).1
  rw [h3]
  have hf := vout_Manage_drain_loops_frame m inp.events s false
  have hp : (vout_Manage_drain m s inp.events).1.vout.p_sys.wm_protocols =
      s.vout.p_sys.wm_protocols := congrArg (fun t => t.2.2.2.2.1) hf
  have hd : (vout_Manage_drain m s inp.events).1.vout.p_sys.wm_delete_window =
      s.vout.p_sys.wm_delete_window := congrArg (fun t => t.2.2.2.2.2.1) hf
  rw [spec_quit_message_congr _ _ hp hd]
  show ((vout_Manage_drain m s inp.events).1.intf.b_die ||
    inp.client_messages.any (spec_quit_message s.vout.p_sys)) = _
  have hdie := vout_Manage_drain_die m inp.events s false
  unfold vout_Manage_drain
  rw [hdie]

theorem vout_Manage_loops_next_id (m : Module) (s : ManageState) (inp : ManageInput) :
    (vout_Manage_loops m s inp).world.next_id = s.world.next_id :=
  congrArg (fun t => t.2.2.2.2.2.2.1) (vout_Manage_loops_frame m s inp)

theorem vout_Manage_loops_pool (m : Module) (s : ManageState) (inp : ManageInput) :
    pool_frame (vout_Manage_loops m s inp) = pool_frame s :=
  congrArg (fun t => t.1) (vout_Manage_loops_frame m s inp)

/-- C11: starting from a clear quit flag, a `vout_Manage` cycle returns as soon
as no fullscreen change is pending after the event loops or the events of the
new window let `CreateWindow` return, and whenever it returns the quit request
`b_die` is set if and only if the drained events contain a key press of Escape
or a key press whose looked-up character is 'q' or 'Q', or the client messages
contain one whose type is the session's `WM_PROTOCOLS` atom and whose first
datum is its `WM_DELETE_WINDOW` atom. The character of a key is looked up only
for keys without a case of their own (`spec_quit_key`); when those keys never
look up 'q' or 'Q' this is the character of every key press
(`spec_quit_key_literal`). -/
theorem vout_Manage_quit (m : Module) (s : ManageState) (inp : ManageInput)
    (hdie : s.intf.b_die = false) :
    (((vout_Manage_loops m s inp).vout.i_changes &&& VOUT_FULLSCREEN_CHANGE = 0 ∨
        handshake_completes s.world.next_id inp.handshake) →
      ∃ s2, vout_Manage m s inp = some (0, s2)) ∧
    (∀ r, vout_Manage m s inp = some r →
      (r.2.intf.b_die = true ↔
        (inp.events.any spec_quit_key = true ∨
          inp.client_messages.any (spec_quit_message s.vout.p_sys) = true))) ∧
    ((∀ e ∈ inp.events, e.keysym ∈ named_keysyms →
        e.lookup ≠ some 'q' ∧ e.lookup ≠ some 'Q') →
      inp.events.any spec_quit_key = inp.events.any spec_quit_key_literal) := by
  refine ⟨vout_Manage_returns m s inp, ?_, ?_⟩
  · intro r h
    obtain ⟨_, ht⟩ := vout_Manage_tail h
    have hi : r.2.intf = (vout_Manage_loops m s inp).intf := congrArg (fun t => t.1) ht
    rw [hi, vout_Manage_loops_die, hdie, Bool.false_or, Bool.or_eq_true]
  · intro hw
    have hpt : ∀ e ∈ inp.events, spec_quit_key e = spec_quit_key_literal e := by
      intro e he
      by_cases hn : e.keysym ∈ named_keysyms
      · obtain ⟨h1, h2⟩ := hw e he hn
        simp [spec_quit_key, spec_quit_key_literal, hn, h1, h2]
      · have h3 : e.keysym ≠ XK_Escape := fun hx => hn (by rw [hx]; decide)
        simp [spec_quit_key, spec_quit_key_literal, hn, h3]
    generalize inp.events = l at hpt
    induction l with
    | nil => rfl
    | cons e es ih =>
      simp only [List.any_cons]
      rw [hpt e (List.mem_cons_self _ _), ih (fun x hx => hpt x (List.mem_cons_of_mem _ hx))]

theorem vout_Manage_quit_witness :
    (session_state 64 64).intf.b_die = false ∧
    (∃ s2, vout_Manage Module.x11 (session_state 64 64) escape_input = some (0, s2)) ∧
    (vout_Manage Module.x11 (session_state 64 64) escape_input).map
      (fun r => r.2.intf.b_die) = some true ∧
    escape_input.events.any spec_quit_key = true :=
  ⟨by decide,
   (vout_Manage_quit Module.x11 (session_state 64 64) escape_input (by decide)).1
     (Or.inl (by decide)),
   by decide, by decide⟩

theorem seek_keysyms_named {k : Nat} (h : k ∈ seek_keysyms) : k ∈ named_keysyms := by
  simp only [seek_keysyms, List.mem_cons, List.mem_singleton, List.mem_nil_iff, or_false] at h
  rcases h with h | h | h | h | h | h <;> rw [h] <;> decide

theorem vout_Manage_key_unhandled (s : ManageState) (e : XEvent)
    (hn : e.keysym ∉ named_keysyms)
    (hl : e.lookup.all (fun c => decide (c ∉ recognised_chars)) = true) :
    vout_Manage_key s e = s := by
  have hne : ∀ k ∈ named_keysyms, e.keysym ≠ k := fun k hk hx => hn (hx ▸ hk)
  apply vout_Manage_key_elim s e (fun r => r = s)
  case h_esc => intro h; exact absurd h (hne _ (by decide))
  case h_menu => intro h; exact absurd h (hne _ (by decide))
  case h_seek =>
    intro _ h
    exact absurd (seek_keysyms_named h) hn
  case h_home => intro h; exact absurd h (hne _ (by decide))
  case h_end => intro h; exact absurd h (hne _ (by decide))
  case h_space => intro h; exact absurd h (hne _ (by decide))
  case h_none => intro _ _; rfl
  case h_q =>
    intro _ h
    rcases h with h | h <;> rw [h] at hl <;> exact absurd hl (by decide)
  case h_f =>
    intro _ h
    rcases h with h | h <;> rw [h] at hl <;> exact absurd hl (by decide)
  case h_digit =>
    intro d hd _ h
    rw [h] at hl
    have := digit_char_recognised d hd
    simp only [Option.all_some, decide_eq_true_eq] at hl
    exact absurd this hl
  case h_other => intro _ _ _ _; rfl

theorem vout_Manage_event_unhandled (m : Module) (s : ManageState) (b : Bool) (e : XEvent)
    (h : spec_unhandled e = true) : vout_Manage_event m s b e = (s, b) := by
  simp only [spec_unhandled, Bool.or_eq_true, Bool.and_eq_true, decide_eq_true_eq] at h
  have key : e.type = KeyPress → vout_Manage_key s e = s := by
    intro hk
    rcases h with ((h | h) | h) | h
    · exact vout_Manage_key_unhandled s e h.1.2 h.2
    · rw [hk] at h; exact absurd h.1 (by decide)
    · rw [hk] at h; exact absurd h.1 (by decide)
    · rw [hk] at h; exact absurd h (by decide)
  have nottype : ∀ t, t ∈ handled_types → t ≠ KeyPress → t ≠ ButtonPress →
      t ≠ ButtonRelease → e.type ≠ t := by
    intro t ht h1 h2 h3 hx
    rcases h with ((h | h) | h) | h
    · rw [hx] at h; exact h1 h.1.1
    · rw [hx] at h; exact h2 h.1
    · rw [hx] at h; exact h3 h.1
    · rw [hx] at h; exact h ht
  have press : e.type = ButtonPress → e.button ∉ [Button1, Button4, Button5] := by
    intro hk
    rcases h with ((h | h) | h) | h
    · rw [hk] at h; exact absurd h.1.1 (by decide)
    · exact h.2
    · rw [hk] at h; exact absurd h.1 (by decide)
    · rw [hk] at h; exact absurd h (by decide)
  have release : e.type = ButtonRelease → e.button ≠ Button3 := by
    intro hk
    rcases h with ((h | h) | h) | h
    · rw [hk] at h; exact absurd h.1.1 (by decide)
    · rw [hk] at h; exact absurd h.1 (by decide)
    · exact h.2
    · rw [hk] at h; exact absurd h (by decide)
  apply vout_Manage_event_elim m s b e (fun r => r = (s, b))
  case h_cfg =>
    intro h1 _
    exact absurd h1 (nottype _ (by decide) (by decide) (by decide) (by decide))
  case h_same => intro _ _ _; rfl
  case h_map =>
    intro h1 _
    exact absurd h1 (nottype _ (by decide) (by decide) (by decide) (by decide))
  case h_map0 => intro _ _; rfl
  case h_unmap =>
    intro h1 _
    exact absurd h1 (nottype _ (by decide) (by decide) (by decide) (by decide))
  case h_unmap0 => intro _ _; rfl
  case h_key => intro hk; rw [key hk]
  case h_b1 => intro hk hb; exact absurd (by rw [hb]; decide) (press hk)
  case h_b4 => intro hk hb; exact absurd (by rw [hb]; decide) (press hk)
  case h_b5 => intro hk hb; exact absurd (by rw [hb]; decide) (press hk)
  case h_b => intro _ _ _ _; rfl
  case h_r3 => intro hk hb; exact absurd hb (release hk)
  case h_r => intro _ _; rfl
  case h_hidden =>
    intro h1 _
    exact absurd h1 (nottype _ (by decide) (by decide) (by decide) (by decide))
  case h_visible =>
    intro h1 _
    exact absurd h1 (nottype _ (by decide) (by decide) (by decide) (by decide))
  case h_other => intro _; rfl

theorem vout_Manage_drain_unhandled (m : Module) (events : List XEvent) (s : ManageState)
    (b : Bool) (h : ∀ e ∈ events, spec_unhandled e = true) :
    events.foldl (fun acc e => vout_Manage_event m acc.1 acc.2 e) (s, b) = (s, b) := by
  induction events with
  | nil => rfl
  | cons e es ih =>
    simp only [List.foldl_cons]
    rw [vout_Manage_event_unhandled m s b e (h e (List.mem_cons_self _ _))]
    exact ih (fun x hx => h x (List.mem_cons_of_mem _ hx))

theorem vout_Manage_client_event_other (s : ManageState) (c : XClientMessageEvent)
    (h : spec_quit_message s.vout.p_sys c = false) : vout_Manage_client_event s c = s := by
  rw [vout_Manage_client_event_eq]
  simp only [spec_quit_message, decide_eq_false_iff_not] at h
  rw [if_neg h]

theorem vout_Manage_client_other (msgs : List XClientMessageEvent) (s : ManageState)
    (h : ∀ c ∈ msgs, spec_quit_message s.vout.p_sys c = false) :
    vout_Manage_client s msgs = s := by
  unfold vout_Manage_client
  induction msgs with
  | nil => rfl
  | cons c cs ih =>
    simp only [List.foldl_cons]
    rw [vout_Manage_client_event_other s c (h c (List.mem_cons_self _ _))]
    exact ih (fun x hx => h x (List.mem_cons_of_mem _ hx))

theorem vout_Manage_fullscreen_idle (m : Module) (s : ManageState)
    (handshake : List XWindowEvent) (h : s.vout.i_changes &&& VOUT_FULLSCREEN_CHANGE = 0) :
    vout_Manage_fullscreen m s handshake = some (0, s) := by
  unfold vout_Manage_fullscreen
  rw [if_neg (by rw [h]; exact fun hx => hx rfl)]

theorem vout_Manage_idle (m : Module) (s : ManageState) (inp : ManageInput)
    (h : (vout_Manage_loops m s inp).vout.i_changes &&& VOUT_FULLSCREEN_CHANGE = 0) :
    vout_Manage m s inp =
      some (0, vout_Manage_autohide (vout_Manage_size m (vout_Manage_loops m s inp))) := by
  unfold vout_Manage
  rw [vout_Manage_fullscreen_idle m _ _ h]
  simp

/-- C12: a key press that is neither a named key nor a key with a recognised
character, a press of a button other than 1, 4 and 5, a release of a button
other than 3, and an event of a type without a branch (`spec_unhandled`) each
leave the whole state as it was, and so does a client message that does not
carry the two atoms of the session. A cycle that delivers only such input
leaves the state unchanged up to its two closing steps, returns 0 whenever it
returns, and returns when no fullscreen change is pending. -/
theorem vout_Manage_unhandled (m : Module) (s : ManageState) (inp : ManageInput)
    (he : ∀ e ∈ inp.events, spec_unhandled e = true)
    (hc : ∀ c ∈ inp.client_messages, spec_quit_message s.vout.p_sys c = false) :
    (∀ e ∈ inp.events, ∀ b, vout_Manage_event m s b e = (s, b)) ∧
    (∀ c ∈ inp.client_messages, vout_Manage_client_event s c = s) ∧
    vout_Manage_loops m s inp = s ∧
    (∀ r, vout_Manage m s inp = some r → r.1 = 0) ∧
    (s.vout.i_changes &&& VOUT_FULLSCREEN_CHANGE = 0 →
      vout_Manage m s inp = some (0, vout_Manage_autohide (vout_Manage_size m s))) := by
  have hl : vout_Manage_loops m s inp = s := by
    rw [vout_Manage_loops_eq]
    unfold vout_Manage_drain
    rw [vout_Manage_drain_unhandled m inp.events s false he]
    exact vout_Manage_client_other inp.client_messages s hc
  refine ⟨fun e h b => vout_Manage_event_unhandled m s b e (he e h),
    fun c h => vout_Manage_client_event_other s c (hc c h), hl,
    fun r h => (vout_Manage_tail h).1, ?_⟩
  intro hf
  have := vout_Manage_idle m s inp (by rw [hl]; exact hf)
  rw [hl] at this
  exact this

theorem vout_Manage_unhandled_witness :
    (∀ e ∈ unhandled_input.events, spec_unhandled e = true) ∧
    (∀ c ∈ unhandled_input.client_messages,
      spec_quit_message (session_state 64 64).vout.p_sys c = false) ∧
    vout_Manage_loops Module.x11 (session_state 64 64) unhandled_input = session_state 64 64 ∧
    vout_Manage Module.x11 (session_state 64 64) unhandled_input =
      some (0, vout_Manage_autohide (vout_Manage_size Module.x11 (session_state 64 64))) :=
  ⟨by decide, by decide,
   (vout_Manage_unhandled Module.x11 (session_state 64 64) unhandled_input (by decide)
     (by decide)).2.2.1,
   (vout_Manage_unhandled Module.x11 (session_state 64 64) unhandled_input (by decide)
     (by decide)).2.2.2.2 (by decide)⟩

theorem vout_Manage_key_size_flag (s : ManageState) (e : XEvent) :
    (vout_Manage_key s e).vout.i_changes &&& VOUT_SIZE_CHANGE =
      s.vout.i_changes &&& VOUT_SIZE_CHANGE := by
  apply vout_Manage_key_elim s e
    (fun r => r.vout.i_changes &&& VOUT_SIZE_CHANGE = s.vout.i_changes &&& VOUT_SIZE_CHANGE)
  case h_f =>
    intro _ _
    exact or_flag_and_other _ _ _ fullscreen_and_size
  all_goals intros; rfl

theorem vout_Manage_event_size_flag (m : Module) (s : ManageState) (b : Bool) (e : XEvent) :
    (vout_Manage_event m s b e).1.vout.i_changes &&& VOUT_SIZE_CHANGE =
      s.vout.i_changes &&& VOUT_SIZE_CHANGE := by
  apply vout_Manage_event_elim m s b e
    (fun r => r.1.vout.i_changes &&& VOUT_SIZE_CHANGE = s.vout.i_changes &&& VOUT_SIZE_CHANGE)
  case h_key => intro _; exact vout_Manage_key_size_flag s e
  case h_map => intro _ _; cases m <;> rfl
  case h_hidden =>
    intro _ _
    rw [(ToggleCursor_tail _).2.2.1]
    rfl
  all_goals intros; rfl

theorem vout_Manage_drain_size_flag (m : Module) (events : List XEvent) (s : ManageState)
    (b : Bool) :
    (events.foldl (fun acc e => vout_Manage_event m acc.1 acc.2 e) (s, b)).1.vout.i_changes &&&
      VOUT_SIZE_CHANGE = s.vout.i_changes &&& VOUT_SIZE_CHANGE := by
  induction events generalizing s b with
  | nil => rfl
  | cons e es ih =>
    simp only [List.foldl_cons]
    rw [ih, vout_Manage_event_size_flag]

theorem vout_Manage_loops_size_flag (m : Module) (s : ManageState) (inp : ManageInput) :
    (vout_Manage_loops m s inp).vout.i_changes &&& VOUT_SIZE_CHANGE =
      s.vout.i_changes &&& VOUT_SIZE_CHANGE := by
  rw [vout_Manage_loops_eq, (vout_Manage_client_spec _ _).1]
  exact vout_Manage_drain_size_flag m inp.events s false

theorem vout_Manage_fullscreen_size_flag {m : Module} {s : ManageState}
    {handshake : List XWindowEvent} {r : Int × ManageState}
    (h : vout_Manage_fullscreen m s handshake = some r) :
    r.2.vout.i_changes &&& VOUT_SIZE_CHANGE = s.vout.i_changes &&& VOUT_SIZE_CHANGE := by
  obtain ⟨_, _, f3, f4⟩ := vout_Manage_fullscreen_some h
  by_cases hf : s.vout.i_changes &&& VOUT_FULLSCREEN_CHANGE = 0
  · rw [f3 hf]
  · rw [(f4 hf).2.1]
    exact clear_flag_and_other _ _ _ fullscreen_and_size

theorem vout_Manage_size_flag (m : Module) (s : ManageState) :
    (m = Module.xvideo → (vout_Manage_size m s).vout.i_changes &&& VOUT_SIZE_CHANGE = 0) ∧
    (m = Module.x11 → vout_Manage_size m s = s) := by
  cases m
  · exact ⟨fun h => (by cases h), fun _ => rfl⟩
  · refine ⟨fun _ => ?_, fun h => (by cases h)⟩
    unfold vout_Manage_size
    simp only
    by_cases hs : s.vout.i_changes &&& VOUT_SIZE_CHANGE ≠ 0
    · rw [if_pos hs]
      exact clear_flag_and_self _ _
    · rw [if_neg hs]
      exact not_not.mp hs

/-- C13 (amended): the test at the end of a `vout_Manage` cycle is strict. Let
`s3` be the state in which the cycle reaches the test of line 863. If more
than 2,000,000 microseconds have passed since the last recorded pointer motion
and the cursor is visible, the cycle does one `ToggleCursor`: the visibility
flag becomes false and the window gets the blank cursor. If at most 2,000,000
microseconds have passed, the cycle ends in `s3`, cursor untouched. In a cycle
without events of the main window and without a pending fullscreen change,
`s3` has the clock, the motion time and the flag of the state the cycle
started in. -/
theorem vout_Manage_autohide_strict (m : Module) (s : ManageState) (inp : ManageInput)
    (r : Int × ManageState) (h : vout_Manage m s inp = some r) :
    ∃ s3,
      (∃ s4, vout_Manage_fullscreen m (vout_Manage_loops m s inp) inp.handshake = some (0, s4) ∧
        s3 = vout_Manage_size m s4) ∧
      r.2 = vout_Manage_autohide s3 ∧
      (autohide_elapsed s3 > 2000000 → s3.vout.p_sys.b_mouse_pointer_visible = true →
        r.2 = ToggleCursor s3 ∧ r.2.vout.p_sys.b_mouse_pointer_visible = false ∧
        r.2.world.cursor_blank = true) ∧
      (autohide_elapsed s3 ≤ 2000000 → r.2 = s3) ∧
      (inp.events = [] → s.vout.i_changes &&& VOUT_FULLSCREEN_CHANGE = 0 →
        s3.vout.p_sys = s.vout.p_sys ∧ s3.world = s.world) := by
  obtain ⟨_, s4, h4, hr⟩ := vout_Manage_some h
  obtain ⟨a1, a2, _⟩ := vout_Manage_autohide_spec (vout_Manage_size m s4)
  refine ⟨vout_Manage_size m s4, ⟨s4, h4, rfl⟩, hr, ?_, ?_, ?_⟩
  · intro ht hv
    rw [hr]
    exact a1 ht hv
  · intro ht
    rw [hr]
    exact a2 ht
  · intro he hf
    have hl : (vout_Manage_loops m s inp).vout = s.vout ∧
        (vout_Manage_loops m s inp).world = s.world := by
      rw [vout_Manage_loops_eq, he]
      obtain ⟨c1, c2, _⟩ := vout_Manage_client_spec inp.client_messages
        (vout_Manage_drain m s []).1
      exact ⟨c1, c2⟩
    have h5 := vout_Manage_fullscreen_idle m (vout_Manage_loops m s inp) inp.handshake
      (by rw [hl.1]; exact hf)
    rw [h5] at h4
    simp only [Option.some.injEq, Prod.mk.injEq, true_and] at h4
    subst h4
    obtain ⟨_, _, _, t4, t5⟩ := vout_Manage_size_tail m (vout_Manage_loops m s inp)
    rw [t4, t5, hl.1, hl.2]
    exact ⟨rfl, rfl⟩

theorem vout_Manage_autohide_strict_witness :
    ∃ s3,
      (∃ s4, vout_Manage_fullscreen Module.x11
          (vout_Manage_loops Module.x11 (state_at 2000001) no_input) no_input.handshake =
            some (0, s4) ∧
        s3 = vout_Manage_size Module.x11 s4) ∧
      (0, vout_Manage_autohide (vout_Manage_size Module.x11
          (vout_Manage_loops Module.x11 (state_at 2000001) no_input))).2 =
        vout_Manage_autohide s3 ∧
      (autohide_elapsed s3 > 2000000 → s3.vout.p_sys.b_mouse_pointer_visible = true →
        (0, vout_Manage_autohide (vout_Manage_size Module.x11
          (vout_Manage_loops Module.x11 (state_at 2000001) no_input))).2 = ToggleCursor s3 ∧
        (0, vout_Manage_autohide (vout_Manage_size Module.x11
          (vout_Manage_loops Module.x11 (state_at 2000001) no_input))).2.vout.p_sys.b_mouse_pointer_visible
          = false ∧
        (0, vout_Manage_autohide (vout_Manage_size Module.x11
          (vout_Manage_loops Module.x11 (state_at 2000001) no_input))).2.world.cursor_blank
          = true) ∧
      (autohide_elapsed s3 ≤ 2000000 →
        (0, vout_Manage_autohide (vout_Manage_size Module.x11
          (vout_Manage_loops Module.x11 (state_at 2000001) no_input))).2 = s3) ∧
      (no_input.events = [] →
        (state_at 2000001).vout.i_changes &&& VOUT_FULLSCREEN_CHANGE = 0 →
        s3.vout.p_sys = (state_at 2000001).vout.p_sys ∧ s3.world = (state_at 2000001).world) :=
  vout_Manage_autohide_strict Module.x11 (state_at 2000001) no_input
    (0, vout_Manage_autohide (vout_Manage_size Module.x11
      (vout_Manage_loops Module.x11 (state_at 2000001) no_input)))
    (vout_Manage_idle Module.x11 (state_at 2000001) no_input (by decide))

theorem vout_Manage_after_two_seconds :
    autohide_elapsed (state_at 2000001) = 2000001 ∧
    (state_at 2000001).vout.p_sys.b_mouse_pointer_visible = true ∧
    (vout_Manage Module.x11 (state_at 2000001) no_input).map
      (fun r => r.2.vout.p_sys.b_mouse_pointer_visible) = some false ∧
    (vout_Manage Module.x11 (state_at 2000001) no_input).map
      (fun r => r.2.world.cursor_blank) = some true := by
  decide

/-- C13 as stated fails at t = 2 seconds: when exactly 2,000,000 microseconds
have passed since the last recorded motion and the cursor is visible, a cycle
of either build returns 0 and leaves the cursor visible. -/
theorem vout_Manage_two_seconds_visible :
    autohide_elapsed (state_at 2000000) = 2000000 ∧
    (state_at 2000000).vout.p_sys.b_mouse_pointer_visible = true ∧
    (vout_Manage Module.x11 (state_at 2000000) no_input).map (fun r => r.1) = some 0 ∧
    (vout_Manage Module.x11 (state_at 2000000) no_input).map
      (fun r => r.2.vout.p_sys.b_mouse_pointer_visible) = some true ∧
    (vout_Manage Module.xvideo (state_at 2000000) no_input).map
      (fun r => r.2.vout.p_sys.b_mouse_pointer_visible) = some true ∧
    (vout_Manage Module.x11 (state_at 2000000) no_input).map
      (fun r => r.2.world.cursor_blank) = some false := by
  decide

/-- C16 (amended): a `vout_Manage` cycle never ends or initialises the picture
pool. Whenever a cycle returns it returns 0, and the output dimensions, the
picture table and every handle the pool owns are what they were before the
cycle, whatever the size-change flag and the drained `ConfigureNotify` events
were. The xvideo build leaves the cycle with the size-change flag clear; the
x11 build, whose resize code is compiled out, leaves the flag as it found
it. -/
theorem vout_Manage_no_resize (m : Module) (s : ManageState) (inp : ManageInput)
    (r : Int × ManageState) (h : vout_Manage m s inp = some r) :
    r.1 = 0 ∧ pool_frame r.2 = pool_frame s ∧ r.2.vout.render = s.vout.render ∧
    (m = Module.xvideo → r.2.vout.i_changes &&& VOUT_SIZE_CHANGE = 0) ∧
    (m = Module.x11 →
      r.2.vout.i_changes &&& VOUT_SIZE_CHANGE = s.vout.i_changes &&& VOUT_SIZE_CHANGE) := by
  obtain ⟨h0, ht⟩ := vout_Manage_tail h
  obtain ⟨_, s4, h4, hr⟩ := vout_Manage_some h
  have hp : pool_frame r.2 = pool_frame (vout_Manage_loops m s inp) :=
    congrArg (fun t => t.2.1) ht
  have hs : screen_frame r.2 = screen_frame (vout_Manage_loops m s inp) :=
    congrArg (fun t => t.2.2.1) ht
  have hs2 : screen_frame (vout_Manage_loops m s inp) = screen_frame s :=
    congrArg (fun t => t.2.1) (vout_Manage_loops_frame m s inp)
  have h5 := vout_Manage_fullscreen_size_flag h4
  rw [vout_Manage_loops_size_flag] at h5
  simp only at h5
  obtain ⟨z1, z2⟩ := vout_Manage_size_flag m s4
  refine ⟨h0, hp.trans (vout_Manage_loops_pool m s inp),
    congrArg (fun t => t.1) (hs.trans hs2), ?_, ?_⟩
  · intro hm
    rw [hr, (vout_Manage_autohide_tail _).2.2.1]
    exact z1 hm
  · intro hm
    rw [hr, (vout_Manage_autohide_tail _).2.2.1, z2 hm]
    exact h5

theorem vout_Manage_no_resize_witness :
    (0, vout_Manage_autohide (vout_Manage_size Module.xvideo
        (vout_Manage_loops Module.xvideo resize_state resize_input))).1 = (0 : Int) ∧
    pool_frame (0, vout_Manage_autohide (vout_Manage_size Module.xvideo
        (vout_Manage_loops Module.xvideo resize_state resize_input))).2 =
      pool_frame resize_state ∧
    (0, vout_Manage_autohide (vout_Manage_size Module.xvideo
        (vout_Manage_loops Module.xvideo resize_state resize_input))).2.vout.render =
      resize_state.vout.render ∧
    (Module.xvideo = Module.xvideo →
      (0, vout_Manage_autohide (vout_Manage_size Module.xvideo
        (vout_Manage_loops Module.xvideo resize_state resize_input))).2.vout.i_changes &&&
          VOUT_SIZE_CHANGE = 0) ∧
    (Module.xvideo = Module.x11 →
      (0, vout_Manage_autohide (vout_Manage_size Module.xvideo
        (vout_Manage_loops Module.xvideo resize_state resize_input))).2.vout.i_changes &&&
          VOUT_SIZE_CHANGE = resize_state.vout.i_changes &&& VOUT_SIZE_CHANGE) :=
  vout_Manage_no_resize Module.xvideo resize_state resize_input
    (0, vout_Manage_autohide (vout_Manage_size Module.xvideo
      (vout_Manage_loops Module.xvideo resize_state resize_input)))
    (vout_Manage_idle Module.xvideo resize_state resize_input (by decide))

/-- C16 as stated fails: in the x11 build, with the size-change flag set and a
`ConfigureNotify` event that changes the recorded size from 64 x 64 to
100 x 50, the cycle returns 0 and leaves the output at 64 x 64 with its two
buffers and their two images alive and the flag still set, whereas `vout_End`
would have released both images. -/
theorem vout_Manage_resize_ignored :
    resize_state.vout.i_changes &&& VOUT_SIZE_CHANGE ≠ 0 ∧
    recorded_size resize_state = (64, 64) ∧
    (vout_Manage Module.x11 resize_state resize_input).map (fun r => r.1) = some 0 ∧
    (vout_Manage Module.x11 resize_state resize_input).map (fun r => recorded_size r.2) =
      some (100, 50) ∧
    (vout_Manage Module.x11 resize_state resize_input).map
      (fun r => (r.2.vout.output.i_width, r.2.vout.output.i_height)) = some (64, 64) ∧
    (vout_Manage Module.x11 resize_state resize_input).map
      (fun r => r.2.vout.output.i_pictures) = some 2 ∧
    (vout_Manage Module.x11 resize_state resize_input).map
      (fun r => r.2.world.images.length) = some 2 ∧
    (vout_Manage Module.x11 resize_state resize_input).map
      (fun r => r.2.vout.i_changes &&& VOUT_SIZE_CHANGE) = some VOUT_SIZE_CHANGE ∧
    (vout_End resize_state.vout resize_state.world).images.length = 0 := by
  decide

theorem last_configure_split (events : List XEvent)
    (h : ∃ e ∈ events, e.type = ConfigureNotify) :
    ∃ pre e post, events = pre ++ e :: post ∧ e.type = ConfigureNotify ∧
      (∀ x ∈ post, x.type ≠ ConfigureNotify) := by
  induction events with
  | nil =>
    obtain ⟨e, he, _⟩ := h
    cases he
  | cons a as ih =>
    by_cases hex : ∃ x ∈ as, x.type = ConfigureNotify
    · obtain ⟨pre, e2, post, h1, h2, h3⟩ := ih hex
      exact ⟨a :: pre, e2, post, by rw [h1]; rfl, h2, h3⟩
    · have hno : ∀ x ∈ as, x.type ≠ ConfigureNotify := fun x hx hxt => hex ⟨x, hx, hxt⟩
      obtain ⟨e, he, ht⟩ := h
      rcases List.mem_cons.mp he with h | h
      · exact ⟨[], a, as, rfl, by rw [← h]; exact ht, hno⟩
      · exact absurd ht (hno e h)

/-- C17: after the first loop of `vout_Manage` has drained a list of events,
the recorded width and height are those of the last `ConfigureNotify` event of
the list when there is one, whatever follows it, and are unchanged when there
is none. -/
theorem vout_Manage_drain_last_configure (m : Module) (s : ManageState)
    (events : List XEvent) :
    (∀ pre e post, events = pre ++ e :: post → e.type = ConfigureNotify →
      (∀ x ∈ post, x.type ≠ ConfigureNotify) →
      recorded_size (vout_Manage_drain m s events).1 = (e.width, e.height)) ∧
    ((∃ e ∈ events, e.type = ConfigureNotify) →
      ∃ pre e post, events = pre ++ e :: post ∧ e.type = ConfigureNotify ∧
        (∀ x ∈ post, x.type ≠ ConfigureNotify)) ∧
    ((∀ e ∈ events, e.type ≠ ConfigureNotify) →
      recorded_size (vout_Manage_drain m s events).1 = recorded_size s) := by
  have hd := vout_Manage_drain_size m events s false
  refine ⟨?_, ?_, ?_⟩
  · intro pre e post he ht hpost
    unfold vout_Manage_drain
    rw [hd, he]
    unfold last_configure
    have hf : List.filter (fun e => decide (e.type = ConfigureNotify)) post = [] := by
      rw [List.filter_eq_nil_iff]
      intro x hx
      simp only [decide_eq_true_eq]
      exact hpost x hx
    rw [List.filter_append, List.filter_cons, if_pos (by simp only [ht, decide_True]), hf,
      List.getLast?_append]
    rfl
  · exact last_configure_split events
  · intro hno
    unfold vout_Manage_drain
    rw [hd]
    unfold last_configure
    have hf : List.filter (fun e => decide (e.type = ConfigureNotify)) events = [] := by
      rw [List.filter_eq_nil_iff]
      intro x hx
      simp only [decide_eq_true_eq]
      exact hno x hx
    rw [hf]
    rfl

theorem vout_Manage_drain_last_configure_witness :
    recorded_size (vout_Manage_drain Module.x11 (session_state 64 64)
      ([configure_event 100 50] ++ configure_event 320 240 :: [plain_event MotionNotify])).1 =
      ((configure_event 320 240).width, (configure_event 320 240).height) ∧
    recorded_size (vout_Manage_drain Module.x11 (session_state 64 64)
      [plain_event MotionNotify]).1 = recorded_size (session_state 64 64) :=
  ⟨(vout_Manage_drain_last_configure Module.x11 (session_state 64 64)
      ([configure_event 100 50] ++ configure_event 320 240 :: [plain_event MotionNotify])).1
      [configure_event 100 50] (configure_event 320 240) [plain_event MotionNotify] rfl
      (by decide) (by decide),
   (vout_Manage_drain_last_configure Module.x11 (session_state 64 64)
      [plain_event MotionNotify]).2.2 (by decide)⟩

theorem vout_Manage_key_saver (s : ManageState) (e : XEvent) :
    saver_frame (vout_Manage_key s e) = saver_frame s := by
  apply vout_Manage_key_elim s e (fun r => saver_frame r = saver_frame s) <;> intros <;> rfl

theorem saver_inv_of_frame {P0 : Int × Int × Int × Int} {s t : ManageState}
    (h : saver_frame t = saver_frame s) (hs : saver_inv P0 s) : saver_inv P0 t := by
  have h1 : ss_saved t.vout = ss_saved s.vout := congrArg (fun x => x.1) h
  have h2 : ss_params t.world = ss_params s.world := congrArg (fun x => x.2.1) h
  have h3 : t.vout.b_active = s.vout.b_active := congrArg (fun x => x.2.2) h
  unfold saver_inv
  rw [h1, h2, h3]
  exact hs

theorem ToggleCursor_saver (s : ManageState) : saver_frame (ToggleCursor s) = saver_frame s :=
  congrArg (fun t => t.2.2.2) (ToggleCursor_tail s).1

theorem vout_Manage_event_saver_inv (m : Module) (s : ManageState) (b : Bool) (e : XEvent)
    (P0 : Int × Int × Int × Int) (hs : saver_inv P0 s) :
    saver_inv P0 (vout_Manage_event m s b e).1 := by
  apply vout_Manage_event_elim m s b e (fun r => saver_inv P0 r.1)
  case h_key => intro _; exact saver_inv_of_frame (vout_Manage_key_saver s e) hs
  case h_map =>
    intro _ ha
    refine ⟨?_, fun hx => ?_⟩
    · have : ss_saved (map_step m s).vout = ss_params s.world := by cases m <;> rfl
      rw [this]
      exact hs.2 ha
    · have : (map_step m s).vout.b_active = true := by cases m <;> rfl
      rw [this] at hx
      exact absurd hx (by decide)
  case h_unmap =>
    intro _ _
    refine ⟨hs.1, fun _ => ?_⟩
    have : ss_params (unmap_step s).world = ss_saved s.vout := rfl
    rw [this]
    exact hs.1
  case h_hidden =>
    intro _ _
    exact saver_inv_of_frame ((ToggleCursor_saver _).trans rfl) hs
  all_goals intros; exact saver_inv_of_frame rfl hs

theorem vout_Manage_drain_saver_inv (m : Module) (events : List XEvent) (s : ManageState)
    (b : Bool) (P0 : Int × Int × Int × Int) (hs : saver_inv P0 s) :
    saver_inv P0 (events.foldl (fun acc e => vout_Manage_event m acc.1 acc.2 e) (s, b)).1 := by
  induction events generalizing s b with
  | nil => exact hs
  | cons e es ih =>
    simp only [List.foldl_cons]
    exact ih _ _ (vout_Manage_event_saver_inv m s b e P0 hs)

theorem vout_Manage_saver_inv {m : Module} {s : ManageState} {inp : ManageInput}
    {r : Int × ManageState} (h : vout_Manage m s inp = some r)
    (P0 : Int × Int × Int × Int) (hs : saver_inv P0 s) : saver_inv P0 r.2 := by
  obtain ⟨_, ht⟩ := vout_Manage_tail h
  have hf : saver_frame r.2 = saver_frame (vout_Manage_loops m s inp) :=
    congrArg (fun t => t.2.2.2) ht
  apply saver_inv_of_frame hf
  rw [vout_Manage_loops_eq]
  obtain ⟨c1, c2, _⟩ := vout_Manage_client_spec inp.client_messages
    (vout_Manage_drain m s inp.events).1
  have hf2 : saver_frame (vout_Manage_client (vout_Manage_drain m s inp.events).1
      inp.client_messages) = saver_frame (vout_Manage_drain m s inp.events).1 := by
    simp only [saver_frame, c1, c2]
  exact saver_inv_of_frame hf2 (vout_Manage_drain_saver_inv m inp.events s false P0 hs)

theorem vout_Manage_cycles_saver_inv (m : Module) (inputs : List ManageInput) (s s2 : ManageState)
    (h : vout_Manage_cycles m s inputs = some s2)
    (P0 : Int × Int × Int × Int) (hs : saver_inv P0 s) : saver_inv P0 s2 := by
  induction inputs generalizing s with
  | nil =>
    simp only [vout_Manage_cycles, Option.some.injEq] at h
    rw [← h]
    exact hs
  | cons inp rest ih =>
    unfold vout_Manage_cycles at h
    cases hc : vout_Manage m s inp with
    | none => rw [hc] at h; cases h
    | some q =>
      rw [hc] at h
      have h0 := (vout_Manage_tail hc).1
      have hq := vout_Manage_saver_inv hc P0 hs
      obtain ⟨ret, s1⟩ := q
      simp only at h0 hq
      subst h0
      simp only [ne_eq, not_true_eq_false, if_false] at h
      exact ih s1 h hq

theorem InitDisplay_saver (m : Module) (s : ManageState) :
    saver_frame (InitDisplay m s).2 = saver_frame s := by
  unfold InitDisplay
  cases m
  · simp only
    split
    · split <;> rfl
    · split <;> rfl
  · rfl

theorem vout_Create_tail {m : Module} {t s1 : ManageState} (s2 : ManageState)
    {handshake : List XWindowEvent} {q : Int × ManageState × List XWindowEvent}
    (hc : CreateWindow m t handshake = some q)
    (hk : DisableXScreenSaver m (InitDisplay m q.2.1).2 = s1)
    (ht : saver_frame t = saver_frame s2) :
    ss_saved s1.vout = ss_params s2.world ∧ s1.vout.b_active = s2.vout.b_active := by
  obtain ⟨_, c2, _⟩ := CreateWindow_some hc
  have hs4 : saver_frame q.2.1 = saver_frame s2 :=
    (congrArg (fun t => t.2.2.2) c2).trans ht
  have hi2 : saver_frame (InitDisplay m q.2.1).2 = saver_frame s2 :=
    (InitDisplay_saver m q.2.1).trans hs4
  have hw : ss_params (InitDisplay m q.2.1).2.world = ss_params s2.world :=
    congrArg (fun t => t.2.1) hi2
  have hb : (InitDisplay m q.2.1).2.vout.b_active = s2.vout.b_active :=
    congrArg (fun t => t.2.2) hi2
  rw [← hk, ← hw, ← hb]
  cases m <;> exact ⟨rfl, rfl⟩

theorem vout_Create_saver {m : Module} {s0 s1 : ManageState} {inp : CreateInput}
    (h : vout_Create m s0 inp = some (0, s1)) :
    ss_saved s1.vout = ss_params s0.world ∧ s1.vout.b_active = s0.vout.b_active := by
  unfold vout_Create at h
  by_cases h1 : inp.malloc_ok = false
  · rw [if_pos h1] at h
    simp only [Option.some.injEq, Prod.mk.injEq] at h
    exact absurd h.1 (by decide)
  · rw [if_neg h1] at h
    by_cases h2 : inp.display_ok = false
    · rw [if_pos h2] at h
      simp only [Option.some.injEq, Prod.mk.injEq] at h
      exact absurd h.1 (by decide)
    · rw [if_neg h2] at h
      cases m
      · simp only at h
        split at h
        · cases h
        · rename_i ret s4 rest hc
          by_cases hr : ret ≠ 0
          · rw [if_pos hr] at h
            simp only [Option.some.injEq, Prod.mk.injEq] at h
            exact absurd h.1 (by decide)
          · rw [if_neg hr] at h
            by_cases hi : (InitDisplay Module.x11 s4).1 ≠ 0
            · rw [if_pos hi] at h
              simp only [Option.some.injEq, Prod.mk.injEq] at h
              exact absurd h.1 (by decide)
            · rw [if_neg hi] at h
              simp only [Option.some.injEq, Prod.mk.injEq, true_and] at h
              exact vout_Create_tail s0 hc h rfl
      · simp only at h
        by_cases hp : inp.xv_port < 0
        · rw [if_pos hp] at h
          simp only [Option.some.injEq, Prod.mk.injEq] at h
          exact absurd h.1 (by decide)
        · rw [if_neg hp] at h
          simp only at h
          split at h
          · cases h
          · rename_i ret s4 rest hc
            by_cases hr : ret ≠ 0
            · rw [if_pos hr] at h
              simp only [Option.some.injEq, Prod.mk.injEq] at h
              exact absurd h.1 (by decide)
            · rw [if_neg hr] at h
              by_cases hi : (InitDisplay Module.xvideo s4).1 ≠ 0
              · rw [if_pos hi] at h
                simp only [Option.some.injEq, Prod.mk.injEq] at h
                exact absurd h.1 (by decide)
              · rw [if_neg hi] at h
                simp only [Option.some.injEq, Prod.mk.injEq, true_and] at h
                exact vout_Create_tail s0 hc h rfl

theorem XCloseDisplay_saver (s : ManageState) : saver_frame (XCloseDisplay s) = saver_frame s :=
  rfl

theorem DestroyCursor_saver (s : ManageState) : saver_frame (DestroyCursor s) = saver_frame s := by
  unfold DestroyCursor
  split <;> rfl

theorem vout_Destroy_saver (m : Module) (s : ManageState) :
    ss_params (vout_Destroy m s).world = ss_saved s.vout := by
  unfold vout_Destroy
  simp only
  have h1 : ∀ t : ManageState, saver_frame t = saver_frame s →
      ss_params (XCloseDisplay (DestroyWindow m (EnableXScreenSaver (DestroyCursor t)))).world =
        ss_saved s.vout := by
    intro t ht
    have h2 : saver_frame (XCloseDisplay (DestroyWindow m (EnableXScreenSaver
        (DestroyCursor t)))) = saver_frame (EnableXScreenSaver (DestroyCursor t)) :=
      (XCloseDisplay_saver _).trans (congrArg (fun x => x.2.2.2) (DestroyWindow_tail m _).1)
    have h3 : ss_params (EnableXScreenSaver (DestroyCursor t)).world =
        ss_saved (DestroyCursor t).vout := rfl
    have h4 : ss_saved (DestroyCursor t).vout = ss_saved s.vout :=
      (congrArg (fun x => x.1) (DestroyCursor_saver t)).trans (congrArg (fun x => x.1) ht)
    have h5 : ss_params (XCloseDisplay (DestroyWindow m (EnableXScreenSaver
        (DestroyCursor t)))).world = ss_params (EnableXScreenSaver (DestroyCursor t)).world :=
      congrArg (fun x => x.2.1) h2
    rw [h5, h3, h4]
  by_cases hv : (!s.vout.p_sys.b_mouse_pointer_visible) = true
  · rw [if_pos hv]
    exact h1 _ (ToggleCursor_saver s)
  · rw [if_neg hv]
    exact h1 _ rfl

/-- C19 (amended): when the output is active at `vout_Create`, a session that
is created with success, runs any number of `vout_Manage` cycles that return,
over any events, and is destroyed, leaves the server with the four
screen-saver parameters it had before `vout_Create`. -/
theorem session_restores_screen_saver (m : Module) (s0 s1 s2 : ManageState)
    (cinp : CreateInput) (inputs : List ManageInput)
    (hact : s0.vout.b_active = true)
    (hc : vout_Create m s0 cinp = some (0, s1))
    (hm : vout_Manage_cycles m s1 inputs = some s2) :
    ss_params (vout_Destroy m s2).world = ss_params s0.world := by
  obtain ⟨c1, c2⟩ := vout_Create_saver hc
  have hinv : saver_inv (ss_params s0.world) s1 :=
    ⟨c1, fun hx => by rw [c2, hact] at hx; exact absurd hx (by decide)⟩
  have h2 := vout_Manage_cycles_saver_inv m inputs s1 s2 hm _ hinv
  rw [vout_Destroy_saver]
  exact h2.1

theorem session_restores_screen_saver_witness :
    sample_state.vout.b_active = true ∧
    vout_Create Module.x11 sample_state create_input = some (0, created_state) ∧
    vout_Manage_cycles Module.x11 created_state [unmap_input, map_input] = some cycled_state ∧
    ss_params (vout_Destroy Module.x11 cycled_state).world = ss_params sample_state.world :=
  ⟨rfl, rfl, rfl,
   session_restores_screen_saver Module.x11 sample_state created_state cycled_state create_input
     [unmap_input, map_input] rfl rfl rfl⟩

/-- C19 as stated fails for an output that is not active at `vout_Create`:
on a server with the timeout 600, a session that is created, receives one
`MapNotify` event and is destroyed leaves the timeout at 0. -/
theorem session_inactive_loses_timeout :
    inactive_state.vout.b_active = false ∧
    ss_params inactive_state.world = (600, 600, 1, 1) ∧
    (vout_Create Module.x11 inactive_state create_input).map (fun r => r.1) = some 0 ∧
    (session_run Module.x11 inactive_state create_input [map_input]).map
      (fun s => ss_params s.world) = some (0, 600, 1, 1) := by
  decide

theorem vout_Manage_motion_witness :
    (plain_event MotionNotify).type = MotionNotify ∧
    hidden_state.vout.p_sys.b_mouse_pointer_visible = false ∧
    (vout_Manage_event Module.x11 hidden_state false
      (plain_event MotionNotify)).1.vout.p_sys.b_mouse_pointer_visible = true ∧
    (vout_Manage_event Module.x11 hidden_state false
      (plain_event MotionNotify)).1.vout.p_sys.i_time_mouse_last_moved = 5 ∧
    (vout_Manage_event Module.x11 hidden_state false
      (plain_event MotionNotify)).1.world.cursor_blank = false :=
  ⟨rfl, rfl,
   (vout_Manage_motion Module.x11 hidden_state false (plain_event MotionNotify) rfl).1,
   (vout_Manage_motion Module.x11 hidden_state false (plain_event MotionNotify) rfl).2.1,
   ((vout_Manage_motion Module.x11 hidden_state false (plain_event MotionNotify) rfl).2.2.1
     rfl).2⟩

theorem CreateWindow_size_congr (v1 v2 : vout_thread_t) (w1 w2 : World)
    (hb : v1.b_fullscreen = v2.b_fullscreen) (hr : v1.render = v2.render)
    (hw : w1.display_width = w2.display_width) (hh : w1.display_height = w2.display_height) :
    CreateWindow_size v1 w1 = CreateWindow_size v2 w2 := by
  unfold CreateWindow_size
  rw [hb, hr, hw, hh]

theorem vout_Manage_toggle {m : Module} {s : ManageState} {inp : ManageInput}
    {r : Int × ManageState} (h : vout_Manage m s inp = some r)
    (hf : (vout_Manage_loops m s inp).vout.i_changes &&& VOUT_FULLSCREEN_CHANGE ≠ 0) :
    r.1 = 0 ∧ r.2.vout.b_fullscreen = (!s.vout.b_fullscreen) ∧
    screen_frame r.2 = screen_frame s ∧
    r.2.vout.p_sys.window = s.world.next_id ∧
    ∃ rest, CreateWindow_wait s.world.next_id false false false
      (CreateWindow_size { s.vout with b_fullscreen := !s.vout.b_fullscreen } s.world)
      inp.handshake = some (recorded_size r.2, rest) := by
  obtain ⟨h0, ht⟩ := vout_Manage_tail h
  obtain ⟨_, s4, h4, hr⟩ := vout_Manage_some h
  obtain ⟨_, _, _, f4⟩ := vout_Manage_fullscreen_some h4
  obtain ⟨g1, g2, g3, rest, g4⟩ := f4 hf
  have hl := vout_Manage_loops_frame m s inp
  have hsc : screen_frame (vout_Manage_loops m s inp) = screen_frame s :=
    congrArg (fun t => t.2.1) hl
  have hfs : (vout_Manage_loops m s inp).vout.b_fullscreen = s.vout.b_fullscreen :=
    congrArg (fun t => t.2.2.1) hl
  have hid : (vout_Manage_loops m s inp).world.next_id = s.world.next_id :=
    vout_Manage_loops_next_id m s inp
  have hrs : recorded_size r.2 = recorded_size s4 := by
    rw [hr, (vout_Manage_autohide_tail _).2.2.2.1, (vout_Manage_size_tail m s4).2.2.1]
  have hwin : r.2.vout.p_sys.window = s4.vout.p_sys.window := by
    rw [hr, (vout_Manage_autohide_tail _).2.2.2.2, (vout_Manage_size_tail m s4).2.2.2.1]
  have hb : r.2.vout.b_fullscreen = s4.vout.b_fullscreen := by
    rw [hr, (vout_Manage_autohide_tail _).2.1, (vout_Manage_size_tail m s4).2.1]
  refine ⟨h0, ?_, ?_, ?_, rest, ?_⟩
  · rw [hb, g1, hfs]
  · exact (congrArg (fun t => t.2.2.1) ht).trans hsc
  · rw [hwin, g3, hid]
  · rw [hrs, ← g4, hid]
    congr 1
    apply CreateWindow_size_congr
    · show (!s.vout.b_fullscreen) = !(vout_Manage_loops m s inp).vout.b_fullscreen
      rw [hfs]
    · exact (congrArg (fun t => t.1) hsc).symm
    · exact (congrArg (fun t => t.2.1) hsc).symm
    · exact (congrArg (fun t => t.2.2) hsc).symm

/-- C15 (amended): two `vout_Manage` cycles that each find a fullscreen change
pending both return 0 and leave the fullscreen flag as it was before the
first; each builds a new window through `DestroyWindow` and `CreateWindow`.
The width and height recorded after the second cycle are not taken from the
state before the first: they are what the wait of the second `CreateWindow`
records, starting from the size `CreateWindow` computes for the original
fullscreen flag from the render dimensions and the screen, and replaced by the
size of every `ConfigureNotify` event the new window receives. -/
theorem vout_Manage_fullscreen_twice (m : Module) (s : ManageState) (inp1 inp2 : ManageInput)
    (r1 r2 : Int × ManageState)
    (h1 : vout_Manage m s inp1 = some r1) (h2 : vout_Manage m r1.2 inp2 = some r2)
    (hf1 : (vout_Manage_loops m s inp1).vout.i_changes &&& VOUT_FULLSCREEN_CHANGE ≠ 0)
    (hf2 : (vout_Manage_loops m r1.2 inp2).vout.i_changes &&& VOUT_FULLSCREEN_CHANGE ≠ 0) :
    r1.1 = 0 ∧ r2.1 = 0 ∧
    r1.2.vout.b_fullscreen = (!s.vout.b_fullscreen) ∧
    r2.2.vout.b_fullscreen = s.vout.b_fullscreen ∧
    r1.2.vout.p_sys.window = s.world.next_id ∧
    r2.2.vout.p_sys.window = r1.2.world.next_id ∧
    ∃ rest, CreateWindow_wait r2.2.vout.p_sys.window false false false
      (CreateWindow_size s.vout s.world) inp2.handshake = some (recorded_size r2.2, rest) := by
  obtain ⟨a1, a2, a3, a4, _⟩ := vout_Manage_toggle h1 hf1
  obtain ⟨b1, b2, _, b4, rest, b5⟩ := vout_Manage_toggle h2 hf2
  refine ⟨a1, b1, a2, ?_, a4, b4, rest, ?_⟩
  · rw [b2, a2, Bool.not_not]
  · rw [b4, ← b5]
    congr 1
    apply CreateWindow_size_congr
    · show s.vout.b_fullscreen = !r1.2.vout.b_fullscreen
      rw [a2, Bool.not_not]
    · exact (congrArg (fun t => t.1) a3).symm
    · exact (congrArg (fun t => t.2.1) a3).symm
    · exact (congrArg (fun t => t.2.2) a3).symm

theorem vout_Manage_fullscreen_twice_witness :
    vout_Manage Module.x11 (session_state 800 600) (toggle_input 8 1024 768) =
      some (0, toggled_once) ∧
    (vout_Manage Module.x11 toggled_once (toggle_input 9 64 64)).isSome = true ∧
    toggled_once.vout.b_fullscreen = true ∧
    ((vout_Manage Module.x11 toggled_once (toggle_input 9 64 64)).getD
      (1, toggled_once)).2.vout.b_fullscreen = (session_state 800 600).vout.b_fullscreen :=
  ⟨rfl, rfl, rfl,
   (vout_Manage_fullscreen_twice Module.x11 (session_state 800 600) (toggle_input 8 1024 768)
     (toggle_input 9 64 64) (0, toggled_once)
     ((vout_Manage Module.x11 toggled_once (toggle_input 9 64 64)).getD (1, toggled_once))
     rfl rfl (by decide) (by decide)).2.2.2.1⟩

/-- C15 as stated fails for the width and height: a window recorded at
800 x 600 whose picture is 64 x 64, toggled to fullscreen on a 1024 x 768
screen and back, ends at 64 x 64, the size `CreateWindow` computes from the
picture, with the fullscreen flag restored. -/
theorem vout_Manage_fullscreen_twice_size :
    recorded_size (session_state 800 600) = (800, 600) ∧
    (session_state 800 600).vout.b_fullscreen = false ∧
    (vout_Manage Module.x11 (session_state 800 600) (toggle_input 8 1024 768)).map
      (fun r => (r.1, r.2.vout.b_fullscreen, recorded_size r.2)) =
        some (0, true, (1024, 768)) ∧
    ((vout_Manage Module.x11 (session_state 800 600) (toggle_input 8 1024 768)).bind
      (fun r => vout_Manage Module.x11 r.2 (toggle_input 9 64 64))).map
      (fun r => (r.1, r.2.vout.b_fullscreen, recorded_size r.2)) =
        some (0, false, (64, 64)) := by
  decide

/-! ## Seeking, window size, negotiation, buffers, display and ports -/

theorem tdiv_ge_of_mul_le (x y d : Int) (hx : 0 ≤ x) (hd : 0 < d) (h : y * d ≤ x) :
    y ≤ Int.tdiv x d := by
  rw [Int.tdiv_eq_ediv hx (le_of_lt hd)]
  exact (Int.le_ediv_iff_mul_le hd).mpr h

/-- C28 fails as stated: for a render size of 5120 x 2880 with the aspect of a
16:9 picture (768000), both `int` products of lines 921-922 are 2211840000,
more than 2^31 - 1. The window `CreateWindow` asks for is -4822 wide and 2880
high: narrower than the picture, and its width is not `h * a / F` (5120). -/
theorem CreateWindow_size_wraps :
    wide_state.vout.b_fullscreen = false ∧
    0 < wide_state.vout.render.i_width ∧
    0 < wide_state.vout.render.i_height ∧
    0 < wide_state.vout.render.i_aspect ∧
    wide_state.vout.render.i_height * wide_state.vout.render.i_aspect ≥
      wide_state.vout.render.i_width * VOUT_ASPECT_FACTOR ∧
    CreateWindow_size wide_state.vout wide_state.world = (-4822, 2880) ∧
    ¬ (wide_state.vout.render.i_width ≤
        (CreateWindow_size wide_state.vout wide_state.world).1) ∧
    ¬ (CreateWindow_size wide_state.vout wide_state.world =
        (Int.tdiv (wide_state.vout.render.i_height * wide_state.vout.render.i_aspect)
          VOUT_ASPECT_FACTOR, wide_state.vout.render.i_height)) ∧
    (CreateWindow_open wide_state).world.windows.head? =
      some { id := wide_state.world.next_id, width := -4822, height := 2880 } := by
  decide

/-- C28 (amended): for a positive render width `w`, render height `h` and
aspect `a` whose products `h * a` and `w * VOUT_ASPECT_FACTOR` are at most
`INT_MAX`, the size `CreateWindow` asks for when the output is not fullscreen
is at least the picture in both dimensions and keeps one dimension of the
picture: when `h * a >= w * VOUT_ASPECT_FACTOR` it is
`h * a / VOUT_ASPECT_FACTOR` by `h`, otherwise it is `w` by
`w * VOUT_ASPECT_FACTOR / a`, with the truncating division of C. That size is
the one of the window `CreateWindow` creates. -/
theorem CreateWindow_size_covers (s : ManageState) (hfs : s.vout.b_fullscreen = false)
    (hw : 0 < s.vout.render.i_width) (hh : 0 < s.vout.render.i_height)
    (ha : 0 < s.vout.render.i_aspect)
    (hha : s.vout.render.i_height * s.vout.render.i_aspect ≤ INT_MAX)
    (hwF : s.vout.render.i_width * VOUT_ASPECT_FACTOR ≤ INT_MAX) :
    s.vout.render.i_width ≤ (CreateWindow_size s.vout s.world).1 ∧
    s.vout.render.i_height ≤ (CreateWindow_size s.vout s.world).2 ∧
    (s.vout.render.i_height * s.vout.render.i_aspect ≥
        s.vout.render.i_width * VOUT_ASPECT_FACTOR →
      CreateWindow_size s.vout s.world =
        (Int.tdiv (s.vout.render.i_height * s.vout.render.i_aspect) VOUT_ASPECT_FACTOR,
          s.vout.render.i_height)) ∧
    (s.vout.render.i_height * s.vout.render.i_aspect <
        s.vout.render.i_width * VOUT_ASPECT_FACTOR →
      CreateWindow_size s.vout s.world =
        (s.vout.render.i_width,
          Int.tdiv (s.vout.render.i_width * VOUT_ASPECT_FACTOR) s.vout.render.i_aspect)) ∧
    (CreateWindow_open s).world.windows.head? =
      some { id := s.world.next_id, width := (CreateWindow_size s.vout s.world).1,
             height := (CreateWindow_size s.vout s.world).2 } := by
  have hF : (0 : Int) < VOUT_ASPECT_FACTOR := by decide
  have hm1 : int_mul s.vout.render.i_height s.vout.render.i_aspect =
      s.vout.render.i_height * s.vout.render.i_aspect :=
    int_mul_eq _ _ (le_trans (by decide) (le_of_lt (mul_pos hh ha))) hha
  have hm2 : int_mul s.vout.render.i_width VOUT_ASPECT_FACTOR =
      s.vout.render.i_width * VOUT_ASPECT_FACTOR :=
    int_mul_eq _ _ (le_trans (by decide) (le_of_lt (mul_pos hw hF))) hwF
  have hsize : CreateWindow_size s.vout s.world =
      if s.vout.render.i_height * s.vout.render.i_aspect ≥
          s.vout.render.i_width * VOUT_ASPECT_FACTOR then
        (Int.tdiv (s.vout.render.i_height * s.vout.render.i_aspect) VOUT_ASPECT_FACTOR,
          s.vout.render.i_height)
      else
        (s.vout.render.i_width,
          Int.tdiv (s.vout.render.i_width * VOUT_ASPECT_FACTOR) s.vout.render.i_aspect) := by
    unfold CreateWindow_size
    rw [hfs, hm1, hm2]
    rfl
  have hfour : s.vout.render.i_width ≤ (CreateWindow_size s.vout s.world).1 ∧
      s.vout.render.i_height ≤ (CreateWindow_size s.vout s.world).2 ∧
      (s.vout.render.i_height * s.vout.render.i_aspect ≥
          s.vout.render.i_width * VOUT_ASPECT_FACTOR →
        CreateWindow_size s.vout s.world =
          (Int.tdiv (s.vout.render.i_height * s.vout.render.i_aspect) VOUT_ASPECT_FACTOR,
            s.vout.render.i_height)) ∧
      (s.vout.render.i_height * s.vout.render.i_aspect <
          s.vout.render.i_width * VOUT_ASPECT_FACTOR →
        CreateWindow_size s.vout s.world =
          (s.vout.render.i_width,
            Int.tdiv (s.vout.render.i_width * VOUT_ASPECT_FACTOR) s.vout.render.i_aspect)) := by
    by_cases hc : s.vout.render.i_height * s.vout.render.i_aspect ≥
        s.vout.render.i_width * VOUT_ASPECT_FACTOR
    · rw [hsize, if_pos hc]
      refine ⟨?_, le_refl _, fun _ => rfl, fun hx => absurd hc (not_le.mpr hx)⟩
      exact tdiv_ge_of_mul_le _ _ _ (le_of_lt (mul_pos hh ha)) hF hc
    · rw [hsize, if_neg hc]
      refine ⟨le_refl _, ?_, fun hx => absurd hx hc, fun _ => rfl⟩
      exact tdiv_ge_of_mul_le _ _ _ (le_of_lt (mul_pos hw hF)) ha (le_of_lt (not_le.mp hc))
  exact ⟨hfour.1, hfour.2.1, hfour.2.2.1, hfour.2.2.2, rfl⟩

/-- C28 (amended), at a render size of 64 x 64 with a square aspect: the
window asked for is 64 x 64. -/
theorem CreateWindow_size_covers_witness :
    (session_state 64 64).vout.b_fullscreen = false ∧
    0 < (session_state 64 64).vout.render.i_width ∧
    0 < (session_state 64 64).vout.render.i_height ∧
    0 < (session_state 64 64).vout.render.i_aspect ∧
    (session_state 64 64).vout.render.i_height * (session_state 64 64).vout.render.i_aspect ≤
      INT_MAX ∧
    (session_state 64 64).vout.render.i_width * VOUT_ASPECT_FACTOR ≤ INT_MAX ∧
    CreateWindow_size (session_state 64 64).vout (session_state 64 64).world = (64, 64) ∧
    (session_state 64 64).vout.render.i_width ≤
      (CreateWindow_size (session_state 64 64).vout (session_state 64 64).world).1 ∧
    (session_state 64 64).vout.render.i_height ≤
      (CreateWindow_size (session_state 64 64).vout (session_state 64 64).world).2 :=
  ⟨by decide, by decide, by decide, by decide, by decide, by decide, by decide,
   (CreateWindow_size_covers (session_state 64 64) rfl (by decide) (by decide) (by decide)
      (by decide) (by decide)).1,
   (CreateWindow_size_covers (session_state 64 64) rfl (by decide) (by decide) (by decide)
      (by decide) (by decide)).2.1⟩

theorem InitDisplay_x11_other (s : ManageState) (h8 : s.world.default_depth ≠ 8) :
    (XGetVisualInfo s.world s.world.default_screen TrueColor = [] →
      (InitDisplay Module.x11 s).1 = 1) ∧
    (∀ vi rest, XGetVisualInfo s.world s.world.default_screen TrueColor = vi :: rest →
      (InitDisplay Module.x11 s).1 = 0 ∧
      (InitDisplay Module.x11 s).2.vout.p_sys.i_bytes_per_pixel =
        InitDisplay_bytes_per_pixel s.world.default_depth s.world.pixmap_formats ∧
      (InitDisplay Module.x11 s).2.vout.p_sys.p_visual = vi.visual ∧
      (InitDisplay Module.x11 s).2.vout.p_sys.i_red_mask = vi.red_mask ∧
      (InitDisplay Module.x11 s).2.vout.p_sys.i_green_mask = vi.green_mask ∧
      (InitDisplay Module.x11 s).2.vout.p_sys.i_blue_mask = vi.blue_mask) := by
  constructor
  · intro hv
    simp only [InitDisplay, if_neg h8, hv]
  · intro vi rest hv
    simp only [InitDisplay, if_neg h8, hv]
    exact ⟨trivial, trivial, trivial, trivial, trivial, trivial⟩

theorem InitDisplay_x11_eight (s : ManageState) (h8 : s.world.default_depth = 8) :
    (XGetVisualInfo s.world s.world.default_screen DirectColor = [] →
      (InitDisplay Module.x11 s).1 = 1) ∧
    (∀ vi rest, XGetVisualInfo s.world s.world.default_screen DirectColor = vi :: rest →
      (InitDisplay Module.x11 s).1 = 0 ∧
      (InitDisplay Module.x11 s).2.vout.p_sys.i_bytes_per_pixel = 1 ∧
      (InitDisplay Module.x11 s).2.vout.p_sys.p_visual = vi.visual) := by
  constructor
  · intro hv
    simp only [InitDisplay, if_pos h8, hv]
  · intro vi rest hv
    simp only [InitDisplay, if_pos h8, hv]
    exact ⟨trivial, trivial, trivial⟩

theorem shm_step_fails_iff (o : Outcome) :
    shm_step_fails o ↔ (o.create_image && o.shmget && o.shmat && o.XShmAttach) = false := by
  unfold shm_step_fails
  cases o.create_image <;> cases o.shmget <;> cases o.shmat <;> cases o.XShmAttach <;> simp

/-- C23: when one of the four steps of `CreateShmImage` gives the answer the
code tests for (a null image, a negative segment id, a null address from
`shmat`, False from `XShmAttach`), `CreateShmImage` returns NULL and leaves no
image, segment, mapping or attachment behind, and `NewPicture` frees its
descriptor and returns -1. But `shmat` reports a failure by returning
`(void *) -1`, not a null address: the test of line 1740 does not take that
value for a failure, `CreateShmImage` returns the image and `NewPicture`
returns 0. -/
theorem CreateShmImage_unwinds (m : Module) (o : Outcome) (w : World) (p_shm : XShmSegmentInfo)
    (W H : Int) (v : vout_thread_t) (p_pic : picture_t) :
    (shm_step_fails o →
      (CreateShmImage m o w p_shm W H).1 = none ∧
      (CreateShmImage m o w p_shm W H).2.2 =
        { w with next_id := (CreateShmImage m o w p_shm W H).2.2.next_id }) ∧
    (shm_step_fails o → v.p_sys.b_shm = true →
      (NewPicture m v p_pic o w).ret = -1 ∧
      (NewPicture m v p_pic o w).world =
        { w with next_id := (NewPicture m v p_pic o w).world.next_id }) ∧
    CreateShmImage_shmat_null SHMAT_FAILED = false ∧
    (CreateShmImage m (shmat_outcome SHMAT_FAILED) w p_shm W H).1 = some w.next_id ∧
    (v.p_sys.b_shm = true → known_chroma m v.output.i_chroma →
      (NewPicture m v p_pic (shmat_outcome SHMAT_FAILED) w).ret = 0) := by
  refine ⟨?_, ?_, by decide, ?_, ?_⟩
  · intro hf
    exact CreateShmImage_fail m o w p_shm W H ((shm_step_fails_iff o).mp hf)
  · intro hf hb
    have hok : NewPicture_ok v.p_sys.b_shm o = false := by
      unfold NewPicture_ok
      rw [hb, if_pos rfl, (shm_step_fails_iff o).mp hf, Bool.and_false]
    obtain ⟨_, hcase⟩ := NewPicture_spec m v p_pic o w
    rcases hcase with ⟨h1, _, h3⟩ | ⟨_, _, h3, _⟩
    · exact ⟨h1, h3⟩
    · rw [hok] at h3; exact absurd h3 (by decide)
  · rw [CreateShmImage_ok m (shmat_outcome SHMAT_FAILED) w p_shm W H (by decide)]
  · intro hb hk
    have hok : NewPicture_ok v.p_sys.b_shm (shmat_outcome SHMAT_FAILED) = true := by
      rw [hb]; decide
    obtain ⟨_, hcase⟩ := NewPicture_spec m v p_pic (shmat_outcome SHMAT_FAILED) w
    rcases hcase with ⟨_, h2, _⟩ | ⟨h1, _⟩
    · exact absurd ⟨hk, hok⟩ h2
    · exact h1

theorem CreateShmImage_unwinds_witness :
    shm_step_fails { always_ok with XShmAttach := false } ∧
    (CreateShmImage Module.xvideo { always_ok with XShmAttach := false } idle_world
      (fresh_sys 0).shminfo 64 64).1 = none ∧
    (NewPicture Module.xvideo (sample_vout true 64 64 4) blank_picture
      { always_ok with XShmAttach := false } idle_world).ret = -1 ∧
    (NewPicture Module.xvideo (sample_vout true 64 64 4) blank_picture
      (shmat_outcome SHMAT_FAILED) idle_world).ret = 0 :=
  ⟨Or.inr (Or.inr (Or.inr rfl)),
   ((CreateShmImage_unwinds Module.xvideo { always_ok with XShmAttach := false } idle_world
      (fresh_sys 0).shminfo 64 64 (sample_vout true 64 64 4) blank_picture).1
      (Or.inr (Or.inr (Or.inr rfl)))).1,
   ((CreateShmImage_unwinds Module.xvideo { always_ok with XShmAttach := false } idle_world
      (fresh_sys 0).shminfo 64 64 (sample_vout true 64 64 4) blank_picture).2.1
      (Or.inr (Or.inr (Or.inr rfl))) rfl).1,
   (CreateShmImage_unwinds Module.xvideo { always_ok with XShmAttach := false } idle_world
      (fresh_sys 0).shminfo 64 64 (sample_vout true 64 64 4) blank_picture).2.2.2.2 rfl
      (Or.inr ⟨rfl, rfl⟩)⟩

/-- C29: in the x11 build without shared memory, a successful `NewPicture`
records `2 * W * H` bytes and a stride of `2 * W` for the RGB plane, whatever
the bytes per pixel are, while the buffer `CreateImage` allocated for the
picture has `(W * i_bytes_per_pixel) * H` bytes. With 2 bytes per pixel or
more and non-negative dimensions the plane fits in the buffer; with 1 byte per
pixel, what `InitDisplay` sets on a screen of depth 8, the plane is twice the
buffer. -/
theorem NewPicture_rgb_plane_size (v : vout_thread_t) (p_pic : picture_t) (o : Outcome)
    (w : World) (hshm : v.p_sys.b_shm = false)
    (hc : v.output.i_chroma = Chroma.RGB_16BPP_PICTURE)
    (hret : (NewPicture Module.x11 v p_pic o w).ret = 0) :
    ((NewPicture Module.x11 v p_pic o w).pic.planes RGB_PLANE).i_bytes =
      2 * v.output.i_width * v.output.i_height ∧
    ((NewPicture Module.x11 v p_pic o w).pic.planes RGB_PLANE).i_line_bytes =
      2 * v.output.i_width ∧
    image_data_size (NewPicture Module.x11 v p_pic o w).world
        (NewPicture Module.x11 v p_pic o w).pic =
      some ((v.output.i_width * v.p_sys.i_bytes_per_pixel) * v.output.i_height) ∧
    (2 ≤ v.p_sys.i_bytes_per_pixel → 0 ≤ v.output.i_width → 0 ≤ v.output.i_height →
      2 * v.output.i_width * v.output.i_height ≤
        (v.output.i_width * v.p_sys.i_bytes_per_pixel) * v.output.i_height ∧
      2 * v.output.i_width ≤ v.output.i_width * v.p_sys.i_bytes_per_pixel) ∧
    (v.p_sys.i_bytes_per_pixel < 2 → 0 < v.output.i_width → 0 < v.output.i_height →
      (v.output.i_width * v.p_sys.i_bytes_per_pixel) * v.output.i_height <
        2 * v.output.i_width * v.output.i_height ∧
      v.output.i_width * v.p_sys.i_bytes_per_pixel < 2 * v.output.i_width) := by
  have hcalc : ((NewPicture Module.x11 v p_pic o w).pic.planes RGB_PLANE).i_bytes =
        2 * v.output.i_width * v.output.i_height ∧
      ((NewPicture Module.x11 v p_pic o w).pic.planes RGB_PLANE).i_line_bytes =
        2 * v.output.i_width ∧
      image_data_size (NewPicture Module.x11 v p_pic o w).world
          (NewPicture Module.x11 v p_pic o w).pic =
        some ((v.output.i_width * v.p_sys.i_bytes_per_pixel) * v.output.i_height) := by
    rcases o with ⟨_ | _, _ | _, g, a, x, _ | _⟩ <;>
      simp [NewPicture, NewPicture_alloc, CreateImage, free_data, free_sys, hshm, hc,
        fresh_sys, image_data_size, RGB_PLANE] at hret ⊢
  refine ⟨hcalc.1, hcalc.2.1, hcalc.2.2, ?_, ?_⟩
  · intro hb hw hh
    constructor
    · have h1 : 2 * v.output.i_width ≤ v.output.i_width * v.p_sys.i_bytes_per_pixel := by
        nlinarith
      nlinarith
    · nlinarith
  · intro hb hw hh
    have h1 : v.output.i_width * v.p_sys.i_bytes_per_pixel < 2 * v.output.i_width := by
      nlinarith
    exact ⟨by nlinarith, h1⟩

theorem NewPicture_rgb_plane_size_witness :
    depth8_vout.p_sys.b_shm = false ∧
    depth8_vout.output.i_chroma = Chroma.RGB_16BPP_PICTURE ∧
    depth8_vout.p_sys.i_screen_depth = 8 ∧
    depth8_vout.p_sys.i_bytes_per_pixel = 1 ∧
    (NewPicture Module.x11 depth8_vout blank_picture always_ok idle_world).ret = 0 ∧
    ((NewPicture Module.x11 depth8_vout blank_picture always_ok idle_world).pic.planes
      RGB_PLANE).i_bytes = 8192 ∧
    image_data_size (NewPicture Module.x11 depth8_vout blank_picture always_ok idle_world).world
      (NewPicture Module.x11 depth8_vout blank_picture always_ok idle_world).pic = some 4096 ∧
    ((NewPicture Module.x11 depth8_vout blank_picture always_ok idle_world).pic.planes
        RGB_PLANE).i_bytes =
      2 * depth8_vout.output.i_width * depth8_vout.output.i_height ∧
    image_data_size (NewPicture Module.x11 depth8_vout blank_picture always_ok idle_world).world
        (NewPicture Module.x11 depth8_vout blank_picture always_ok idle_world).pic =
      some ((depth8_vout.output.i_width * depth8_vout.p_sys.i_bytes_per_pixel) *
        depth8_vout.output.i_height) :=
  ⟨by decide, by decide, by decide, by decide, by decide, by decide, by decide,
   (NewPicture_rgb_plane_size depth8_vout blank_picture always_ok idle_world (by decide)
     (by decide) (by decide)).1,
   (NewPicture_rgb_plane_size depth8_vout blank_picture always_ok idle_world (by decide)
     (by decide) (by decide)).2.2.1⟩

theorem CreateWindow_wait_cons (window : Nat) (be bc bm : Bool) (size : Int × Int)
    (e : XWindowEvent) (rest : List XWindowEvent) :
    CreateWindow_wait window be bc bm size (e :: rest) =
      if (be || addressed window Expose e) && (bc || addressed window ConfigureNotify e) &&
          (bm || addressed window MapNotify e) then
        some (if addressed window ConfigureNotify e then (e.width, e.height) else size, rest)
      else
        CreateWindow_wait window (be || addressed window Expose e)
          (bc || addressed window ConfigureNotify e) (bm || addressed window MapNotify e)
          (if addressed window ConfigureNotify e then (e.width, e.height) else size) rest := by
  rw [CreateWindow_wait]
  by_cases h1 : e.type = Expose ∧ e.window = window
  · have a1 : addressed window Expose e = true := by simp [addressed, h1]
    have a2 : addressed window ConfigureNotify e = false := by
      simp [addressed, h1.1, Expose, ConfigureNotify]
    have a3 : addressed window MapNotify e = false := by
      simp [addressed, h1.1, Expose, MapNotify]
    simp only [if_pos h1, a1, a2, a3, Bool.or_true, Bool.or_false, Bool.false_eq_true,
      if_false]
  · by_cases h2 : e.type = MapNotify ∧ e.window = window
    · have a1 : addressed window Expose e = false := by
        simp [addressed, h2.1, Expose, MapNotify]
      have a2 : addressed window ConfigureNotify e = false := by
        simp [addressed, h2.1, MapNotify, ConfigureNotify]
      have a3 : addressed window MapNotify e = true := by simp [addressed, h2]
      simp only [if_neg h1, if_pos h2, a1, a2, a3, Bool.or_true, Bool.or_false,
        Bool.false_eq_true, if_false]
    · by_cases h3 : e.type = ConfigureNotify ∧ e.window = window
      · have a1 : addressed window Expose e = false := by
          simp [addressed, h3.1, Expose, ConfigureNotify]
        have a2 : addressed window ConfigureNotify e = true := by simp [addressed, h3]
        have a3 : addressed window MapNotify e = false := by
          simp [addressed, h3.1, MapNotify, ConfigureNotify]
        simp only [if_neg h1, if_neg h2, if_pos h3, a1, a2, a3, Bool.or_true, Bool.or_false,
          if_true]
      · have a1 : addressed window Expose e = false := by simp [addressed, h1]
        have a2 : addressed window ConfigureNotify e = false := by simp [addressed, h3]
        have a3 : addressed window MapNotify e = false := by simp [addressed, h2]
        simp only [if_neg h1, if_neg h2, if_neg h3, a1, a2, a3, Bool.or_false,
          Bool.false_eq_true, if_false]

theorem acknowledged_from_cons (be bc bm : Bool) (window : Nat) (e : XWindowEvent)
    (l : List XWindowEvent) :
    acknowledged_from be bc bm window (e :: l) =
      acknowledged_from (be || addressed window Expose e)
        (bc || addressed window ConfigureNotify e) (bm || addressed window MapNotify e)
        window l := by
  simp only [acknowledged_from, List.any_cons, Bool.or_assoc]

theorem acknowledged_from_nil (be bc bm : Bool) (window : Nat) :
    acknowledged_from be bc bm window [] = (be && bc && bm) := by
  simp only [acknowledged_from, List.any_nil, Bool.or_false]

theorem last_window_configure_cons (window : Nat) (e : XWindowEvent) (l : List XWindowEvent)
    (size : Int × Int) :
    (last_window_configure window (e :: l)).getD size =
      (last_window_configure window l).getD
        (if addressed window ConfigureNotify e then (e.width, e.height) else size) := by
  unfold last_window_configure
  cases ha : addressed window ConfigureNotify e
  · rw [List.filter_cons_of_neg (by simp [ha])]
    simp
  · rw [List.filter_cons_of_pos ha, List.getLast?_cons]
    cases (List.filter (addressed window ConfigureNotify) l).getLast? <;> simp

theorem CreateWindow_wait_sound (window : Nat) (events : List XWindowEvent) :
    ∀ (be bc bm : Bool) (size sz : Int × Int) (rest : List XWindowEvent),
    CreateWindow_wait window be bc bm size events = some (sz, rest) →
    ∃ consumed, events = consumed ++ rest ∧ consumed ≠ [] ∧
      acknowledged_from be bc bm window consumed = true ∧
      (∀ p, p <+: consumed → p ≠ [] → p ≠ consumed →
        acknowledged_from be bc bm window p = false) ∧
      sz = (last_window_configure window consumed).getD size := by
  induction events with
  | nil => intro be bc bm size sz rest h; simp [CreateWindow_wait] at h
  | cons e es ih =>
    intro be bc bm size sz rest h
    rw [CreateWindow_wait_cons] at h
    by_cases hall : ((be || addressed window Expose e) &&
        (bc || addressed window ConfigureNotify e) && (bm || addressed window MapNotify e)) = true
    · rw [if_pos hall] at h
      simp only [Option.some.injEq, Prod.mk.injEq] at h
      obtain ⟨h1, h2⟩ := h
      refine ⟨[e], by rw [h2]; rfl, by simp, ?_, ?_, ?_⟩
      · rw [acknowledged_from_cons, acknowledged_from_nil]; exact hall
      · intro p hp hne hne2
        rw [List.prefix_cons_iff] at hp
        rcases hp with hp | ⟨p2, hp, hp2⟩
        · exact absurd hp hne
        · rw [List.prefix_nil] at hp2
          rw [hp, hp2] at hne2
          exact absurd rfl hne2
      · rw [last_window_configure_cons, ← h1]
        rfl
    · rw [if_neg hall] at h
      obtain ⟨c, hc1, hc2, hc3, hc4, hc5⟩ := ih _ _ _ _ _ _ h
      refine ⟨e :: c, by rw [hc1]; rfl, by simp, ?_, ?_, ?_⟩
      · rw [acknowledged_from_cons]; exact hc3
      · intro p hp hne hne2
        rw [List.prefix_cons_iff] at hp
        rcases hp with hp | ⟨p2, hp, hp2⟩
        · exact absurd hp hne
        · rw [hp, acknowledged_from_cons]
          by_cases hp3 : p2 = []
          · rw [hp3, acknowledged_from_nil]
            exact Bool.eq_false_iff.mpr hall
          · apply hc4 p2 hp2 hp3
            intro hx
            rw [hp, hx] at hne2
            exact hne2 rfl
      · rw [last_window_configure_cons]; exact hc5

theorem CreateWindow_wait_complete (window : Nat) (events : List XWindowEvent) :
    ∀ (be bc bm : Bool) (size : Int × Int),
    (∃ p, p ≠ [] ∧ p <+: events ∧ acknowledged_from be bc bm window p = true) →
    (CreateWindow_wait window be bc bm size events).isSome = true := by
  induction events with
  | nil =>
    rintro be bc bm size ⟨p, hp1, hp2, _⟩
    rw [List.prefix_nil] at hp2
    exact absurd hp2 hp1
  | cons e es ih =>
    rintro be bc bm size ⟨p, hp1, hp2, hp3⟩
    rw [CreateWindow_wait_cons]
    by_cases hall : ((be || addressed window Expose e) &&
        (bc || addressed window ConfigureNotify e) && (bm || addressed window MapNotify e)) = true
    · rw [if_pos hall]; rfl
    · rw [if_neg hall]
      apply ih
      rw [List.prefix_cons_iff] at hp2
      rcases hp2 with hp2 | ⟨p2, hp2, hp4⟩
      · exact absurd hp2 hp1
      · rw [hp2, acknowledged_from_cons] at hp3
        refine ⟨p2, ?_, hp4, hp3⟩
        intro hx
        rw [hx, acknowledged_from_nil] at hp3
        exact hall hp3

theorem last_window_configure_some (window : Nat) (l : List XWindowEvent)
    (h : acknowledged window l = true) (size : Int × Int) :
    last_window_configure window l = some ((last_window_configure window l).getD size) := by
  unfold acknowledged acknowledged_from at h
  simp only [Bool.false_or, Bool.and_eq_true, List.any_eq_true] at h
  obtain ⟨⟨_, e, he, ha⟩, _⟩ := h
  unfold last_window_configure
  have hmem : e ∈ l.filter (addressed window ConfigureNotify) := List.mem_filter.mpr ⟨he, ha⟩
  cases hf : l.filter (addressed window ConfigureNotify) with
  | nil => rw [hf] at hmem; cases hmem
  | cons a as =>
    rw [List.getLast?_eq_getLast _ (List.cons_ne_nil a as)]
    rfl

/-- C24: the wait of `CreateWindow` returns exactly when the events hold a
first point at which an `Expose`, a `MapNotify` and a `ConfigureNotify` event,
each addressed to the new window, have all been read. It reads the events up
to and including that point and leaves the rest in the queue; no shorter run
of the events read holds the three, events for other windows count for
nothing, and the size recorded on exit is that of the last `ConfigureNotify`
event for the window among the events read. When no run of events holds the
three, the wait does not return. The session width and height when
`CreateWindow` returns are that recorded size. -/
theorem CreateWindow_wait_handshake (window : Nat) (size : Int × Int)
    (events : List XWindowEvent) :
    (∀ sz rest, CreateWindow_wait window false false false size events = some (sz, rest) →
      ∃ consumed, events = consumed ++ rest ∧ acknowledged window consumed = true ∧
        (∀ p, p <+: consumed → p ≠ consumed → acknowledged window p = false) ∧
        last_window_configure window consumed = some sz) ∧
    ((∃ p, p <+: events ∧ acknowledged window p = true) →
      (CreateWindow_wait window false false false size events).isSome = true) ∧
    ((∀ p, p <+: events → acknowledged window p = false) →
      CreateWindow_wait window false false false size events = none) ∧
    (∀ (m : Module) (s : ManageState) (r : Int × ManageState × List XWindowEvent),
      window = s.world.next_id → CreateWindow m s events = some r →
      ∃ consumed, events = consumed ++ r.2.2 ∧ acknowledged window consumed = true ∧
        last_window_configure window consumed = some (recorded_size r.2.1)) := by
  have hsound : ∀ (size : Int × Int) sz rest,
      CreateWindow_wait window false false false size events = some (sz, rest) →
      ∃ consumed, events = consumed ++ rest ∧ acknowledged window consumed = true ∧
        (∀ p, p <+: consumed → p ≠ consumed → acknowledged window p = false) ∧
        last_window_configure window consumed = some sz := by
    intro size sz rest h
    obtain ⟨c, c1, c2, c3, c4, c5⟩ := CreateWindow_wait_sound window events _ _ _ _ _ _ h
    refine ⟨c, c1, c3, ?_, ?_⟩
    · intro p hp hne
      by_cases hp0 : p = []
      · rw [hp0]; rfl
      · exact c4 p hp hp0 hne
    · rw [c5]
      exact last_window_configure_some window c c3 size
  refine ⟨hsound size, ?_, ?_, ?_⟩
  · rintro ⟨p, hp1, hp2⟩
    apply CreateWindow_wait_complete
    refine ⟨p, ?_, hp1, hp2⟩
    intro hx
    rw [hx] at hp2
    have hnil : acknowledged window [] = false := rfl
    rw [hnil] at hp2
    exact absurd hp2 (by decide)
  · intro hno
    cases hw : CreateWindow_wait window false false false size events with
    | none => rfl
    | some q =>
      obtain ⟨c, c1, c2, _⟩ := hsound size q.1 q.2 hw
      have := hno c (by rw [c1]; exact List.prefix_append _ _)
      rw [this] at c2
      exact absurd c2 (by decide)
  · intro m s r hwin hc
    obtain ⟨_, _, _, _, _, h6⟩ := CreateWindow_some hc
    rw [← hwin] at h6
    obtain ⟨c, c1, c2, _, c4⟩ := hsound _ _ _ h6
    exact ⟨c, c1, c2, c4⟩

theorem CreateWindow_wait_handshake_witness :
    CreateWindow_wait 8 false false false (64, 64) mixed_events =
      some ((1024, 768), [window_event Expose 8]) ∧
    ∃ consumed, mixed_events = consumed ++ [window_event Expose 8] ∧
      acknowledged 8 consumed = true ∧
      (∀ p, p <+: consumed → p ≠ consumed → acknowledged 8 p = false) ∧
      last_window_configure 8 consumed = some (1024, 768) :=
  ⟨by decide,
   (CreateWindow_wait_handshake 8 (64, 64) mixed_events).1 (1024, 768)
     [window_event Expose 8] (by decide)⟩

/-- C25 as stated fails: for a picture `NewPicture` has allocated, on both
paths of the xvideo build, the first request of `vout_Display` is the image
transfer; the resize and the move of the child window are the second and the
third, and `XSync` the fourth. The order claimed, resize and move before the
transfer, is not the order of the requests. -/
theorem vout_Display_blit_first :
    vout_Display Module.xvideo (sample_vout true 64 64 4) (displayed_picture true)
        sample_place =
      some [XRequest.XvShmPutImage 0 0 1 64 64 128 96, XRequest.XResizeWindow 0 128 96,
            XRequest.XMoveWindow 0 10 20, XRequest.XSync] ∧
    vout_Display Module.xvideo (sample_vout false 64 64 4) (displayed_picture false)
        sample_place =
      some [XRequest.XvPutImage 0 0 2 64 64 128 96, XRequest.XResizeWindow 0 128 96,
            XRequest.XMoveWindow 0 10 20, XRequest.XSync] ∧
    (vout_Display Module.xvideo (sample_vout true 64 64 4) (displayed_picture true)
        sample_place).map (List.map is_blit) ≠ some [false, false, true, false] ∧
    (vout_Display Module.xvideo (sample_vout false 64 64 4) (displayed_picture false)
        sample_place).map (List.map is_blit) ≠ some [false, false, true, false] := by
  decide

/-- C25 (amended): for a picture that holds an image, in the xvideo build
`vout_Display` sends four requests, on the shared-memory path and on the
other: first the image transfer to the child window, with the destination
size of the computed rectangle, then the resize of the child window to that
size, then its move to the position of the rectangle, and `XSync` last. The
transfer comes before the resize and the move, not after them. In the x11
build it sends the transfer and `XSync`. -/
theorem vout_Display_order (m : Module) (v : vout_thread_t) (p_pic : picture_t)
    (place : PlaceResult) (sys : picture_sys_t) (p_image : Nat)
    (hs : p_pic.p_sys = some sys) (hi : sys.p_image = some p_image) :
    vout_Display Module.xvideo v p_pic place =
      some
        [if v.p_sys.b_shm then
            XRequest.XvShmPutImage v.p_sys.i_xvport v.p_sys.yuv_window p_image
              v.output.i_width v.output.i_height place.i_width place.i_height
          else
            XRequest.XvPutImage v.p_sys.i_xvport v.p_sys.yuv_window p_image
              v.output.i_width v.output.i_height place.i_width place.i_height,
         XRequest.XResizeWindow v.p_sys.yuv_window place.i_width place.i_height,
         XRequest.XMoveWindow v.p_sys.yuv_window place.i_x place.i_y,
         XRequest.XSync] ∧
    (vout_Display Module.xvideo v p_pic place).map (List.map is_blit) =
      some [true, false, false, false] ∧
    (vout_Display Module.xvideo v p_pic place).map (List.map is_resize_or_move) =
      some [false, true, true, false] ∧
    (vout_Display m v p_pic place).bind List.getLast? = some XRequest.XSync ∧
    (vout_Display Module.x11 v p_pic place).map (List.map is_blit) = some [true, false] := by
  cases hb : v.p_sys.b_shm <;> cases m <;>
    simp [vout_Display, hs, hi, hb, is_blit, is_resize_or_move]

/-- C25 (amended), for the first picture `NewPicture` allocates with shared
memory at 64 x 64: the transfer of image 1, the resize, the move, `XSync`. -/
theorem vout_Display_order_witness :
    (displayed_picture true).p_sys =
      some { addr := 0, p_image := some 1,
             shminfo := { shmid := 2, shmaddr := some 2, readOnly := false } } ∧
    vout_Display Module.xvideo (sample_vout true 64 64 4) (displayed_picture true)
        sample_place =
      some [XRequest.XvShmPutImage 0 0 1 64 64 128 96, XRequest.XResizeWindow 0 128 96,
            XRequest.XMoveWindow 0 10 20, XRequest.XSync] ∧
    (vout_Display Module.x11 (sample_vout true 64 64 4) (displayed_picture true)
        sample_place).map (List.map is_blit) = some [true, false] :=
  ⟨by decide,
   (vout_Display_order Module.xvideo (sample_vout true 64 64 4) (displayed_picture true)
      sample_place
      { addr := 0, p_image := some 1,
        shminfo := { shmid := 2, shmaddr := some 2, readOnly := false } } 1
      (by decide) rfl).1,
   (vout_Display_order Module.xvideo (sample_vout true 64 64 4) (displayed_picture true)
      sample_place
      { addr := 0, p_image := some 1,
        shminfo := { shmid := 2, shmaddr := some 2, readOnly := false } } 1
      (by decide) rfl).2.2.2.2⟩

theorem cursor_inv_of_frame {s t : ManageState} (h : cursor_frame t = cursor_frame s)
    (hs : cursor_inv s) : cursor_inv t := by
  have h1 : t.vout.p_sys.b_mouse_pointer_visible = s.vout.p_sys.b_mouse_pointer_visible :=
    congrArg (fun x => x.1) h
  have h2 : t.world.cursor_blank = s.world.cursor_blank := congrArg (fun x => x.2) h
  unfold cursor_inv
  rw [h1, h2]
  exact hs

theorem ToggleCursor_cursor_inv (s : ManageState) : cursor_inv (ToggleCursor s) := by
  unfold cursor_inv ToggleCursor
  cases hv : s.vout.p_sys.b_mouse_pointer_visible <;> simp

theorem ToggleCursor_flips (s : ManageState) :
    (ToggleCursor s).vout.p_sys.b_mouse_pointer_visible =
      !s.vout.p_sys.b_mouse_pointer_visible := by
  unfold ToggleCursor
  cases hv : s.vout.p_sys.b_mouse_pointer_visible <;> simp

theorem ToggleCursor_twice (s : ManageState) (hs : cursor_inv s) :
    ToggleCursor (ToggleCursor s) = s := by
  unfold cursor_inv at hs
  obtain ⟨v, i, w⟩ := s
  obtain ⟨r, o, pp, sys, a, f, c⟩ := v
  cases hv : sys.b_mouse_pointer_visible
  · have hb : w.cursor_blank = true := by rw [← hs]; simp [hv]
    simp only [ToggleCursor, hv, Bool.false_eq_true, if_false, if_true]
    rw [← hv, ← hb]
  · have hb : w.cursor_blank = false := by rw [← hs]; simp [hv]
    simp only [ToggleCursor, hv, Bool.false_eq_true, if_false, if_true]
    rw [← hv, ← hb]

theorem CreateWindow_cursor_inv {m : Module} {s : ManageState} {events : List XWindowEvent}
    {r : Int × ManageState × List XWindowEvent} (h : CreateWindow m s events = some r) :
    cursor_inv r.2.1 ∧
    r.2.1.vout.p_sys.b_mouse_pointer_visible = s.vout.p_sys.b_mouse_pointer_visible := by
  unfold CreateWindow at h
  simp only at h
  split at h
  · cases h
  · rename_i recorded rest hw
    simp only [Option.some.injEq] at h
    rw [← h]
    simp only
    unfold CreateWindow_ready
    cases hv : s.vout.p_sys.b_mouse_pointer_visible
    · cases m
      · simp only [CreateWindow_open, hv, Bool.not_false, if_true]
        exact ⟨ToggleCursor_cursor_inv _, by rw [ToggleCursor_flips, ToggleCursor_flips]; simp [hv]⟩
      · simp only [CreateWindow_open, hv, Bool.not_false, if_true]
        exact ⟨ToggleCursor_cursor_inv _, by rw [ToggleCursor_flips, ToggleCursor_flips]; simp [hv]⟩
    · cases m
      · simp only [CreateWindow_open, hv, Bool.not_true, Bool.false_eq_true, if_false]
        exact ⟨rfl, trivial⟩
      · simp only [CreateWindow_open, hv, Bool.not_true, Bool.false_eq_true, if_false]
        exact ⟨rfl, trivial⟩

theorem vout_Manage_key_cursor (s : ManageState) (e : XEvent) :
    cursor_frame (vout_Manage_key s e) = cursor_frame s := by
  apply vout_Manage_key_elim s e (fun r => cursor_frame r = cursor_frame s) <;> intros <;> rfl

theorem vout_Manage_event_cursor_inv (m : Module) (s : ManageState) (b : Bool) (e : XEvent)
    (hs : cursor_inv s) : cursor_inv (vout_Manage_event m s b e).1 := by
  apply vout_Manage_event_elim m s b e (fun r => cursor_inv r.1)
  case h_key => intro _; exact cursor_inv_of_frame (vout_Manage_key_cursor s e) hs
  case h_map =>
    intro _ _
    have : cursor_frame (map_step m s) = cursor_frame s := by cases m <;> rfl
    exact cursor_inv_of_frame this hs
  case h_hidden => intro _ _; exact ToggleCursor_cursor_inv _
  all_goals intros; exact cursor_inv_of_frame rfl hs

theorem vout_Manage_drain_cursor_inv (m : Module) (events : List XEvent) (s : ManageState)
    (b : Bool) (hs : cursor_inv s) :
    cursor_inv (events.foldl (fun acc e => vout_Manage_event m acc.1 acc.2 e) (s, b)).1 := by
  induction events generalizing s b with
  | nil => exact hs
  | cons e es ih =>
    simp only [List.foldl_cons]
    exact ih _ _ (vout_Manage_event_cursor_inv m s b e hs)

theorem vout_Manage_loops_cursor_inv (m : Module) (s : ManageState) (inp : ManageInput)
    (hs : cursor_inv s) : cursor_inv (vout_Manage_loops m s inp) := by
  rw [vout_Manage_loops_eq]
  obtain ⟨c1, c2, _⟩ := vout_Manage_client_spec inp.client_messages
    (vout_Manage_drain m s inp.events).1
  have hf : cursor_frame (vout_Manage_client (vout_Manage_drain m s inp.events).1
      inp.client_messages) = cursor_frame (vout_Manage_drain m s inp.events).1 := by
    simp only [cursor_frame, c1, c2]
  exact cursor_inv_of_frame hf (vout_Manage_drain_cursor_inv m inp.events s false hs)

theorem vout_Manage_fullscreen_cursor_inv {m : Module} {s : ManageState}
    {handshake : List XWindowEvent} {r : Int × ManageState}
    (h : vout_Manage_fullscreen m s handshake = some r) (hs : cursor_inv s) :
    cursor_inv r.2 := by
  unfold vout_Manage_fullscreen at h
  by_cases hf : s.vout.i_changes &&& VOUT_FULLSCREEN_CHANGE ≠ 0
  · rw [if_pos hf] at h
    simp only at h
    split at h
    · cases h
    · rename_i ret s2 rest hc
      have hinv := (CreateWindow_cursor_inv hc).1
      have h0 := (CreateWindow_some hc).1
      simp only at hinv h0
      subst h0
      simp only [ne_eq, not_true_eq_false, if_false, Option.some.injEq] at h
      rw [← h]
      exact hinv
  · rw [if_neg hf] at h
    simp only [Option.some.injEq] at h
    rw [← h]
    exact hs

theorem vout_Manage_cursor_inv {m : Module} {s : ManageState} {inp : ManageInput}
    {r : Int × ManageState} (h : vout_Manage m s inp = some r) (hs : cursor_inv s) :
    cursor_inv r.2 := by
  obtain ⟨_, s4, h4, hr⟩ := vout_Manage_some h
  have h5 : cursor_inv s4 :=
    vout_Manage_fullscreen_cursor_inv h4 (vout_Manage_loops_cursor_inv m s inp hs)
  have h6 : cursor_inv (vout_Manage_size m s4) := by
    obtain ⟨_, _, _, t4, t5⟩ := vout_Manage_size_tail m s4
    exact cursor_inv_of_frame (by simp only [cursor_frame, t4, t5]) h5
  rw [hr]
  unfold vout_Manage_autohide
  split
  · split
    · exact ToggleCursor_cursor_inv _
    · exact h6
  · exact h6

theorem InitDisplay_cursor (m : Module) (s : ManageState) :
    cursor_frame (InitDisplay m s).2 = cursor_frame s := by
  unfold InitDisplay
  cases m
  · simp only
    split
    · split <;> rfl
    · split <;> rfl
  · rfl

theorem vout_Create_cursor_inv {m : Module} {s0 s1 : ManageState} {inp : CreateInput}
    (h : vout_Create m s0 inp = some (0, s1)) :
    cursor_inv s1 ∧ s1.vout.p_sys.b_mouse_pointer_visible = true := by
  have tail : ∀ (t : ManageState) (q : Int × ManageState × List XWindowEvent),
      t.vout.p_sys.b_mouse_pointer_visible = true →
      CreateWindow m t inp.handshake = some q →
      DisableXScreenSaver m (InitDisplay m q.2.1).2 = s1 →
      cursor_inv s1 ∧ s1.vout.p_sys.b_mouse_pointer_visible = true := by
    intro t q hv hc hk
    obtain ⟨c1, c2⟩ := CreateWindow_cursor_inv hc
    have hf : cursor_frame s1 = cursor_frame q.2.1 := by
      rw [← hk]
      have : cursor_frame (DisableXScreenSaver m (InitDisplay m q.2.1).2) =
          cursor_frame (InitDisplay m q.2.1).2 := by cases m <;> rfl
      rw [this, InitDisplay_cursor]
    refine ⟨cursor_inv_of_frame hf c1, ?_⟩
    have := congrArg (fun x => x.1) hf
    simp only [cursor_frame] at this
    rw [this, c2, hv]
  unfold vout_Create at h
  by_cases h1 : inp.malloc_ok = false
  · rw [if_pos h1] at h
    simp only [Option.some.injEq, Prod.mk.injEq] at h
    exact absurd h.1 (by decide)
  · rw [if_neg h1] at h
    by_cases h2 : inp.display_ok = false
    · rw [if_pos h2] at h
      simp only [Option.some.injEq, Prod.mk.injEq] at h
      exact absurd h.1 (by decide)
    · rw [if_neg h2] at h
      cases m
      · simp only at h
        split at h
        · cases h
        · rename_i ret s4 rest hc
          by_cases hr : ret ≠ 0
          · rw [if_pos hr] at h
            simp only [Option.some.injEq, Prod.mk.injEq] at h
            exact absurd h.1 (by decide)
          · rw [if_neg hr] at h
            by_cases hi : (InitDisplay Module.x11 s4).1 ≠ 0
            · rw [if_pos hi] at h
              simp only [Option.some.injEq, Prod.mk.injEq] at h
              exact absurd h.1 (by decide)
            · rw [if_neg hi] at h
              simp only [Option.some.injEq, Prod.mk.injEq, true_and] at h
              exact tail _ _ rfl hc h
      · simp only at h
        by_cases hp : inp.xv_port < 0
        · rw [if_pos hp] at h
          simp only [Option.some.injEq, Prod.mk.injEq] at h
          exact absurd h.1 (by decide)
        · rw [if_neg hp] at h
          simp only at h
          split at h
          · cases h
          · rename_i ret s4 rest hc
            by_cases hr : ret ≠ 0
            · rw [if_pos hr] at h
              simp only [Option.some.injEq, Prod.mk.injEq] at h
              exact absurd h.1 (by decide)
            · rw [if_neg hr] at h
              by_cases hi : (InitDisplay Module.xvideo s4).1 ≠ 0
              · rw [if_pos hi] at h
                simp only [Option.some.injEq, Prod.mk.injEq] at h
                exact absurd h.1 (by decide)
              · rw [if_neg hi] at h
                simp only [Option.some.injEq, Prod.mk.injEq, true_and] at h
                exact tail _ _ rfl hc h

/-- C26: in every state a session reaches through a successful `vout_Create`,
`vout_Manage` cycles that return (fullscreen changes included) and
`ToggleCursor` calls, `b_mouse_pointer_visible` is false exactly when the main
window has the blank cursor defined. `ToggleCursor` inverts the flag in every
state, and in a reachable state two `ToggleCursor` calls in a row give the
state back, flag and cursor of the window included. -/
theorem cursor_flag_matches_window (m : Module) (s : ManageState) (h : Reachable m s) :
    (s.vout.p_sys.b_mouse_pointer_visible = false ↔ s.world.cursor_blank = true) ∧
    (ToggleCursor s).vout.p_sys.b_mouse_pointer_visible =
      (!s.vout.p_sys.b_mouse_pointer_visible) ∧
    (s.vout.p_sys.b_mouse_pointer_visible = true → (ToggleCursor s).world.cursor_blank = true) ∧
    (s.vout.p_sys.b_mouse_pointer_visible = false →
      (ToggleCursor s).world.cursor_blank = false) ∧
    ToggleCursor (ToggleCursor s) = s := by
  have hinv : cursor_inv s := by
    induction h with
    | create s0 s inp hc => exact (vout_Create_cursor_inv hc).1
    | manage s inp r _ hm ih => exact vout_Manage_cursor_inv hm ih
    | toggle s _ _ => exact ToggleCursor_cursor_inv s
  refine ⟨?_, ToggleCursor_flips s, ?_, ?_, ToggleCursor_twice s hinv⟩
  · unfold cursor_inv at hinv
    rw [← hinv]
    cases s.vout.p_sys.b_mouse_pointer_visible <;> simp
  · intro hv
    exact (ToggleCursor_visible s hv).2.1
  · intro hv
    exact (ToggleCursor_hidden s hv).2.1

theorem cursor_flag_matches_window_witness :
    Reachable Module.x11 (vout_Manage_autohide created_state) ∧
    ((vout_Manage_autohide created_state).vout.p_sys.b_mouse_pointer_visible = false ↔
      (vout_Manage_autohide created_state).world.cursor_blank = true) ∧
    ToggleCursor (ToggleCursor (vout_Manage_autohide created_state)) =
      vout_Manage_autohide created_state :=
  ⟨Reachable.manage created_state no_input (0, vout_Manage_autohide created_state)
      (Reachable.create sample_state created_state create_input rfl) rfl,
   (cursor_flag_matches_window Module.x11 (vout_Manage_autohide created_state)
      (Reachable.manage created_state no_input (0, vout_Manage_autohide created_state)
        (Reachable.create sample_state created_state create_input rfl) rfl)).1,
   (cursor_flag_matches_window Module.x11 (vout_Manage_autohide created_state)
      (Reachable.manage created_state no_input (0, vout_Manage_autohide created_state)
        (Reachable.create sample_state created_state create_input rfl) rfl)).2.2.2.2⟩

theorem XVideoGetPort_ports_selected (grab : Nat → Int → Bool) (ps : List Int) (st : XvState)
    (h : st.i_selected_port ≠ -1) : XVideoGetPort_ports grab ps st = st := by
  cases ps with
  | nil => rfl
  | cons p rest => rw [XVideoGetPort_ports, if_neg h]

theorem XVideoGetPort_ports_append (grab : Nat → Int → Bool) (ps qs : List Int) (st : XvState) :
    XVideoGetPort_ports grab (ps ++ qs) st =
      XVideoGetPort_ports grab qs (XVideoGetPort_ports grab ps st) := by
  induction ps generalizing st with
  | nil => rfl
  | cons p rest ih =>
    by_cases h : st.i_selected_port = -1
    · rw [List.cons_append, XVideoGetPort_ports, if_pos h, XVideoGetPort_ports, if_pos h]
      exact ih _
    · rw [List.cons_append, XVideoGetPort_ports, if_neg h, XVideoGetPort_ports, if_neg h,
        XVideoGetPort_ports_selected grab qs st h]

theorem XVideoGetPort_formats_eq (grab : Nat → Int → Bool) (i_id : Int) (a : XvAdaptorInfo)
    (formats : List Int) (st : XvState) :
    XVideoGetPort_formats grab i_id a formats st =
      XVideoGetPort_ports grab (spec_format_attempts i_id a formats) st := by
  induction formats generalizing st with
  | nil => rfl
  | cons id rest ih =>
    rw [XVideoGetPort_formats, spec_format_attempts]
    by_cases h : id = i_id
    · rw [if_neg (not_not.mpr h), if_pos h, XVideoGetPort_ports_append, ih]
    · rw [if_pos h, if_neg h, ih]
      rfl

theorem XVideoGetPort_adaptors_eq (grab : Nat → Int → Bool) (i_id i_requested_adaptor : Int)
    (adaptors : List XvAdaptorInfo) (i_adaptor : Nat) (st : XvState) :
    XVideoGetPort_adaptors grab i_id i_requested_adaptor i_adaptor adaptors st =
      XVideoGetPort_ports grab (spec_attempts i_id i_requested_adaptor i_adaptor adaptors) st := by
  induction adaptors generalizing st i_adaptor with
  | nil => rfl
  | cons a rest ih =>
    rw [XVideoGetPort_adaptors, spec_attempts, XVideoGetPort_ports_append, ih]
    congr 1
    by_cases h1 : i_requested_adaptor ≠ -1 ∧ (i_adaptor : Int) ≠ i_requested_adaptor
    · rw [if_pos h1]
      have : spec_eligible i_requested_adaptor i_adaptor a = false := by
        simp [spec_eligible, h1.1, h1.2]
      rw [this]
      rfl
    · rw [if_neg h1]
      by_cases h2 : a.type &&& XvInputMask = 0 ∨ a.type &&& XvImageMask = 0
      · rw [if_pos h2]
        have : spec_eligible i_requested_adaptor i_adaptor a = false := by
          rcases h2 with h2 | h2 <;> simp [spec_eligible, h2]
        rw [this]
        rfl
      · rw [if_neg h2]
        have : spec_eligible i_requested_adaptor i_adaptor a = true := by
          rw [not_or] at h2
          rw [not_and_or, not_not, not_not] at h1
          simp only [spec_eligible, Bool.and_eq_true, Bool.or_eq_true, decide_eq_true_eq]
          exact ⟨⟨h1, h2.1⟩, h2.2⟩
        rw [this, if_pos rfl, XVideoGetPort_formats_eq]

theorem XVideoGetPort_ports_first (grab : Nat → Int → Bool) (ps : List Int) (k : Nat)
    (hps : ∀ p ∈ ps, (0 : Int) ≤ p) :
    (XVideoGetPort_ports grab ps { i_selected_port := -1, calls := k, grabbed := [] }).i_selected_port
      = (first_grab grab k ps).getD (-1) ∧
    (XVideoGetPort_ports grab ps { i_selected_port := -1, calls := k, grabbed := [] }).grabbed
      = (first_grab grab k ps).toList := by
  induction ps generalizing k with
  | nil => exact ⟨rfl, rfl⟩
  | cons p rest ih =>
    rw [XVideoGetPort_ports, if_pos rfl, first_grab]
    simp only
    cases hg : grab k p
    · simp only [Bool.false_eq_true, if_false]
      exact ih (k + 1) (fun q hq => hps q (List.mem_cons_of_mem _ hq))
    · simp only [if_true, List.nil_append]
      have hp : (0 : Int) ≤ p := hps p (List.mem_cons_self _ _)
      rw [XVideoGetPort_ports_selected grab rest _ (by simp only; omega)]
      exact ⟨rfl, rfl⟩

theorem first_grab_mem (grab : Nat → Int → Bool) (ps : List Int) (k : Nat) (p : Int)
    (h : first_grab grab k ps = some p) :
    ∃ pre post, ps = pre ++ p :: post ∧ grab (k + pre.length) p = true ∧
      ∀ i (hi : i < pre.length), grab (k + i) (pre.get ⟨i, hi⟩) = false := by
  induction ps generalizing k with
  | nil => simp [first_grab] at h
  | cons q rest ih =>
    rw [first_grab] at h
    cases hg : grab k q
    · rw [hg] at h
      simp only [Bool.false_eq_true, if_false] at h
      obtain ⟨pre, post, h1, h2, h3⟩ := ih (k + 1) h
      refine ⟨q :: pre, post, by rw [h1]; rfl, ?_, ?_⟩
      · rw [List.length_cons, ← h2]; congr 1; omega
      · intro i hi
        cases i with
        | zero => exact hg
        | succ j =>
          have := h3 j (by simpa using hi)
          rw [← this]
          simp only [List.get_eq_getElem, List.getElem_cons_succ]
          congr 1
          omega
    · rw [hg] at h
      simp only [if_true, Option.some.injEq] at h
      exact ⟨[], rest, by rw [h]; rfl, by rw [← h]; exact hg, fun i hi => by cases hi⟩

theorem adaptor_ports_nonneg (a : XvAdaptorInfo) : ∀ p ∈ adaptor_ports a, (0 : Int) ≤ p := by
  intro p hp
  unfold adaptor_ports at hp
  rw [List.mem_map] at hp
  obtain ⟨k, _, hk⟩ := hp
  rw [← hk]
  exact Int.ofNat_nonneg _

theorem spec_format_attempts_nonneg (i_id : Int) (a : XvAdaptorInfo) (formats : List Int) :
    ∀ p ∈ spec_format_attempts i_id a formats, (0 : Int) ≤ p := by
  induction formats with
  | nil => intro p hp; cases hp
  | cons id rest ih =>
    intro p hp
    rw [spec_format_attempts, List.mem_append] at hp
    rcases hp with hp | hp
    · by_cases h : id = i_id
      · rw [if_pos h] at hp; exact adaptor_ports_nonneg a p hp
      · rw [if_neg h] at hp; cases hp
    · exact ih p hp

theorem spec_attempts_nonneg (i_id i_requested_adaptor : Int) (adaptors : List XvAdaptorInfo)
    (i_adaptor : Nat) :
    ∀ p ∈ spec_attempts i_id i_requested_adaptor i_adaptor adaptors, (0 : Int) ≤ p := by
  induction adaptors generalizing i_adaptor with
  | nil => intro p hp; cases hp
  | cons a rest ih =>
    intro p hp
    rw [spec_attempts, List.mem_append] at hp
    rcases hp with hp | hp
    · cases he : spec_eligible i_requested_adaptor i_adaptor a
      · rw [he] at hp; simp at hp
      · rw [he, if_pos rfl] at hp; exact spec_format_attempts_nonneg i_id a a.formats p hp
    · exact ih (i_adaptor + 1) p hp

theorem spec_format_attempts_absent (i_id : Int) (a : XvAdaptorInfo) (formats : List Int)
    (h : i_id ∉ formats) : spec_format_attempts i_id a formats = [] := by
  induction formats with
  | nil => rfl
  | cons id rest ih =>
    rw [spec_format_attempts]
    have h1 : id ≠ i_id := fun hx => h (by rw [hx]; exact List.mem_cons_self _ _)
    rw [if_neg h1, ih (fun hx => h (List.mem_cons_of_mem _ hx))]
    rfl

theorem spec_format_attempts_once (i_id : Int) (a : XvAdaptorInfo) (formats : List Int)
    (h : formats.count i_id = 1) : spec_format_attempts i_id a formats = adaptor_ports a := by
  induction formats with
  | nil => simp at h
  | cons id rest ih =>
    rw [spec_format_attempts]
    by_cases h1 : id = i_id
    · rw [if_pos h1]
      rw [h1, List.count_cons_self] at h
      have h0 : rest.count i_id = 0 := by omega
      rw [spec_format_attempts_absent i_id a rest (List.count_eq_zero.mp h0), List.append_nil]
    · rw [if_neg h1]
      rw [List.count_cons_of_ne (fun hx => h1 hx.symm)] at h
      rw [ih h]
      rfl

/-- C30: `XVideoGetPort` grabs at most one port. It returns -1 exactly when it
grabbed none, and the port it grabbed otherwise. The ports it tries are, in
order, those of each adaptor that is the requested one when one is requested
and has the input and the image capability, once for each listing of the
requested format by the adaptor (so once when the format is listed once, and
not at all when it is not listed); the port returned is the first of them
whose grab succeeds, and no grab is made after it. When `XvQueryExtension` or
`XvQueryAdaptors` does not return `Success` no grab is made and -1 is
returned. -/
theorem XVideoGetPort_first_free (ext_status adaptors_status : Int)
    (adaptors : List XvAdaptorInfo) (i_requested_adaptor : Int) (grab : Nat → Int → Bool)
    (i_id : Int) :
    (XVideoGetPort ext_status adaptors_status adaptors i_requested_adaptor grab
      i_id).grabbed.length ≤ 1 ∧
    ((XVideoGetPort ext_status adaptors_status adaptors i_requested_adaptor grab
        i_id).i_selected_port = -1 ↔
      (XVideoGetPort ext_status adaptors_status adaptors i_requested_adaptor grab
        i_id).grabbed = []) ∧
    (∀ p, p ∈ (XVideoGetPort ext_status adaptors_status adaptors i_requested_adaptor grab
        i_id).grabbed →
      (XVideoGetPort ext_status adaptors_status adaptors i_requested_adaptor grab
        i_id).i_selected_port = p) ∧
    ((ext_status ≠ Success ∨ adaptors_status ≠ Success) →
      XVideoGetPort ext_status adaptors_status adaptors i_requested_adaptor grab i_id =
        { i_selected_port := -1, calls := 0, grabbed := [] }) ∧
    (ext_status = Success → adaptors_status = Success →
      (XVideoGetPort ext_status adaptors_status adaptors i_requested_adaptor grab
          i_id).i_selected_port =
        (first_grab grab 0 (spec_attempts i_id i_requested_adaptor 0 adaptors)).getD (-1) ∧
      (XVideoGetPort ext_status adaptors_status adaptors i_requested_adaptor grab
          i_id).grabbed =
        (first_grab grab 0 (spec_attempts i_id i_requested_adaptor 0 adaptors)).toList) ∧
    (∀ p, first_grab grab 0 (spec_attempts i_id i_requested_adaptor 0 adaptors) = some p →
      ∃ pre post, spec_attempts i_id i_requested_adaptor 0 adaptors = pre ++ p :: post ∧
        grab pre.length p = true ∧
        ∀ i (hi : i < pre.length), grab i (pre.get ⟨i, hi⟩) = false) ∧
    (∀ a : XvAdaptorInfo, (i_id ∉ a.formats → spec_format_attempts i_id a a.formats = []) ∧
      (a.formats.count i_id = 1 → spec_format_attempts i_id a a.formats = adaptor_ports a)) := by
  have hfail : (ext_status ≠ Success ∨ adaptors_status ≠ Success) →
      XVideoGetPort ext_status adaptors_status adaptors i_requested_adaptor grab i_id =
        { i_selected_port := -1, calls := 0, grabbed := [] } := by
    intro h
    unfold XVideoGetPort
    by_cases h1 : ext_status ≠ Success
    · rw [if_pos h1]
    · rw [if_neg h1]
      rcases h with h | h
      · exact absurd h h1
      · rw [if_pos h]
  have hok : ext_status = Success → adaptors_status = Success →
      (XVideoGetPort ext_status adaptors_status adaptors i_requested_adaptor grab
          i_id).i_selected_port =
        (first_grab grab 0 (spec_attempts i_id i_requested_adaptor 0 adaptors)).getD (-1) ∧
      (XVideoGetPort ext_status adaptors_status adaptors i_requested_adaptor grab
          i_id).grabbed =
        (first_grab grab 0 (spec_attempts i_id i_requested_adaptor 0 adaptors)).toList := by
    intro h1 h2
    unfold XVideoGetPort
    rw [if_neg (not_not.mpr h1), if_neg (not_not.mpr h2), XVideoGetPort_adaptors_eq]
    exact XVideoGetPort_ports_first grab _ 0 (spec_attempts_nonneg i_id i_requested_adaptor
      adaptors 0)
  have hmem := first_grab_mem grab (spec_attempts i_id i_requested_adaptor 0 adaptors) 0
  have hthree : (XVideoGetPort ext_status adaptors_status adaptors i_requested_adaptor grab
        i_id).grabbed.length ≤ 1 ∧
      ((XVideoGetPort ext_status adaptors_status adaptors i_requested_adaptor grab
          i_id).i_selected_port = -1 ↔
        (XVideoGetPort ext_status adaptors_status adaptors i_requested_adaptor grab
          i_id).grabbed = []) ∧
      (∀ p, p ∈ (XVideoGetPort ext_status adaptors_status adaptors i_requested_adaptor grab
          i_id).grabbed →
        (XVideoGetPort ext_status adaptors_status adaptors i_requested_adaptor grab
          i_id).i_selected_port = p) := by
    by_cases hs : ext_status = Success ∧ adaptors_status = Success
    · obtain ⟨e1, e2⟩ := hok hs.1 hs.2
      rw [e1, e2]
      cases hfg : first_grab grab 0 (spec_attempts i_id i_requested_adaptor 0 adaptors) with
      | none => simp
      | some p =>
        obtain ⟨pre, post, hp, _, _⟩ := hmem p hfg
        have hp0 : (0 : Int) ≤ p :=
          spec_attempts_nonneg i_id i_requested_adaptor adaptors 0 p
            (by rw [hp]; exact List.mem_append_right _ (List.mem_cons_self _ _))
        simp only [Option.toList_some, List.length_singleton, le_refl, Option.getD_some,
          List.mem_singleton, true_and]
        refine ⟨⟨fun hx => by omega, fun hx => by simp at hx⟩, fun q hq => hq.symm⟩
    · rw [hfail (by
        by_cases h1 : ext_status = Success
        · exact Or.inr (fun h2 => hs ⟨h1, h2⟩)
        · exact Or.inl h1)]
      simp
  refine ⟨hthree.1, hthree.2.1, hthree.2.2, hfail, hok, ?_, ?_⟩
  · intro p hp
    obtain ⟨pre, post, h1, h2, h3⟩ := hmem p hp
    refine ⟨pre, post, h1, by simpa using h2, fun i hi => by simpa using h3 i hi⟩
  · intro a
    exact ⟨spec_format_attempts_absent i_id a a.formats,
      spec_format_attempts_once i_id a a.formats⟩

theorem XVideoGetPort_first_free_witness :
    XVideoGetPort Success Success sample_adaptors (-1) grab_51 0x32315659 =
      { i_selected_port := 51, calls := 2, grabbed := [51] } ∧
    spec_attempts 0x32315659 (-1) 0 sample_adaptors = [50, 51, 52] ∧
    first_grab grab_51 0 (spec_attempts 0x32315659 (-1) 0 sample_adaptors) = some 51 ∧
    (XVideoGetPort Success Success sample_adaptors (-1) grab_51 0x32315659).i_selected_port =
      (first_grab grab_51 0 (spec_attempts 0x32315659 (-1) 0 sample_adaptors)).getD (-1) ∧
    (XVideoGetPort Success Success sample_adaptors 0 grab_51 0x32315659).i_selected_port = -1 :=
  ⟨by decide, by decide, by decide,
   ((XVideoGetPort_first_free Success Success sample_adaptors (-1) grab_51 0x32315659).2.2.2.2.1
     rfl rfl).1,
   by decide⟩

/-- C20: on a screen of depth 8 the x11 `InitDisplay` asks `XGetVisualInfo` for
the class DirectColor, not PseudoColor: it fails exactly when the screen has no
DirectColor visual, whatever PseudoColor visuals there are. On a screen of
another depth it asks for TrueColor, fails exactly when there is none, and
copies the three masks of the first one. On a screen of depth 8 whose only
visual is a PseudoColor one it returns 1; with a DirectColor one instead it
returns 0 with one byte per pixel. -/
theorem InitDisplay_visual_class (s : ManageState) :
    (s.world.default_depth = 8 →
      ((InitDisplay Module.x11 s).1 ≠ 0 ↔
        XGetVisualInfo s.world s.world.default_screen DirectColor = [])) ∧
    (s.world.default_depth ≠ 8 →
      ((InitDisplay Module.x11 s).1 ≠ 0 ↔
        XGetVisualInfo s.world s.world.default_screen TrueColor = []) ∧
      ∀ vi rest, XGetVisualInfo s.world s.world.default_screen TrueColor = vi :: rest →
        (InitDisplay Module.x11 s).2.vout.p_sys.i_red_mask = vi.red_mask ∧
        (InitDisplay Module.x11 s).2.vout.p_sys.i_green_mask = vi.green_mask ∧
        (InitDisplay Module.x11 s).2.vout.p_sys.i_blue_mask = vi.blue_mask) ∧
    (depth8_state PseudoColor).world.default_depth = 8 ∧
    XGetVisualInfo (depth8_state PseudoColor).world 0 PseudoColor ≠ [] ∧
    (InitDisplay Module.x11 (depth8_state PseudoColor)).1 = 1 ∧
    (InitDisplay Module.x11 (depth8_state DirectColor)).1 = 0 ∧
    (InitDisplay Module.x11 (depth8_state DirectColor)).2.vout.p_sys.i_bytes_per_pixel = 1 := by
  refine ⟨?_, ?_, by decide, by decide, by decide, by decide, by decide⟩
  · intro h8
    obtain ⟨h1, h2⟩ := InitDisplay_x11_eight s h8
    cases hv : XGetVisualInfo s.world s.world.default_screen DirectColor with
    | nil =>
      rw [h1 hv]
      exact ⟨fun _ => rfl, fun _ => by decide⟩
    | cons vi rest =>
      rw [(h2 vi rest hv).1]
      exact ⟨fun hx => absurd rfl hx, fun hx => by cases hx⟩
  · intro h8
    obtain ⟨h1, h2⟩ := InitDisplay_x11_other s h8
    constructor
    · cases hv : XGetVisualInfo s.world s.world.default_screen TrueColor with
      | nil =>
        rw [h1 hv]
        exact ⟨fun _ => rfl, fun _ => by decide⟩
      | cons vi rest =>
        rw [(h2 vi rest hv).1]
        exact ⟨fun hx => absurd rfl hx, fun hx => by cases hx⟩
    · intro vi rest hv
      obtain ⟨_, _, _, m1, m2, m3⟩ := h2 vi rest hv
      exact ⟨m1, m2, m3⟩

theorem InitDisplay_visual_class_witness :
    (depth8_state PseudoColor).world.default_depth = 8 ∧
    XGetVisualInfo (depth8_state PseudoColor).world
      (depth8_state PseudoColor).world.default_screen DirectColor = [] ∧
    (InitDisplay Module.x11 (depth8_state PseudoColor)).1 ≠ 0 :=
  ⟨rfl, rfl,
   ((InitDisplay_visual_class (depth8_state PseudoColor)).1 rfl).mpr rfl⟩

end Xcommon
